import Mathlib

/-!
# Breadbox backend: account lifecycle and ownership core

A shallow embedding of the Express/Mongoose backend under `src/backend`:

* documents are records, collections are lists in insertion order, the store is a
  record of the five collections;
* every handler is a pure function from the store, the per-request environment
  (clock, random draw, fresh ObjectId, mail outcome) and the request to the new
  store and the response;
* the external libraries (bcrypt, jsonwebtoken, validator.js, the JavaScript string
  functions used by the schema setters) are the fields of `Lib`; theorems that need
  one of their laws state it as a hypothesis;
* a thrown exception is the response the handler's `catch` block sends.

Of Mongoose's document validation only the `required` check on an absent path is
modelled (the other schema validators repeat the route validators); an update document
leaves out its undefined fields; store faults and the TTL index on `otpExpiry` (a
background deletion by the store) are outside the model.
-/

namespace Breadbox

/-! ## Data model -/

/-- Mongo ObjectId. -/
abbrev ObjectId := Nat

/-- A document of the `User` or of the `Vendor` collection (`models/Vendor.js`;
both schemas have the same paths). `otpExpiry` is in milliseconds since the epoch. -/
structure Account where
  _id : ObjectId
  name : String
  email : String
  password : String
  phoneNumber : String
  address : String
  otp : Option String
  otpExpiry : Option Nat
  isVerified : Bool
  role : String
deriving DecidableEq, Repr

/-- A document of `models/Restaurant.js`. -/
structure Restaurant where
  _id : ObjectId
  vendorId : ObjectId
  name : String
  address : String
  phone : String
  operatingHours : String
deriving DecidableEq, Repr

/-- A document of `models/Item.js`; `type` is `Food` or `Juice`. -/
structure Item where
  _id : ObjectId
  vendorId : ObjectId
  name : String
  description : Option String
  price : Int
  type : String
  isAvailable : Bool
deriving DecidableEq, Repr

/-- A document of `models/Package.js`; `items` is the ordered list of Item references. -/
structure Package where
  _id : ObjectId
  vendorId : ObjectId
  packageName : String
  description : Option String
  price : Int
  items : List ObjectId
  imageUrl : String
  isActive : Bool
deriving DecidableEq, Repr

/-- The persistence store: the five collections. -/
structure Store where
  users : List Account
  vendors : List Account
  restaurants : List Restaurant
  items : List Item
  packages : List Package
deriving DecidableEq, Repr

/-- The payload of a token: `jwt.sign` is given `{_id, email, name, role}` by the user
login and `{vendorId, email, name}` by the vendor login. -/
structure Claims where
  _id : Option ObjectId
  vendorId : Option ObjectId
  email : String
  name : String
  role : Option String
deriving DecidableEq, Repr

/-- The external libraries the handlers call.
`hash` is `bcrypt.hash(·, 10)`, `compare` is `bcrypt.compare(plain, stored)`,
`sign` and `verify` are `jwt.sign(·, JWT_SECRET)` and `jwt.verify(·, JWT_SECRET)`
(`none` when it throws), `isEmail` is validator.js, `trim` and `toLowerCase` are the
JavaScript string functions behind the schema options `trim: true` and
`lowercase: true`, `textSearch` is Mongo's `$text` query with its score ordering. -/
structure Lib where
  hash : String → String
  compare : String → String → Bool
  sign : Claims → String
  verify : String → Option Claims
  isEmail : String → Bool
  trim : String → String
  toLowerCase : String → String
  textSearch : String → List Item → List Item

/-- What a request reads from the outside world: `Date.now()`, the entropy behind
`crypto.randomInt`, the ObjectId a new document gets, and whether
`transporter.sendMail` resolves. -/
structure Env where
  now : Nat
  rand : Nat
  newId : ObjectId
  mailOk : Bool
deriving DecidableEq, Repr

/-- The data a success response carries next to its message. -/
inductive Payload where
  | none
  | restaurant (r : Restaurant)
  | item (i : Item)
  | items (l : List Item)
  | package (p : Package)
  | packages (l : List (Package × List Item))
  | stats (totalUsers : Nat) (usersByRole : List (String × Nat))
deriving DecidableEq, Repr

/-- An HTTP response: `res.status(status).json({message, error, errors, token, role, ...})`. -/
structure Response where
  status : Nat
  message : String
  error : Bool
  errors : List String
  token : Option String
  role : Option String
  payload : Payload
deriving DecidableEq, Repr

/-- The response `res.status(status).json({ message })`. -/
def Response.msg (status : Nat) (message : String) : Response :=
  { status := status, message := message, error := false, errors := [], token := none,
    role := none, payload := Payload.none }

/-- The response of a `catch` block: `res.status(500).json({ message, error: error.message })`. -/
def Response.caught (status : Nat) (message : String) : Response :=
  { status := status, message := message, error := true, errors := [], token := none,
    role := none, payload := Payload.none }

/-- The response `res.status(400).json({ errors: errors.array() })` of a failed validation. -/
def Response.invalid (errors : List String) : Response :=
  { status := 400, message := "", error := false, errors := errors, token := none,
    role := none, payload := Payload.none }

/-- The response `res.status(status).json({ message, <resource> })`. -/
def Response.withPayload (status : Nat) (message : String) (p : Payload) : Response :=
  { status := status, message := message, error := false, errors := [], token := none,
    role := none, payload := p }

/-- JavaScript `!x` for a body field that is a string or absent: absent and the empty
string are falsy. -/
def falsy (x : Option String) : Bool :=
  match x with
  | none => true
  | some s => s == ""

/-- The OTP validity window, `10 * 60 * 1000` milliseconds. -/
def otpWindow : Nat := 10 * 60 * 1000

/-- The `crypto.randomInt(min, max)` draw: an integer `n` with `min <= n < max`, here
chosen by the entropy `rand`. -/
def randomInt (min max rand : Nat) : Nat := min + rand % (max - min)

/-- The code generator `generateOTP` of both controllers:
`crypto.randomInt(100000, 999999).toString()`. -/
def generateOTP (rand : Nat) : String := toString (randomInt 100000 999999 rand)

/-! ## Models -/

/-- The setters of the `email` path (`trim: true`, `lowercase: true`), which Mongoose
runs on a document's value and on a query filter's value. The `User` schema, which is
not among the sources, is given the same email path as the `Vendor` schema. -/
def emailSetter (L : Lib) (email : String) : String := L.toLowerCase (L.trim email)

/-- The query `Model.findOne({ email })`: the first document whose stored email is the
cast filter value. -/
def findOneByEmail (L : Lib) (docs : List Account) (email : String) : Option Account :=
  docs.find? (fun d => d.email == emailSetter L email)

/-- The query `Model.findById(id)`. -/
def findById (docs : List Account) (id : ObjectId) : Option Account :=
  docs.find? (fun d => d._id == id)

/-- A single-document update: rewrites the first document that matches the filter. -/
def updateFirst {α : Type} (p : α → Bool) (f : α → α) : List α → List α
  | [] => []
  | d :: ds => if p d then f d :: ds else d :: updateFirst p f ds

/-- The write of `doc.save()` on a loaded document: the stored document with the `_id`
of `doc` becomes `doc`. -/
def replaceById (docs : List Account) (doc : Account) : List Account :=
  updateFirst (fun d => d._id == doc._id) (fun _ => doc) docs

/-- The write `Model.deleteOne({ email })`: removes the first matching document. -/
def deleteOneByEmail (L : Lib) (docs : List Account) (email : String) : List Account :=
  docs.eraseP (fun d => d.email == emailSetter L email)

/-- A write of the deletion cascade: `Restaurant.deleteOne({ vendorId })`,
`Item.deleteMany({ vendorId })`, `Package.deleteMany({ vendorId })` and
`Vendor.deleteOne({ email })`. -/
inductive Write where
  | restaurantDeleteOne (vendorId : ObjectId)
  | itemDeleteMany (vendorId : ObjectId)
  | packageDeleteMany (vendorId : ObjectId)
  | vendorDeleteOne (email : String)
deriving DecidableEq, Repr

/-- The store after one write. -/
def Write.apply (L : Lib) (st : Store) : Write → Store
  | Write.restaurantDeleteOne vendorId =>
    { st with restaurants := st.restaurants.eraseP (fun r => r.vendorId == vendorId) }
  | Write.itemDeleteMany vendorId =>
    { st with items := st.items.filter (fun i => i.vendorId != vendorId) }
  | Write.packageDeleteMany vendorId =>
    { st with packages := st.packages.filter (fun p => p.vendorId != vendorId) }
  | Write.vendorDeleteOne email =>
    { st with vendors := deleteOneByEmail L st.vendors email }

/-- The store after a sequence of writes, each awaited before the next is issued. -/
def Store.after (L : Lib) (st : Store) (writes : List Write) : Store :=
  writes.foldl (Write.apply L) st

/-- JavaScript `\s`, the white space of a regular expression. -/
def jsWhitespace (c : Char) : Bool :=
  [9, 10, 11, 12, 13, 32, 160, 5760, 8232, 8233, 8239, 8287, 12288, 65279].contains c.toNat
    || (decide (8192 ≤ c.toNat) && decide (c.toNat ≤ 8202))

/-- The pattern `/^\S+@\S+\.\S+$/` of the `email` path: no white space, an `@` after
the first character, and later a `.` with a character on both sides. -/
def emailPattern (s : String) : Bool :=
  s.data.all (fun c => !jsWhitespace c) &&
    (List.range s.data.length).any (fun i =>
      decide (0 < i) && s.data[i]? == some '@' &&
        (List.range s.data.length).any (fun j =>
          decide (i + 1 < j) && decide (j + 1 < s.data.length) && s.data[j]? == some '.'))

/-- The pattern `/^[6-9]\d{9}$/` of the `phoneNumber` path and of the `phone` path. -/
def phonePattern (s : String) : Bool :=
  match s.data with
  | [] => false
  | c :: cs =>
    decide ('6' ≤ c) && decide (c ≤ '9') && cs.length == 9
      && cs.all (fun d => decide ('0' ≤ d) && decide (d ≤ '9'))

/-- The validators of `models/Vendor.js`, which `save()` runs on every path of the
document, as the setters left it, before the `pre('save')` hook: `name` has at least
three characters, `email` matches its pattern, `password` has at least six characters,
`phoneNumber` matches its pattern, `address` is not empty and `role` is `vendor`. -/
def vendorValid (doc : Account) : Bool :=
  decide (3 ≤ doc.name.length) && emailPattern doc.email && decide (6 ≤ doc.password.length)
    && phonePattern doc.phoneNumber && doc.address != "" && doc.role == "vendor"

/-- The `pre('save')` hook of `models/Vendor.js`: hashes the password when that path
was modified, and the OTP when that path was modified and is truthy. -/
def vendorPreSave (L : Lib) (passwordModified otpModified : Bool) (doc : Account) : Account :=
  let d := if passwordModified then { doc with password := L.hash doc.password } else doc
  if otpModified && !falsy d.otp then { d with otp := d.otp.map L.hash } else d

/-- Mongoose `doc.isModified('password')` at `save()`: a new document (`loaded` is
`none`) has every path it was given modified; a loaded document has the path modified
when its value is no longer the loaded one. -/
def passwordModified (loaded : Option Account) (doc : Account) : Bool :=
  match loaded with
  | none => true
  | some old => doc.password != old.password

/-- Mongoose `doc.isModified('otp')` at `save()`, as `passwordModified`. -/
def otpModified (loaded : Option Account) (doc : Account) : Bool :=
  match loaded with
  | none => true
  | some old => doc.otp != old.otp

/-- The call `vendor.save()` on a new document (`loaded` is `none`) or on a loaded and
changed one: `none` when a validator rejects the document (the save throws), otherwise
the document the hook leaves, which is written. -/
def vendorSave (L : Lib) (loaded : Option Account) (doc : Account) : Option Account :=
  if vendorValid doc then
    some (vendorPreSave L (passwordModified loaded doc) (otpModified loaded doc) doc)
  else none

/-- Modelled from the spec: `models/User.js` is not among the sources. The spec gives
the User variant the identity and credential fields of the Vendor variant, a validated
phone format, and a role among `user`, `vendor`, `deliverypartner` and `admin`; the
validators are taken to be those of `models/Vendor.js` with that role set. -/
def userValid (doc : Account) : Bool :=
  decide (3 ≤ doc.name.length) && emailPattern doc.email && decide (6 ≤ doc.password.length)
    && phonePattern doc.phoneNumber && doc.address != ""
    && ["user", "vendor", "deliverypartner", "admin"].contains doc.role

/-- Modelled from the spec: `models/User.js` is not among the sources. The spec has the
password and the OTP of both variants hashed on write whenever the field changes
(`otp_hash`, section 4.1), so the `save` hook is that of `models/Vendor.js`. -/
def userPreSave (L : Lib) (passwordModified otpModified : Bool) (doc : Account) : Account :=
  let d := if passwordModified then { doc with password := L.hash doc.password } else doc
  if otpModified && !falsy d.otp then { d with otp := d.otp.map L.hash } else d

/-- Modelled from the spec: the call `user.save()`, as `vendorSave` with the validators
and the hook modelled for the User variant. -/
def userSave (L : Lib) (loaded : Option Account) (doc : Account) : Option Account :=
  if userValid doc then
    some (userPreSave L (passwordModified loaded doc) (otpModified loaded doc) doc)
  else none

/-- The validators of `models/Restaurant.js` on a document as the setters left it:
`name`, `address` and `operatingHours` are not empty and `phone` matches its pattern. -/
def restaurantValid (r : Restaurant) : Bool :=
  r.name != "" && r.address != "" && phonePattern r.phone && r.operatingHours != ""

/-- The validators of `models/Item.js` on a document as the setters left it: `name` is
not empty, `description` has at most 500 characters, `price` is at least 0 and `type` is
`Food` or `Juice`. -/
def itemValid (i : Item) : Bool :=
  i.name != "" && i.description.all (fun d => decide (d.length ≤ 500)) && decide (0 ≤ i.price)
    && ["Food", "Juice"].contains i.type

/-- The validators of `models/Package.js` on a document as the setters left it:
`packageName` is not empty, `description` has at most 500 characters and `price` is at
least 0. -/
def packageValid (p : Package) : Bool :=
  p.packageName != "" && p.description.all (fun d => decide (d.length ≤ 500))
    && decide (0 ≤ p.price)

/-! ## Requests -/

/-- The JSON body of an account request; every field is a string or absent. -/
structure AuthBody where
  name : Option String
  email : Option String
  password : Option String
  phoneNumber : Option String
  address : Option String
  role : Option String
  otp : Option String
  currentPassword : Option String
  newPassword : Option String
deriving DecidableEq, Repr

/-- The principal `req.user` the user middleware attaches. -/
structure ReqUser where
  _id : ObjectId
  email : String
  name : String
  role : String
deriving DecidableEq, Repr

/-- The principal `req.vendor` the vendor middleware attaches. -/
structure ReqVendor where
  id : ObjectId
  email : String
  name : String
deriving DecidableEq, Repr

/-- The roles the user registration accepts. -/
def userRoles : List String := ["user", "vendor", "deliverypartner", "admin"]

/-- The reply of a handler that awaits a mail after its write: the mail's failure is
caught by the handler's `catch` block. -/
def afterMail (env : Env) (ok : Response) (failure : String) : Response :=
  if env.mailOk then ok else Response.caught 500 failure

/-! ## `controllers/authcontroller.js` -/

namespace AuthController

/-- The handler `register`. -/
def register (L : Lib) (env : Env) (st : Store) (b : AuthBody) : Store × Response :=
  if falsy b.name || falsy b.email || falsy b.password || falsy b.phoneNumber
      || falsy b.address then
    (st, Response.msg 400 "All fields are required")
  else
    let email := b.email.getD ""
    if !(email.data.contains '@') then
      (st, Response.msg 400 "Invalid email format")
    else if !falsy b.role && !(userRoles.contains (b.role.getD "")) then
      (st, Response.msg 400 "Invalid role")
    else
      match findOneByEmail L st.users email with
      | some _ => (st, Response.msg 400 "User already exists")
      | none =>
        let otp := generateOTP env.rand
        let otpExpiry := env.now + otpWindow
        let user : Account :=
          { _id := env.newId, name := b.name.getD "", email := emailSetter L email,
            password := b.password.getD "", phoneNumber := b.phoneNumber.getD "",
            address := b.address.getD "", otp := some otp, otpExpiry := some otpExpiry,
            isVerified := false, role := if falsy b.role then "user" else b.role.getD "" }
        match userSave L none user with
        | none => (st, Response.caught 500 "Error registering user")
        | some saved =>
          ({ st with users := st.users ++ [saved] }, afterMail env
            (Response.msg 201 "User registered. Please verify OTP sent to your email.")
            "Error registering user")

/-- JavaScript `stored < new Date()` for an `otpExpiry` that may be undefined. -/
def expired (otpExpiry : Option Nat) (now : Nat) : Bool :=
  match otpExpiry with
  | some e => decide (e < now)
  | none => false

/-- The handler `verifyOTP`. -/
def verifyOTP (L : Lib) (env : Env) (st : Store) (b : AuthBody) : Store × Response :=
  if falsy b.email || falsy b.otp then
    (st, Response.msg 400 "Email and OTP are required")
  else
    match findOneByEmail L st.users (b.email.getD "") with
    | none => (st, Response.msg 400 "User not found")
    | some user =>
      if user.isVerified then (st, Response.msg 400 "User already verified")
      else if user.otp != b.otp || expired user.otpExpiry env.now then
        (st, Response.msg 400 "Invalid or expired OTP")
      else
        match userSave L (some user)
            { user with isVerified := true, otp := none, otpExpiry := none } with
        | none => (st, Response.caught 500 "Error verifying OTP")
        | some saved =>
          ({ st with users := replaceById st.users saved },
            Response.msg 200 "Email verified successfully. You can now log in.")

/-- The handler `resendOTP`. -/
def resendOTP (L : Lib) (env : Env) (st : Store) (b : AuthBody) : Store × Response :=
  if falsy b.email then
    (st, Response.msg 400 "Email is required")
  else
    match findOneByEmail L st.users (b.email.getD "") with
    | none => (st, Response.msg 400 "User not found")
    | some user =>
      if user.isVerified then (st, Response.msg 400 "User already verified")
      else
        let otp := generateOTP env.rand
        match userSave L (some user)
            { user with otp := some otp, otpExpiry := some (env.now + otpWindow) } with
        | none => (st, Response.caught 500 "Error resending OTP")
        | some saved =>
          ({ st with users := replaceById st.users saved },
            afterMail env (Response.msg 200 "OTP resent successfully.") "Error resending OTP")

/-- The handler `login`. -/
def login (L : Lib) (st : Store) (b : AuthBody) : Store × Response :=
  if falsy b.email || falsy b.password then
    (st, Response.msg 400 "Email and password are required")
  else
    match findOneByEmail L st.users (b.email.getD "") with
    | none => (st, Response.msg 400 "User not found")
    | some user =>
      if !L.compare (b.password.getD "") user.password then
        (st, Response.msg 400 "Incorrect password")
      else if !user.isVerified then
        (st, Response.msg 400 "Email not verified. Please verify OTP.")
      else
        let token := L.sign
          { _id := some user._id, vendorId := none, email := user.email, name := user.name,
            role := some user.role }
        (st, { Response.msg 200 "Login successful" with
                token := some token, role := some user.role })

/-- The handler `logout`. -/
def logout (st : Store) : Store × Response :=
  (st, Response.msg 200 "Logged out successfully. Please clear your token.")

/-- The fields `updatedFields` of a profile update: a supplied, truthy value that
differs from the stored one. -/
def changed (supplied : Option String) (stored : String) : Option String :=
  match supplied with
  | some v => if v != "" && v != stored then some v else none
  | none => none

/-- The write `User.updateOne({ email }, updatedFields)`. -/
def updateOne (L : Lib) (docs : List Account) (email : String)
    (name phoneNumber address : Option String) : List Account :=
  updateFirst (fun d => d.email == emailSetter L email)
    (fun d => { d with name := name.getD d.name,
                       phoneNumber := phoneNumber.getD d.phoneNumber,
                       address := address.getD d.address }) docs

/-- The handler `updateUser`. -/
def updateUser (L : Lib) (env : Env) (st : Store) (user : Option ReqUser) (b : AuthBody) :
    Store × Response :=
  if user.isNone || user.map (fun u => u.email) != b.email then
    (st, Response.msg 401 "Unauthorized: Invalid token or email")
  else if falsy b.email then
    (st, Response.msg 400 "Email is required")
  else
    let email := b.email.getD ""
    match findOneByEmail L st.users email with
    | none => (st, Response.msg 400 "User not found")
    | some doc =>
      if !doc.isVerified then (st, Response.msg 400 "Email not verified.")
      else
        let name := changed b.name doc.name
        let phoneNumber := changed b.phoneNumber doc.phoneNumber
        let address := changed b.address doc.address
        if name.isNone && phoneNumber.isNone && address.isNone then
          (st, Response.msg 400 "No changes provided")
        else
          ({ st with users := updateOne L st.users email name phoneNumber address },
            afterMail env (Response.msg 200 "Account updated successfully.")
              "Error updating account")

/-- The handler `updatePassword`. -/
def updatePassword (L : Lib) (env : Env) (st : Store) (user : Option ReqUser)
    (b : AuthBody) : Store × Response :=
  if user.isNone || user.map (fun u => u.email) != b.email then
    (st, Response.msg 401 "Unauthorized: Invalid token or email")
  else if falsy b.email || falsy b.currentPassword || falsy b.newPassword then
    (st, Response.msg 400 "Email, current password, and new password are required")
  else
    match findOneByEmail L st.users (b.email.getD "") with
    | none => (st, Response.msg 400 "User not found")
    | some doc =>
      if !L.compare (b.currentPassword.getD "") doc.password then
        (st, Response.msg 400 "Incorrect current password")
      else if !doc.isVerified then (st, Response.msg 400 "Email not verified.")
      else
        match userSave L (some doc) { doc with password := b.newPassword.getD "" } with
        | none => (st, Response.caught 500 "Error updating password")
        | some saved =>
          ({ st with users := replaceById st.users saved },
            afterMail env (Response.msg 200 "Password updated successfully.")
              "Error updating password")

/-- The handler `deleteAccount`. -/
def deleteAccount (L : Lib) (env : Env) (st : Store) (user : Option ReqUser)
    (b : AuthBody) : Store × Response :=
  if user.isNone || user.map (fun u => u.email) != b.email then
    (st, Response.msg 401 "Unauthorized: Invalid token or email")
  else if falsy b.email || falsy b.password then
    (st, Response.msg 400 "Email and password are required")
  else
    let email := b.email.getD ""
    match findOneByEmail L st.users email with
    | none => (st, Response.msg 400 "User not found")
    | some doc =>
      if !L.compare (b.password.getD "") doc.password then
        (st, Response.msg 400 "Incorrect password")
      else if !doc.isVerified then (st, Response.msg 400 "Email not verified.")
      else
        ({ st with users := deleteOneByEmail L st.users email },
          afterMail env
            (Response.msg 200 "Account deleted successfully. Please clear your token.")
            "Error deleting account")

/-- The handler `dashboard`; reading `req.user.name` of an absent `req.user` throws. -/
def dashboard (st : Store) (user : Option ReqUser) : Store × Response :=
  match user with
  | some u => (st, Response.msg 200 ("Welcome to the dashboard, " ++ u.name))
  | none => (st, Response.caught 500 "Error accessing dashboard")

/-- The aggregation `{ $group: { _id: '$role', count: { $sum: 1 } } }` folded into the
`usersByRole` object: each role with the number of users that have it. -/
def usersByRole (users : List Account) : List (String × Nat) :=
  (users.map (fun u => u.role)).dedup.map
    (fun r => (r, (users.filter (fun u => u.role == r)).length))

/-- The handler `adminStats`. -/
def adminStats (st : Store) : Store × Response :=
  (st, Response.withPayload 200 "Admin statistics"
    (Payload.stats st.users.length (usersByRole st.users)))

end AuthController

/-! ## `controllers/vendorController.js`: the account handlers

Each handler first reads `validationResult(req)`, the errors the validators of its
route recorded; `errors` is that list. A string field that is absent reads as the empty
string where a handler passes it on; the validators of the route reject both. -/

namespace VendorController

/-- The handler `exports.register`. -/
def register (L : Lib) (env : Env) (st : Store) (errors : List String) (b : AuthBody) :
    Store × Response :=
  if !errors.isEmpty then (st, Response.invalid errors)
  else
    let email := b.email.getD ""
    match findOneByEmail L st.vendors email with
    | some _ => (st, Response.msg 400 "Vendor already exists")
    | none =>
      let otp := generateOTP env.rand
      let otpExpiry := env.now + otpWindow
      let vendor : Account :=
        { _id := env.newId, name := L.trim (b.name.getD ""), email := emailSetter L email,
          password := b.password.getD "", phoneNumber := L.trim (b.phoneNumber.getD ""),
          address := L.trim (b.address.getD ""), otp := some otp,
          otpExpiry := some otpExpiry, isVerified := false, role := "vendor" }
      match vendorSave L none vendor with
      | none => (st, Response.caught 500 "Error registering vendor")
      | some saved =>
        ({ st with vendors := st.vendors ++ [saved] }, afterMail env
          (Response.msg 201 "Vendor registered. Please verify OTP sent to your email.")
          "Error registering vendor")

/-- The handler `exports.verifyOTP`; `bcrypt.compare` throws on an undefined stored
OTP or an undefined supplied code. -/
def verifyOTP (L : Lib) (env : Env) (st : Store) (errors : List String) (b : AuthBody) :
    Store × Response :=
  if !errors.isEmpty then (st, Response.invalid errors)
  else
    match findOneByEmail L st.vendors (b.email.getD "") with
    | none => (st, Response.msg 400 "Vendor not found")
    | some vendor =>
      if vendor.isVerified then (st, Response.msg 400 "Vendor already verified")
      else
        match b.otp, vendor.otp with
        | some otp, some stored =>
          if !L.compare otp stored || AuthController.expired vendor.otpExpiry env.now then
            (st, Response.msg 400 "Invalid or expired OTP")
          else
            match vendorSave L (some vendor)
                { vendor with isVerified := true, otp := none, otpExpiry := none } with
            | none => (st, Response.caught 500 "Error verifying OTP")
            | some saved =>
              ({ st with vendors := replaceById st.vendors saved },
                Response.msg 200 "Email verified successfully. You can now log in.")
        | _, _ => (st, Response.caught 500 "Error verifying OTP")

/-- The handler `exports.resendOTP`. -/
def resendOTP (L : Lib) (env : Env) (st : Store) (errors : List String) (b : AuthBody) :
    Store × Response :=
  if !errors.isEmpty then (st, Response.invalid errors)
  else
    match findOneByEmail L st.vendors (b.email.getD "") with
    | none => (st, Response.msg 400 "Vendor not found")
    | some vendor =>
      if vendor.isVerified then (st, Response.msg 400 "Vendor already verified")
      else
        let otp := generateOTP env.rand
        match vendorSave L (some vendor)
            { vendor with otp := some otp, otpExpiry := some (env.now + otpWindow) } with
        | none => (st, Response.caught 500 "Error resending OTP")
        | some saved =>
          ({ st with vendors := replaceById st.vendors saved },
            afterMail env (Response.msg 200 "OTP resent successfully.") "Error resending OTP")

/-- The handler `exports.login`; `comparePassword` is `bcrypt.compare` against the
stored password and throws on an undefined password. -/
def login (L : Lib) (st : Store) (errors : List String) (b : AuthBody) : Store × Response :=
  if !errors.isEmpty then (st, Response.invalid errors)
  else
    match findOneByEmail L st.vendors (b.email.getD "") with
    | none => (st, Response.msg 400 "Vendor not found")
    | some vendor =>
      match b.password with
      | none => (st, Response.caught 500 "Error logging in")
      | some password =>
        if !L.compare password vendor.password then
          (st, Response.msg 400 "Incorrect password")
        else if !vendor.isVerified then
          (st, Response.msg 400 "Email not verified. Please verify OTP.")
        else
          let token := L.sign
            { _id := none, vendorId := some vendor._id, email := vendor.email,
              name := vendor.name, role := none }
          (st, { Response.msg 200 "Login successful" with token := some token })

/-- The handler `exports.logout`. -/
def logout (st : Store) : Store × Response :=
  (st, Response.msg 200 "Logged out successfully. Please clear your token.")

/-- The write `Vendor.updateOne({ email }, updatedFields)`; the schema trims the three
paths. -/
def updateOne (L : Lib) (docs : List Account) (email : String)
    (name phoneNumber address : Option String) : List Account :=
  updateFirst (fun d => d.email == emailSetter L email)
    (fun d => { d with name := (name.map L.trim).getD d.name,
                       phoneNumber := (phoneNumber.map L.trim).getD d.phoneNumber,
                       address := (address.map L.trim).getD d.address }) docs

/-- The handler `exports.updateVendor`. -/
def updateVendor (L : Lib) (env : Env) (st : Store) (errors : List String)
    (vendor : Option ReqVendor) (b : AuthBody) : Store × Response :=
  if !errors.isEmpty then (st, Response.invalid errors)
  else if vendor.isNone || vendor.map (fun v => v.email) != b.email then
    (st, Response.msg 401 "Unauthorized: Invalid token or email")
  else
    let email := b.email.getD ""
    match findOneByEmail L st.vendors email with
    | none => (st, Response.msg 400 "Vendor not found")
    | some doc =>
      match b.password with
      | none => (st, Response.caught 500 "Error updating profile")
      | some password =>
        if !L.compare password doc.password then
          (st, Response.msg 400 "Incorrect password")
        else
          let name := AuthController.changed b.name doc.name
          let phoneNumber := AuthController.changed b.phoneNumber doc.phoneNumber
          let address := AuthController.changed b.address doc.address
          if name.isNone && phoneNumber.isNone && address.isNone then
            (st, Response.msg 400 "No changes provided")
          else
            ({ st with vendors := updateOne L st.vendors email name phoneNumber address },
              afterMail env (Response.msg 200 "Vendor profile updated successfully.")
                "Error updating profile")

/-- The handler `exports.updatePassword`. -/
def updatePassword (L : Lib) (env : Env) (st : Store) (errors : List String)
    (vendor : Option ReqVendor) (b : AuthBody) : Store × Response :=
  if !errors.isEmpty then (st, Response.invalid errors)
  else if vendor.isNone || vendor.map (fun v => v.email) != b.email then
    (st, Response.msg 401 "Unauthorized: Invalid token or email")
  else
    match findOneByEmail L st.vendors (b.email.getD "") with
    | none => (st, Response.msg 400 "Vendor not found")
    | some doc =>
      match b.currentPassword with
      | none => (st, Response.caught 500 "Error updating password")
      | some currentPassword =>
        if !L.compare currentPassword doc.password then
          (st, Response.msg 400 "Incorrect current password")
        else
          match vendorSave L (some doc) { doc with password := b.newPassword.getD "" } with
          | none => (st, Response.caught 500 "Error updating password")
          | some saved =>
            ({ st with vendors := replaceById st.vendors saved },
              afterMail env (Response.msg 200 "Password updated successfully.")
                "Error updating password")

/-- The writes that `exports.deleteAccount` awaits on the found vendor `doc`, in the
order of its statements: `Restaurant.deleteOne`, `Item.deleteMany` and
`Package.deleteMany` on the vendor's id, then `Vendor.deleteOne({ email })`. -/
def deleteAccountWrites (doc : Account) (email : String) : List Write :=
  [Write.restaurantDeleteOne doc._id, Write.itemDeleteMany doc._id,
   Write.packageDeleteMany doc._id, Write.vendorDeleteOne email]

/-- The handler `exports.deleteAccount`: the writes of `deleteAccountWrites`, then the
mail and the response. -/
def deleteAccount (L : Lib) (env : Env) (st : Store) (errors : List String)
    (vendor : Option ReqVendor) (b : AuthBody) : Store × Response :=
  if !errors.isEmpty then (st, Response.invalid errors)
  else if vendor.isNone || vendor.map (fun v => v.email) != b.email then
    (st, Response.msg 401 "Unauthorized: Invalid token or email")
  else
    let email := b.email.getD ""
    match findOneByEmail L st.vendors email with
    | none => (st, Response.msg 400 "Vendor not found")
    | some doc =>
      match b.password with
      | none => (st, Response.caught 500 "Error deleting account")
      | some password =>
        if !L.compare password doc.password then
          (st, Response.msg 400 "Incorrect password")
        else
          (st.after L (deleteAccountWrites doc email), afterMail env
            (Response.msg 200 "Account deleted successfully. Please clear your token.")
            "Error deleting account")

/-- The handler `exports.dashboard`. -/
def dashboard (st : Store) (vendor : Option ReqVendor) : Store × Response :=
  match vendor with
  | some v => (st, Response.msg 200 ("Welcome to the vendor dashboard, " ++ v.name))
  | none => (st, Response.caught 500 "Error accessing dashboard")

end VendorController

/-! ## `controllers/vendorController.js`: restaurants, items and packages -/

/-- An identifier a request supplies (a path parameter or an element of a body's
`items`): a well-formed ObjectId, or a string that is none. -/
inductive IdArg where
  | oid (id : ObjectId)
  | malformed (raw : String)
deriving DecidableEq, Repr

/-- The check `mongoose.Types.ObjectId.isValid(id)`. -/
def IdArg.isValid : IdArg → Bool
  | IdArg.oid _ => true
  | IdArg.malformed _ => false

/-- The cast of a list of supplied identifiers to ObjectIds; `none` when one of them is
malformed (Mongoose throws a CastError). -/
def castIds : List IdArg → Option (List ObjectId)
  | [] => some []
  | IdArg.oid id :: rest => (castIds rest).map (fun ids => id :: ids)
  | IdArg.malformed _ :: _ => none

/-- The JSON body of a restaurant request. -/
structure RestaurantBody where
  name : Option String
  address : Option String
  phone : Option String
  operatingHours : Option String
deriving DecidableEq, Repr

/-- The JSON body of an item request. -/
structure ItemBody where
  name : Option String
  description : Option String
  price : Option Int
  type : Option String
  isAvailable : Option Bool
deriving DecidableEq, Repr

/-- The JSON body of a breakfast-package request. -/
structure PackageBody where
  packageName : Option String
  description : Option String
  price : Option Int
  items : Option (List IdArg)
  imageUrl : Option String
  isActive : Option Bool
deriving DecidableEq, Repr

namespace VendorController

/-- The response `401 Unauthorized: Please log in` of a handler without `req.vendor`. -/
def pleaseLogIn : Response := Response.msg 401 "Unauthorized: Please log in"

/-- The handler `exports.addRestaurant`; a required path that is absent fails the
`save`. -/
def addRestaurant (L : Lib) (env : Env) (st : Store) (errors : List String)
    (vendor : Option ReqVendor) (b : RestaurantBody) : Store × Response :=
  if !errors.isEmpty then (st, Response.invalid errors)
  else
    match vendor with
    | none => (st, pleaseLogIn)
    | some v =>
      match st.restaurants.find? (fun r => r.vendorId == v.id) with
      | some _ => (st, Response.msg 400 "Restaurant already exists for this vendor")
      | none =>
        match b.name, b.address, b.phone, b.operatingHours with
        | some name, some address, some phone, some operatingHours =>
          let restaurant : Restaurant :=
            { _id := env.newId, vendorId := v.id, name := L.trim name,
              address := L.trim address, phone := L.trim phone,
              operatingHours := L.trim operatingHours }
          if !restaurantValid restaurant then
            (st, Response.caught 500 "Error adding restaurant")
          else
            ({ st with restaurants := st.restaurants ++ [restaurant] },
              Response.withPayload 201 "Restaurant added successfully"
                (Payload.restaurant restaurant))
        | _, _, _, _ => (st, Response.caught 500 "Error adding restaurant")

/-- The handler `exports.getRestaurant`. -/
def getRestaurant (st : Store) (vendor : Option ReqVendor) : Store × Response :=
  match vendor with
  | none => (st, pleaseLogIn)
  | some v =>
    match st.restaurants.find? (fun r => r.vendorId == v.id) with
    | none => (st, Response.msg 404 "Restaurant not found")
    | some r => (st, Response.withPayload 200 "" (Payload.restaurant r))

/-- The update document `{ name, address, phone, operatingHours }` applied to a stored
restaurant: an undefined field is left as it is, a string is trimmed by the schema. -/
def applyRestaurantUpdate (L : Lib) (b : RestaurantBody) (r : Restaurant) : Restaurant :=
  { r with name := (b.name.map L.trim).getD r.name,
           address := (b.address.map L.trim).getD r.address,
           phone := (b.phone.map L.trim).getD r.phone,
           operatingHours := (b.operatingHours.map L.trim).getD r.operatingHours }

/-- The handler `exports.updateRestaurant`; the filter of its `findOneAndUpdate` is
`{ vendorId: req.vendor.id }` and does not read `req.params.id`. -/
def updateRestaurant (L : Lib) (st : Store) (errors : List String)
    (vendor : Option ReqVendor) (_id : IdArg) (b : RestaurantBody) : Store × Response :=
  if !errors.isEmpty then (st, Response.invalid errors)
  else
    match vendor with
    | none => (st, pleaseLogIn)
    | some v =>
      match st.restaurants.find? (fun r => r.vendorId == v.id) with
      | none => (st, Response.msg 404 "Restaurant not found")
      | some r =>
        ({ st with restaurants :=
            (updateFirst (fun r => r.vendorId == v.id) (applyRestaurantUpdate L b)
              st.restaurants) },
          Response.withPayload 200 "Restaurant updated successfully"
            (Payload.restaurant (applyRestaurantUpdate L b r)))

/-- The handler `exports.deleteRestaurant`; the filter of its `findOneAndDelete` is
`{ vendorId: req.vendor.id }` and does not read `req.params.id`. -/
def deleteRestaurant (st : Store) (vendor : Option ReqVendor) (_id : IdArg) :
    Store × Response :=
  match vendor with
  | none => (st, pleaseLogIn)
  | some v =>
    match st.restaurants.find? (fun r => r.vendorId == v.id) with
    | none => (st, Response.msg 404 "Restaurant not found")
    | some _ =>
      ({ st with restaurants := st.restaurants.eraseP (fun r => r.vendorId == v.id) },
        Response.msg 200 "Restaurant deleted successfully")

/-- The handler `exports.addItem`. -/
def addItem (L : Lib) (env : Env) (st : Store) (errors : List String)
    (vendor : Option ReqVendor) (b : ItemBody) : Store × Response :=
  if !errors.isEmpty then (st, Response.invalid errors)
  else
    match vendor with
    | none => (st, pleaseLogIn)
    | some v =>
      match b.name, b.price, b.type with
      | some name, some price, some itemType =>
        let item : Item :=
          { _id := env.newId, vendorId := v.id, name := L.trim name,
            description := b.description.map L.trim, price := price, type := itemType,
            isAvailable := b.isAvailable.getD true }
        if !itemValid item then (st, Response.caught 500 "Error adding item")
        else
          ({ st with items := st.items ++ [item] },
            Response.withPayload 201 "Item added successfully" (Payload.item item))
      | _, _, _ => (st, Response.caught 500 "Error adding item")

/-- The handler `exports.getItems`. -/
def getItems (st : Store) (vendor : Option ReqVendor) : Store × Response :=
  match vendor with
  | none => (st, pleaseLogIn)
  | some v =>
    (st, Response.withPayload 200 "" (Payload.items (st.items.filter (fun i => i.vendorId == v.id))))

/-- The update document `{ name, description, price, type, isAvailable }` applied to a
stored item. -/
def applyItemUpdate (L : Lib) (b : ItemBody) (i : Item) : Item :=
  { i with name := (b.name.map L.trim).getD i.name,
           description := (b.description.map L.trim).orElse (fun _ => i.description),
           price := b.price.getD i.price,
           type := b.type.getD i.type,
           isAvailable := b.isAvailable.getD i.isAvailable }

/-- The handler `exports.updateItem`; a malformed `req.params.id` makes the query
throw. -/
def updateItem (L : Lib) (st : Store) (errors : List String) (vendor : Option ReqVendor)
    (id : IdArg) (b : ItemBody) : Store × Response :=
  if !errors.isEmpty then (st, Response.invalid errors)
  else
    match vendor with
    | none => (st, pleaseLogIn)
    | some v =>
      match id with
      | IdArg.malformed _ => (st, Response.caught 500 "Error updating item")
      | IdArg.oid itemId =>
        match st.items.find? (fun i => i._id == itemId && i.vendorId == v.id) with
        | none => (st, Response.msg 404 "Item not found")
        | some i =>
          ({ st with items :=
              (updateFirst (fun i => i._id == itemId && i.vendorId == v.id)
                (applyItemUpdate L b) st.items) },
            Response.withPayload 200 "Item updated successfully"
              (Payload.item (applyItemUpdate L b i)))

/-- The handler `exports.deleteItem`. -/
def deleteItem (st : Store) (vendor : Option ReqVendor) (id : IdArg) : Store × Response :=
  match vendor with
  | none => (st, pleaseLogIn)
  | some v =>
    match id with
    | IdArg.malformed _ => (st, Response.caught 500 "Error deleting item")
    | IdArg.oid itemId =>
      match st.items.find? (fun i => i._id == itemId && i.vendorId == v.id) with
      | none => (st, Response.msg 404 "Item not found")
      | some _ =>
        ({ st with items :=
            st.items.eraseP (fun i => i._id == itemId && i.vendorId == v.id) },
          Response.msg 200 "Item deleted successfully")

/-- The handler `exports.searchItems`. -/
def searchItems (L : Lib) (st : Store) (vendor : Option ReqVendor) (query : Option String) :
    Store × Response :=
  match vendor with
  | none => (st, pleaseLogIn)
  | some v =>
    if falsy query then (st, Response.msg 400 "Search query is required")
    else
      (st, Response.withPayload 200 ""
        (Payload.items
          (L.textSearch (query.getD "") (st.items.filter (fun i => i.vendorId == v.id)))))

/-- The query `Item.find({ _id: { $in: ids }, vendorId })`. -/
def ownedItemsIn (st : Store) (ids : List ObjectId) (vendorId : ObjectId) : List Item :=
  st.items.filter (fun i => ids.contains i._id && i.vendorId == vendorId)

/-- The handler `exports.addBreakfastPackage`. -/
def addBreakfastPackage (L : Lib) (env : Env) (st : Store) (errors : List String)
    (vendor : Option ReqVendor) (b : PackageBody) : Store × Response :=
  if !errors.isEmpty then (st, Response.invalid errors)
  else
    match vendor with
    | none => (st, pleaseLogIn)
    | some v =>
      match b.items with
      | none => (st, Response.caught 500 "Error adding breakfast package")
      | some items =>
        if !items.all IdArg.isValid then (st, Response.msg 400 "Invalid item ID format")
        else
          match castIds items with
          | none => (st, Response.caught 500 "Error adding breakfast package")
          | some ids =>
            if (ownedItemsIn st ids v.id).length != items.length then
              (st, Response.msg 400 "Some items are invalid or not authorized")
            else
              match b.packageName, b.price with
              | some packageName, some price =>
                let breakfastPackage : Package :=
                  { _id := env.newId, vendorId := v.id, packageName := L.trim packageName,
                    description := b.description.map L.trim, price := price, items := ids,
                    imageUrl := L.trim (if falsy b.imageUrl then "" else b.imageUrl.getD ""),
                    isActive := true }
                if !packageValid breakfastPackage then
                  (st, Response.caught 500 "Error adding breakfast package")
                else
                  ({ st with packages := st.packages ++ [breakfastPackage] },
                    Response.withPayload 201 "Breakfast package added successfully"
                      (Payload.package breakfastPackage))
              | _, _ => (st, Response.caught 500 "Error adding breakfast package")

/-- The population of a package's `items` path: the referenced items that exist, in
the order of the references. -/
def populate (st : Store) (p : Package) : List Item :=
  p.items.filterMap (fun id => st.items.find? (fun i => i._id == id))

/-- The handler `exports.getBreakfastPackages`. -/
def getBreakfastPackages (st : Store) (vendor : Option ReqVendor) : Store × Response :=
  match vendor with
  | none => (st, pleaseLogIn)
  | some v =>
    (st, Response.withPayload 200 ""
      (Payload.packages
        ((st.packages.filter (fun p => p.vendorId == v.id)).map
          (fun p => (p, populate st p)))))

/-- The update document `{ packageName, description, price, items, imageUrl, isActive }`
applied to a stored package; `ids` is the cast of the supplied `items`. -/
def applyPackageUpdate (L : Lib) (b : PackageBody) (ids : Option (List ObjectId))
    (p : Package) : Package :=
  { p with packageName := (b.packageName.map L.trim).getD p.packageName,
           description := (b.description.map L.trim).orElse (fun _ => p.description),
           price := b.price.getD p.price,
           items := ids.getD p.items,
           imageUrl := (b.imageUrl.map L.trim).getD p.imageUrl,
           isActive := b.isActive.getD p.isActive }

/-- The second half of `exports.updateBreakfastPackage`: the `findOneAndUpdate` on
`{ _id: req.params.id, vendorId: req.vendor.id }` and its response. -/
def writePackageUpdate (L : Lib) (st : Store) (v : ReqVendor) (id : IdArg)
    (b : PackageBody) (ids : Option (List ObjectId)) : Store × Response :=
  match id with
  | IdArg.malformed _ => (st, Response.caught 500 "Error updating breakfast package")
  | IdArg.oid packageId =>
    match st.packages.find? (fun p => p._id == packageId && p.vendorId == v.id) with
    | none => (st, Response.msg 404 "Breakfast package not found")
    | some p =>
      ({ st with packages :=
          (updateFirst (fun p => p._id == packageId && p.vendorId == v.id)
            (applyPackageUpdate L b ids) st.packages) },
        Response.withPayload 200 "Breakfast package updated successfully"
          (Payload.package (applyPackageUpdate L b ids p)))

/-- The handler `exports.updateBreakfastPackage`; a supplied `items` array is checked
against the vendor's items before the update. -/
def updateBreakfastPackage (L : Lib) (st : Store) (errors : List String)
    (vendor : Option ReqVendor) (id : IdArg) (b : PackageBody) : Store × Response :=
  if !errors.isEmpty then (st, Response.invalid errors)
  else
    match vendor with
    | none => (st, pleaseLogIn)
    | some v =>
      match b.items with
      | none => writePackageUpdate L st v id b none
      | some items =>
        match castIds items with
        | none => (st, Response.caught 500 "Error updating breakfast package")
        | some ids =>
          if (ownedItemsIn st ids v.id).length != items.length then
            (st, Response.msg 400 "Some items are invalid or not authorized")
          else writePackageUpdate L st v id b (some ids)

/-- The handler `exports.deleteBreakfastPackage`. -/
def deleteBreakfastPackage (st : Store) (vendor : Option ReqVendor) (id : IdArg) :
    Store × Response :=
  match vendor with
  | none => (st, pleaseLogIn)
  | some v =>
    match id with
    | IdArg.malformed _ => (st, Response.caught 500 "Error deleting breakfast package")
    | IdArg.oid packageId =>
      match st.packages.find? (fun p => p._id == packageId && p.vendorId == v.id) with
      | none => (st, Response.msg 404 "Breakfast package not found")
      | some _ =>
        ({ st with packages :=
            st.packages.eraseP (fun p => p._id == packageId && p.vendorId == v.id) },
          Response.msg 200 "Breakfast package deleted successfully")

end VendorController

/-! ## `middleware/authmiddleware.js` and `middleware/vendor_auth.js`

A middleware either calls `next()` with the principal it attached to the request
(`Except.ok`) or sends a response and stops (`Except.error`). -/

/-- JavaScript `s.split(' ')` on the characters of `s`. -/
def splitOnSpace : List Char → List (List Char)
  | [] => [[]]
  | c :: cs =>
    if c = ' ' then [] :: splitOnSpace cs
    else
      match splitOnSpace cs with
      | [] => [[c]]
      | w :: ws => (c :: w) :: ws

/-- The token of both middlewares, `authHeader && authHeader.split(' ')[1]`, when it is
truthy. -/
def bearerToken (authHeader : Option String) : Option String :=
  match authHeader with
  | none => none
  | some h =>
    match (splitOnSpace h.data).get? 1 with
    | none => none
    | some t => if t.isEmpty then none else some (String.mk t)

namespace AuthMiddleware

/-- The user middleware `authenticateToken`. -/
def authenticateToken (L : Lib) (st : Store) (authHeader : Option String) :
    Except Response ReqUser :=
  match bearerToken authHeader with
  | none => Except.error (Response.msg 401 "Token missing")
  | some token =>
    match L.verify token with
    | none => Except.error (Response.caught 403 "Authentication failed")
    | some decoded =>
      match decoded._id.bind (findById st.users) with
      | none => Except.error (Response.msg 401 "Unauthorized: User not found")
      | some user =>
        Except.ok { _id := user._id, email := user.email, name := user.name,
                    role := user.role }

/-- The role gate `restrictTo(...allowedRoles)`. -/
def restrictTo (allowedRoles : List String) (user : Option ReqUser) : Except Response Unit :=
  match user with
  | none => Except.error (Response.msg 403 "Access denied: Insufficient permissions")
  | some u =>
    if !allowedRoles.contains u.role then
      Except.error (Response.msg 403 "Access denied: Insufficient permissions")
    else Except.ok ()

end AuthMiddleware

namespace VendorAuth

/-- The vendor middleware `authenticateToken`. Tokens are signed without an expiry, so
a failed verification is answered with the message of the non-expired branch. -/
def authenticateToken (L : Lib) (st : Store) (authHeader : Option String) :
    Except Response ReqVendor :=
  match bearerToken authHeader with
  | none => Except.error (Response.msg 401 "Authentication required: No token provided")
  | some token =>
    match L.verify token with
    | none => Except.error (Response.caught 403 "Authentication failed")
    | some decoded =>
      match decoded.vendorId.bind (findById st.vendors) with
      | none =>
        Except.error (Response.msg 401 "Unauthorized: Vendor not found or unverified")
      | some vendor =>
        if !vendor.isVerified then
          Except.error (Response.msg 401 "Unauthorized: Vendor not found or unverified")
        else Except.ok { id := vendor._id, email := vendor.email, name := vendor.name }

end VendorAuth

/-! ## `routes/authRoutes.js` -/

/-- A request to the router mounted at `/api/auth`. -/
inductive AuthRequest where
  | register (b : AuthBody)
  | verifyOTP (b : AuthBody)
  | resendOTP (b : AuthBody)
  | login (b : AuthBody)
  | logout
  | updateUser (b : AuthBody)
  | updatePassword (b : AuthBody)
  | deleteAccount (b : AuthBody)
  | dashboard
  | adminStats
deriving DecidableEq, Repr

namespace AuthRoutes

/-- A route behind `authenticateToken`: the handler runs with the attached principal
only when the middleware called `next()`. -/
def withUser (L : Lib) (st : Store) (authHeader : Option String)
    (handler : ReqUser → Store × Response) : Store × Response :=
  match AuthMiddleware.authenticateToken L st authHeader with
  | Except.error r => (st, r)
  | Except.ok u => handler u

/-- The router of `routes/authRoutes.js`. -/
def handle (L : Lib) (env : Env) (st : Store) (authHeader : Option String) :
    AuthRequest → Store × Response
  | AuthRequest.register b => AuthController.register L env st b
  | AuthRequest.verifyOTP b => AuthController.verifyOTP L env st b
  | AuthRequest.resendOTP b => AuthController.resendOTP L env st b
  | AuthRequest.login b => AuthController.login L st b
  | AuthRequest.logout => withUser L st authHeader (fun _ => AuthController.logout st)
  | AuthRequest.updateUser b =>
    withUser L st authHeader (fun u => AuthController.updateUser L env st (some u) b)
  | AuthRequest.updatePassword b =>
    withUser L st authHeader (fun u => AuthController.updatePassword L env st (some u) b)
  | AuthRequest.deleteAccount b =>
    withUser L st authHeader (fun u => AuthController.deleteAccount L env st (some u) b)
  | AuthRequest.dashboard =>
    withUser L st authHeader (fun u => AuthController.dashboard st (some u))
  | AuthRequest.adminStats =>
    withUser L st authHeader (fun u =>
      match AuthMiddleware.restrictTo ["admin"] (some u) with
      | Except.error r => (st, r)
      | Except.ok _ => AuthController.adminStats st)

end AuthRoutes

/-! ## `routes/VendorRoutes.js` -/

/-- A request to the router mounted at `/api/vendor`. -/
inductive VendorRequest where
  | register (b : AuthBody)
  | verifyOTP (b : AuthBody)
  | resendOTP (b : AuthBody)
  | login (b : AuthBody)
  | logout
  | updateVendor (b : AuthBody)
  | updatePassword (b : AuthBody)
  | deleteAccount (b : AuthBody)
  | dashboard
  | addRestaurant (b : RestaurantBody)
  | getRestaurant
  | updateRestaurant (id : IdArg) (b : RestaurantBody)
  | deleteRestaurant (id : IdArg)
  | addItem (b : ItemBody)
  | getItems
  | updateItem (id : IdArg) (b : ItemBody)
  | deleteItem (id : IdArg)
  | searchItems (query : Option String)
  | addBreakfastPackage (b : PackageBody)
  | getBreakfastPackages
  | updateBreakfastPackage (id : IdArg) (b : PackageBody)
  | deleteBreakfastPackage (id : IdArg)
deriving DecidableEq, Repr

namespace VendorRoutes

/-- One validator of a chain: its message when the check fails. -/
def check (ok : Bool) (message : String) : List String :=
  if ok then [] else [message]

/-- A validator on a required string field; an absent field fails it. -/
def required (x : Option String) (ok : String → Bool) (message : String) : List String :=
  match x with
  | none => [message]
  | some v => check (ok v) message

/-- A validator behind `.optional()`: an absent field is skipped. -/
def optional {α : Type} (x : Option α) (ok : α → Bool) (message : String) : List String :=
  match x with
  | none => []
  | some v => check (ok v) message

/-- The validator `notEmpty()`. -/
def notEmpty (s : String) : Bool := s != ""

/-- The validator `matches(/^[6-9]\d{9}$/)`. -/
def isIndianPhone (s : String) : Bool :=
  match s.data with
  | [] => false
  | c :: cs =>
    decide ('6' ≤ c) && decide (c ≤ '9') && cs.length == 9
      && cs.all (fun d => decide ('0' ≤ d) && decide (d ≤ '9'))

/-- The chain `isNumeric()` then `custom(value >= 0)` on a required price. -/
def priceRequired (price : Option Int) : List String :=
  match price with
  | none => ["Price must be a number", "Price must be non-negative"]
  | some v => check (decide (0 ≤ v)) "Price must be non-negative"

/-- The validators of `POST /register`. -/
def registerErrors (L : Lib) (b : AuthBody) : List String :=
  required b.email L.isEmail "Valid email is required"
    ++ required b.password (fun s => decide (6 ≤ s.length))
        "Password must be at least 6 characters"
    ++ required b.name (fun s => decide (3 ≤ s.length)) "Name must be at least 3 characters"
    ++ required b.phoneNumber isIndianPhone "Invalid Indian phone number format"
    ++ required b.address notEmpty "Address is required"

/-- The validators of `POST /verify-otp`. -/
def verifyOTPErrors (L : Lib) (b : AuthBody) : List String :=
  required b.email L.isEmail "Valid email is required"
    ++ required b.otp notEmpty "OTP is required"

/-- The validators of `POST /resend-otp`. -/
def resendOTPErrors (L : Lib) (b : AuthBody) : List String :=
  required b.email L.isEmail "Valid email is required"

/-- The validators of `POST /login` and of `DELETE /delete`. -/
def loginErrors (L : Lib) (b : AuthBody) : List String :=
  required b.email L.isEmail "Valid email is required"
    ++ required b.password notEmpty "Password is required"

/-- The validators of `PUT /update`. -/
def updateVendorErrors (L : Lib) (b : AuthBody) : List String :=
  required b.email L.isEmail "Valid email is required"
    ++ required b.password notEmpty "Password is required"
    ++ optional b.name (fun s => decide (3 ≤ s.length)) "Name must be at least 3 characters"
    ++ optional b.phoneNumber isIndianPhone "Invalid Indian phone number format"
    ++ optional b.address notEmpty "Address is required"

/-- The validators of `PUT /update-password`. -/
def updatePasswordErrors (L : Lib) (b : AuthBody) : List String :=
  required b.email L.isEmail "Valid email is required"
    ++ required b.currentPassword notEmpty "Current password is required"
    ++ required b.newPassword (fun s => decide (6 ≤ s.length))
        "New password must be at least 6 characters"

/-- The validators of `POST /restaurant`. -/
def addRestaurantErrors (b : RestaurantBody) : List String :=
  required b.name notEmpty "Restaurant name is required"
    ++ required b.address notEmpty "Address is required"
    ++ required b.phone isIndianPhone "Invalid Indian phone number format"
    ++ required b.operatingHours notEmpty "Operating hours are required"

/-- The validators of `PUT /restaurant/:id`. -/
def updateRestaurantErrors (b : RestaurantBody) : List String :=
  optional b.name notEmpty "Restaurant name cannot be empty"
    ++ optional b.address notEmpty "Address cannot be empty"
    ++ optional b.phone isIndianPhone "Invalid Indian phone number format"
    ++ optional b.operatingHours notEmpty "Operating hours cannot be empty"

/-- The item types the validators accept. -/
def itemTypes : List String := ["Food", "Juice"]

/-- The validators of `POST /item`. -/
def addItemErrors (b : ItemBody) : List String :=
  required b.name notEmpty "Item name is required"
    ++ optional b.description (fun s => decide (s.length ≤ 500))
        "Description must not exceed 500 characters"
    ++ priceRequired b.price
    ++ required b.type (fun s => itemTypes.contains s) "Type must be Food or Juice"

/-- The validators of `PUT /item/:id`. -/
def updateItemErrors (b : ItemBody) : List String :=
  optional b.name notEmpty "Item name is required"
    ++ optional b.description (fun s => decide (s.length ≤ 500))
        "Description must not exceed 500 characters"
    ++ optional b.price (fun v => decide (0 ≤ v)) "Price must be non-negative"
    ++ optional b.type (fun s => itemTypes.contains s) "Type must be Food or Juice"

/-- The validators of `POST /breakfast-package`. -/
def addPackageErrors (b : PackageBody) : List String :=
  required b.packageName notEmpty "Package name is required"
    ++ optional b.description (fun s => decide (s.length ≤ 500))
        "Description must not exceed 500 characters"
    ++ priceRequired b.price
    ++ (match b.items with
        | none => ["Items must be a non-empty array"]
        | some l => check (decide (1 ≤ l.length)) "Items must be a non-empty array")

/-- The validators of `PUT /breakfast-package/:id`. -/
def updatePackageErrors (b : PackageBody) : List String :=
  optional b.packageName notEmpty "Package name is required"
    ++ optional b.description (fun s => decide (s.length ≤ 500))
        "Description must not exceed 500 characters"
    ++ optional b.price (fun v => decide (0 ≤ v)) "Price must be non-negative"
    ++ optional b.items (fun l => decide (1 ≤ l.length)) "Items must be a non-empty array"

/-- The middleware `validate(validations)`: answers 400 with the recorded errors, or
lets the handler run. -/
def validate (st : Store) (errors : List String) (handler : List String → Store × Response) :
    Store × Response :=
  if !errors.isEmpty then (st, Response.invalid errors) else handler errors

/-- A route behind `authenticateToken`: the rest of the chain runs with the attached
vendor only when the middleware called `next()`. -/
def withVendor (L : Lib) (st : Store) (authHeader : Option String)
    (rest : ReqVendor → Store × Response) : Store × Response :=
  match VendorAuth.authenticateToken L st authHeader with
  | Except.error r => (st, r)
  | Except.ok v => rest v

/-- The router of `routes/VendorRoutes.js`. -/
def handle (L : Lib) (env : Env) (st : Store) (authHeader : Option String) :
    VendorRequest → Store × Response
  | VendorRequest.register b =>
    validate st (registerErrors L b) (fun e => VendorController.register L env st e b)
  | VendorRequest.verifyOTP b =>
    validate st (verifyOTPErrors L b) (fun e => VendorController.verifyOTP L env st e b)
  | VendorRequest.resendOTP b =>
    validate st (resendOTPErrors L b) (fun e => VendorController.resendOTP L env st e b)
  | VendorRequest.login b =>
    validate st (loginErrors L b) (fun e => VendorController.login L st e b)
  | VendorRequest.logout =>
    withVendor L st authHeader (fun _ => VendorController.logout st)
  | VendorRequest.updateVendor b =>
    withVendor L st authHeader (fun v =>
      validate st (updateVendorErrors L b)
        (fun e => VendorController.updateVendor L env st e (some v) b))
  | VendorRequest.updatePassword b =>
    withVendor L st authHeader (fun v =>
      validate st (updatePasswordErrors L b)
        (fun e => VendorController.updatePassword L env st e (some v) b))
  | VendorRequest.deleteAccount b =>
    withVendor L st authHeader (fun v =>
      validate st (loginErrors L b)
        (fun e => VendorController.deleteAccount L env st e (some v) b))
  | VendorRequest.dashboard =>
    withVendor L st authHeader (fun v => VendorController.dashboard st (some v))
  | VendorRequest.addRestaurant b =>
    withVendor L st authHeader (fun v =>
      validate st (addRestaurantErrors b)
        (fun e => VendorController.addRestaurant L env st e (some v) b))
  | VendorRequest.getRestaurant =>
    withVendor L st authHeader (fun v => VendorController.getRestaurant st (some v))
  | VendorRequest.updateRestaurant id b =>
    withVendor L st authHeader (fun v =>
      validate st (updateRestaurantErrors b)
        (fun e => VendorController.updateRestaurant L st e (some v) id b))
  | VendorRequest.deleteRestaurant id =>
    withVendor L st authHeader (fun v => VendorController.deleteRestaurant st (some v) id)
  | VendorRequest.addItem b =>
    withVendor L st authHeader (fun v =>
      validate st (addItemErrors b)
        (fun e => VendorController.addItem L env st e (some v) b))
  | VendorRequest.getItems =>
    withVendor L st authHeader (fun v => VendorController.getItems st (some v))
  | VendorRequest.updateItem id b =>
    withVendor L st authHeader (fun v =>
      validate st (updateItemErrors b)
        (fun e => VendorController.updateItem L st e (some v) id b))
  | VendorRequest.deleteItem id =>
    withVendor L st authHeader (fun v => VendorController.deleteItem st (some v) id)
  | VendorRequest.searchItems query =>
    withVendor L st authHeader (fun v =>
      validate st (required query notEmpty "Search query is required")
        (fun _ => VendorController.searchItems L st (some v) query))
  | VendorRequest.addBreakfastPackage b =>
    withVendor L st authHeader (fun v =>
      validate st (addPackageErrors b)
        (fun e => VendorController.addBreakfastPackage L env st e (some v) b))
  | VendorRequest.getBreakfastPackages =>
    withVendor L st authHeader (fun v => VendorController.getBreakfastPackages st (some v))
  | VendorRequest.updateBreakfastPackage id b =>
    withVendor L st authHeader (fun v =>
      validate st (updatePackageErrors b)
        (fun e => VendorController.updateBreakfastPackage L st e (some v) id b))
  | VendorRequest.deleteBreakfastPackage id =>
    withVendor L st authHeader (fun v => VendorController.deleteBreakfastPackage st (some v) id)

end VendorRoutes

/-! ## `server.js` -/

/-- A request to the application, which mounts the user router at `/api/auth` and the
vendor router at `/api/vendor`. -/
inductive Request where
  | auth (r : AuthRequest)
  | vendor (r : VendorRequest)
deriving DecidableEq, Repr

/-- One request as the server receives it: what it reads from the outside world, its
`authorization` header and the request itself. -/
structure Step where
  env : Env
  authHeader : Option String
  request : Request
deriving DecidableEq, Repr

namespace Server

/-- The application: a request goes to the router its path is mounted on. -/
def handle (L : Lib) (env : Env) (st : Store) (authHeader : Option String) :
    Request → Store × Response
  | Request.auth r => AuthRoutes.handle L env st authHeader r
  | Request.vendor r => VendorRoutes.handle L env st authHeader r

/-- The store after a sequence of requests, served one after the other. -/
def run (L : Lib) : Store → List Step → Store
  | st, [] => st
  | st, s :: rest => run L (handle L s.env st s.authHeader s.request).1 rest

end Server

/-- The store of a fresh database. -/
def emptyStore : Store :=
  { users := [], vendors := [], restaurants := [], items := [], packages := [] }

/-! ## A concrete instance, to run the handlers on explicit requests -/

/-- A small implementation of the libraries: the hash prefixes a marker, a token is the
id claim in unary, an email is a string with an `@`, and strings are already trimmed
and in lower case. -/
def demoLib : Lib :=
  { hash := fun s => "$2b$" ++ s
    compare := fun plain stored => stored == "$2b$" ++ plain
    sign := fun c =>
      match c._id, c.vendorId with
      | some k, _ => String.mk ('u' :: List.replicate k 'x')
      | none, some k => String.mk ('v' :: List.replicate k 'x')
      | none, none => "-"
    verify := fun t =>
      match t.data with
      | 'u' :: rest =>
        some { _id := some rest.length, vendorId := none, email := "", name := "",
               role := none }
      | 'v' :: rest =>
        some { _id := none, vendorId := some rest.length, email := "", name := "",
               role := none }
      | _ => none
    isEmail := fun s => s.data.contains '@'
    trim := fun s => s
    toLowerCase := fun s => s
    textSearch := fun _ l => l }

/-- A verified account with password `secret1`. -/
def alice : Account :=
  { _id := 1, name := "Alice", email := "a@b.com", password := "$2b$secret1",
    phoneNumber := "9876543210", address := "1 Main St", otp := none, otpExpiry := none,
    isVerified := true, role := "user" }

/-- An unverified account with password `secret2` and a pending OTP. -/
def bob : Account :=
  { _id := 2, name := "Bob", email := "b@b.com", password := "$2b$secret2",
    phoneNumber := "9876543211", address := "2 Main St", otp := some "$2b$123456",
    otpExpiry := some 600000, isVerified := false, role := "vendor" }

/-- The account of `alice` as a document of the `Vendor` collection. -/
def aliceVendor : Account := { alice with role := "vendor" }

/-- A store in which `alice` and `bob` are both a user and a vendor. -/
def demoStore : Store :=
  { users := [alice, bob], vendors := [aliceVendor, bob], restaurants := [], items := [],
    packages := [] }

/-- A second verified vendor. -/
def dave : Account :=
  { _id := 2, name := "Dave", email := "d@b.com", password := "$2b$secret4",
    phoneNumber := "9876543213", address := "4 Main St", otp := none, otpExpiry := none,
    isVerified := true, role := "vendor" }

/-- A store with two vendors, `alice` (id 1) and `dave` (id 2), each with a restaurant,
an item and a package. -/
def demoMarket : Store :=
  { users := []
    vendors := [aliceVendor, dave]
    restaurants :=
      [{ _id := 20, vendorId := 1, name := "Alice Cafe", address := "1 Main St",
         phone := "9876543210", operatingHours := "8-20" },
       { _id := 21, vendorId := 2, name := "Dave Diner", address := "4 Main St",
         phone := "9876543213", operatingHours := "9-21" }]
    items :=
      [{ _id := 10, vendorId := 1, name := "Idli", description := none, price := 40,
         type := "Food", isAvailable := true },
       { _id := 11, vendorId := 2, name := "Lassi", description := none, price := 30,
         type := "Juice", isAvailable := true }]
    packages :=
      [{ _id := 30, vendorId := 1, packageName := "Morning", description := none,
         price := 60, items := [10], imageUrl := "", isActive := true },
       { _id := 31, vendorId := 2, packageName := "Brunch", description := none,
         price := 50, items := [11], imageUrl := "", isActive := true }] }

/-- An item body with nothing in it. -/
def emptyItemBody : ItemBody :=
  { name := none, description := none, price := none, type := none, isAvailable := none }

/-- A restaurant body with nothing in it. -/
def emptyRestaurantBody : RestaurantBody :=
  { name := none, address := none, phone := none, operatingHours := none }

/-- A body with nothing in it. -/
def emptyBody : AuthBody :=
  { name := none, email := none, password := none, phoneNumber := none, address := none,
    role := none, otp := none, currentPassword := none, newPassword := none }

/-- A registration body. -/
def carolBody : AuthBody :=
  { emptyBody with name := some "Carol", email := some "c@b.com",
                   password := some "secret3", phoneNumber := some "9876543212",
                   address := some "3 Main St" }

/-- An environment at time `now`. -/
def envAt (now : Nat) : Env := { now := now, rand := 23456, newId := 100, mailOk := true }

/-- The libraries of `demoLib` with a token that shows the role claim of its payload. -/
def roleLib : Lib :=
  { demoLib with sign := fun c => c.role.getD "no role claim" }

/-- A package body with nothing in it. -/
def emptyPackageBody : PackageBody :=
  { packageName := none, description := none, price := none, items := none,
    imageUrl := none, isActive := none }

/-! ## Specifications -/

/-- The state of the user collection after verification of the account `u`. -/
def verifiedAccount (u : Account) : Account :=
  { u with isVerified := true, otp := none, otpExpiry := none }

/-- The requests of the vendor router whose route has `authenticateToken` in front. -/
def VendorRequest.isProtected : VendorRequest → Bool
  | VendorRequest.register _ => false
  | VendorRequest.verifyOTP _ => false
  | VendorRequest.resendOTP _ => false
  | VendorRequest.login _ => false
  | _ => true

/-- The requests of the user router whose route has `authenticateToken` in front. -/
def AuthRequest.isProtected : AuthRequest → Bool
  | AuthRequest.register _ => false
  | AuthRequest.verifyOTP _ => false
  | AuthRequest.resendOTP _ => false
  | AuthRequest.login _ => false
  | _ => true

/-- The restaurants, items and packages owned by vendors other than `a` are the same
documents, in the same order, in `st` and in `st'`. -/
def SameForeign (a : ObjectId) (st st' : Store) : Prop :=
  st'.restaurants.filter (fun r => r.vendorId != a)
      = st.restaurants.filter (fun r => r.vendorId != a) ∧
  st'.items.filter (fun i => i.vendorId != a) = st.items.filter (fun i => i.vendorId != a) ∧
  st'.packages.filter (fun p => p.vendorId != a)
      = st.packages.filter (fun p => p.vendorId != a)

/-- One request's effect on a collection of accounts, as far as verification goes:
every account of the new collection `l'` either carries the fresh id `newId` or has
the `_id` of an account of the old collection `l` that, if it was verified, makes it
verified. -/
def KeepsVerified (newId : ObjectId) (l l' : List Account) : Prop :=
  ∀ u' ∈ l', u'._id = newId ∨
    ∃ u ∈ l, u._id = u'._id ∧ (u.isVerified = true → u'.isVerified = true)

/-- The write `Restaurant.deleteOne({ vendorId })`. -/
def Store.deleteRestaurantOf (st : Store) (vendorId : ObjectId) : Store :=
  { st with restaurants := st.restaurants.eraseP (fun r => r.vendorId == vendorId) }

/-- The write `Item.deleteMany({ vendorId })`. -/
def Store.deleteItemsOf (st : Store) (vendorId : ObjectId) : Store :=
  { st with items := st.items.filter (fun i => i.vendorId != vendorId) }

/-- The write `Package.deleteMany({ vendorId })`. -/
def Store.deletePackagesOf (st : Store) (vendorId : ObjectId) : Store :=
  { st with packages := st.packages.filter (fun p => p.vendorId != vendorId) }

/-- The write `Vendor.deleteOne({ email })`. -/
def Store.deleteVendorByEmail (L : Lib) (st : Store) (email : String) : Store :=
  { st with vendors := deleteOneByEmail L st.vendors email }

/-- The supplied identifier is well-formed and names an item of the store that vendor
`a` owns. -/
def IdArg.resolvesTo (st : Store) (a : ObjectId) : IdArg → Bool
  | IdArg.oid n => st.items.any (fun i => i._id == n && i.vendorId == a)
  | IdArg.malformed _ => false

/-- One request's effect on the stored passwords of a collection of accounts: every
account of the new collection `l'` either carries the fresh id `newId` or has the `_id`
and the stored password of an account of the old collection `l`. -/
def KeepsPassword (newId : ObjectId) (l l' : List Account) : Prop :=
  ∀ u' ∈ l', u'._id = newId ∨ ∃ u ∈ l, u._id = u'._id ∧ u'.password = u.password

/-- No document of the store has the `_id` `id`: what holds of the ObjectId a new
document is given. -/
def Store.fresh (st : Store) (id : ObjectId) : Prop :=
  id ∉ st.users.map (fun d => d._id) ∧ id ∉ st.vendors.map (fun d => d._id) ∧
  id ∉ st.restaurants.map (fun d => d._id) ∧ id ∉ st.items.map (fun d => d._id) ∧
  id ∉ st.packages.map (fun d => d._id)

/-- Every request of the sequence is served with an ObjectId that is fresh for the
store it meets. -/
def Server.FreshRun (L : Lib) : Store → List Step → Prop
  | _, [] => True
  | st, s :: rest =>
    st.fresh s.env.newId ∧
      Server.FreshRun L (Server.handle L s.env st s.authHeader s.request).1 rest

/-- The `_id`s of a principal collection are pairwise different, and so are its
emails. -/
def UniqueAccounts (l : List Account) : Prop :=
  (l.map (fun d => d._id)).Nodup ∧ (l.map (fun d => d.email)).Nodup

/-- The guards of the user `register` before its lookup: the five fields are truthy,
the email has an `@`, and a supplied role is one of the four. -/
def AuthController.registerInputOk (b : AuthBody) : Bool :=
  !(falsy b.name || falsy b.email || falsy b.password || falsy b.phoneNumber
      || falsy b.address)
    && (b.email.getD "").data.contains '@'
    && !(!falsy b.role && !(userRoles.contains (b.role.getD "")))

/-- The package reference invariant: every item id a stored package lists names a
stored item that the package's vendor owns. -/
def PackageRefsOk (st : Store) : Prop :=
  ∀ p ∈ st.packages, ∀ id ∈ p.items,
    ∃ i ∈ st.items, i._id = id ∧ i.vendorId = p.vendorId

/-- The request is not a `deleteItem` on the id of an item that a stored package
lists. -/
def KeepsReferencedItems (st : Store) (r : Request) : Prop :=
  ∀ id, r = Request.vendor (VendorRequest.deleteItem (IdArg.oid id)) →
    ∀ p ∈ st.packages, id ∉ p.items

/-- No request of the sequence deletes an item that a package stored at that moment
lists. -/
def Server.NoReferencedDelete (L : Lib) : Store → List Step → Prop
  | _, [] => True
  | st, s :: rest =>
    KeepsReferencedItems st s.request ∧
      Server.NoReferencedDelete L (Server.handle L s.env st s.authHeader s.request).1 rest

/-- The package reference invariant together with what it is proved by induction with:
the `_id`s of the items are pairwise different. -/
def PackageInv (st : Store) : Prop :=
  PackageRefsOk st ∧ (st.items.map (fun i => i._id)).Nodup

/-- The step with which the vendor of token `vx` (id 1) deletes the item `id`. -/
def deleteItemStep (id : ObjectId) : Step :=
  { env := { now := 40, rand := 23456, newId := 50, mailOk := true },
    authHeader := some "Bearer vx",
    request := Request.vendor (VendorRequest.deleteItem (IdArg.oid id)) }

/-- A run on a fresh database: a vendor registers and is given the id 1, verifies with
the code it was sent, adds the items 10 and 11 and then a package that lists item 10. -/
def marketRun : List Step :=
  [{ env := { now := 0, rand := 23456, newId := 1, mailOk := true }, authHeader := none,
     request := Request.vendor (VendorRequest.register carolBody) },
   { env := { now := 5, rand := 23456, newId := 2, mailOk := true }, authHeader := none,
     request := Request.vendor
       (VendorRequest.verifyOTP
         { emptyBody with email := some "c@b.com", otp := some "123456" }) },
   { env := { now := 10, rand := 23456, newId := 10, mailOk := true },
     authHeader := some "Bearer vx",
     request := Request.vendor
       (VendorRequest.addItem
         { emptyItemBody with name := some "Idli", price := some 40,
                              type := some "Food" }) },
   { env := { now := 20, rand := 23456, newId := 11, mailOk := true },
     authHeader := some "Bearer vx",
     request := Request.vendor
       (VendorRequest.addItem
         { emptyItemBody with name := some "Lassi", price := some 30,
                              type := some "Juice" }) },
   { env := { now := 30, rand := 23456, newId := 30, mailOk := true },
     authHeader := some "Bearer vx",
     request := Request.vendor
       (VendorRequest.addBreakfastPackage
         { emptyPackageBody with packageName := some "Morning", price := some 60,
                                 items := some [IdArg.oid 10] }) }]

/-- The libraries of `demoLib` with a `toLowerCase` that lowers the ASCII letters. -/
def caseLib : Lib :=
  { demoLib with toLowerCase := fun s => String.mk (s.data.map Char.toLower) }

/-- Each vendor has at most one restaurant: at most one stored restaurant carries any
given `vendorId`. -/
def OneRestaurantPerVendor (st : Store) : Prop :=
  ∀ a : ObjectId, (st.restaurants.filter (fun r => r.vendorId == a)).length ≤ 1

/-- The requests to the user router whose handler awaits a mail after its write. -/
def AuthRequest.sendsMail : AuthRequest → Bool
  | AuthRequest.register _ => true
  | AuthRequest.resendOTP _ => true
  | AuthRequest.updateUser _ => true
  | AuthRequest.updatePassword _ => true
  | AuthRequest.deleteAccount _ => true
  | _ => false

/-- The requests to the vendor router whose handler awaits a mail after its write. -/
def VendorRequest.sendsMail : VendorRequest → Bool
  | VendorRequest.register _ => true
  | VendorRequest.resendOTP _ => true
  | VendorRequest.updateVendor _ => true
  | VendorRequest.updatePassword _ => true
  | VendorRequest.deleteAccount _ => true
  | _ => false

/-- The requests whose handler awaits a mail after its write. -/
def Request.sendsMail : Request → Bool
  | Request.auth r => r.sendsMail
  | Request.vendor r => r.sendsMail

/-- The libraries of `demoLib` with a hash that, as bcrypt does, reads only the first
72 bytes of its input: on the ASCII passwords it is used with here, the first 72
characters. -/
def truncLib : Lib :=
  { demoLib with
    hash := fun s => "$2b$" ++ String.mk (s.data.take 72)
    compare := fun plain stored => stored == "$2b$" ++ String.mk (plain.data.take 72) }

/-- A password of 73 ASCII characters: 72 times `a`, then `c`. -/
def longPassword (c : Char) : String := String.mk (List.replicate 72 'a' ++ [c])

/-- The store `demoMarket` where the vendor `alice` has the password `longPassword '1'`,
hashed by `truncLib`. -/
def longMarket : Store :=
  { demoMarket with
    vendors := [{ aliceVendor with password := truncLib.hash (longPassword '1') }, dave] }

/-! ## Collections -/

theorem find_updateFirst_const {α : Type} (p q : α → Bool) (l : List α) (u new : α)
    (hf : l.find? p = some u) (hq : q u = true) (hp : p new = true) :
    (updateFirst q (fun _ => new) l).find? p = some new := by
  induction l with
  | nil => simp at hf
  | cons d ds ih =>
    by_cases hqd : q d = true
    · simp [updateFirst, hqd, List.find?_cons, hp]
    · by_cases hpd : p d = true
      · simp [List.find?_cons, hpd] at hf
        subst hf
        exact absurd hq hqd
      · simp only [List.find?_cons, hpd] at hf
        simp [updateFirst, hqd, List.find?_cons, hpd]
        exact ih hf

theorem findOneByEmail_replaceById (L : Lib) (docs : List Account) (email : String)
    (u saved : Account) (hf : findOneByEmail L docs email = some u)
    (hid : saved._id = u._id) (hem : saved.email = u.email) :
    findOneByEmail L (replaceById docs saved) email = some saved := by
  unfold findOneByEmail replaceById at *
  apply find_updateFirst_const _ _ docs u saved hf
  · simp [hid]
  · have := List.find?_some hf
    simpa [hem] using this

theorem findOneByEmail_append (L : Lib) (docs : List Account) (email : String)
    (d : Account) (hf : findOneByEmail L docs email = none)
    (hem : d.email = emailSetter L email) :
    findOneByEmail L (docs ++ [d]) email = some d := by
  unfold findOneByEmail at *
  simp [List.find?_append, hf, hem]

theorem toDigitsCore_ne_nil (f n : Nat) (c : Char) (tl : List Char) :
    Nat.toDigitsCore 10 f n (c :: tl) ≠ [] := by
  intro h
  have := Nat.toDigitsCore_lens_eq 10 f n c tl
  simp [h] at this

theorem generateOTP_ne_empty (rand : Nat) : generateOTP rand ≠ "" := by
  unfold generateOTP
  intro h
  have h2 : (toString (randomInt 100000 999999 rand)).data = [] := by rw [h]
  revert h2
  show (Nat.repr _).data ≠ []
  simp only [Nat.repr, Nat.toDigits, List.asString, Nat.toDigitsCore]
  split
  · simp
  · exact toDigitsCore_ne_nil _ _ _ _

theorem demoLib_compare (p q : String) :
    demoLib.compare p (demoLib.hash q) = true ↔ p = q := by
  simp only [demoLib, beq_iff_eq]
  constructor
  · intro h
    have h2 := congrArg String.data h
    simp only [String.data_append, List.append_cancel_left_eq] at h2
    exact (String.ext h2).symm
  · intro h
    rw [h]

theorem mem_updateFirst {α : Type} (p : α → Bool) (f : α → α) (l : List α) (x : α)
    (h : x ∈ updateFirst p f l) : x ∈ l ∨ ∃ y ∈ l, p y = true ∧ x = f y := by
  induction l with
  | nil => simp [updateFirst] at h
  | cons d ds ih =>
    by_cases hp : p d = true
    · simp [updateFirst, hp] at h
      rcases h with h | h
      · exact Or.inr ⟨d, by simp, hp, h⟩
      · exact Or.inl (by simp [h])
    · simp [updateFirst, hp] at h
      rcases h with h | h
      · exact Or.inl (by simp [h])
      · rcases ih h with h2 | ⟨y, hy, hpy, hxy⟩
        · exact Or.inl (by simp [h2])
        · exact Or.inr ⟨y, by simp [hy], hpy, hxy⟩

theorem keepsVerified_refl (newId : ObjectId) (l : List Account) : KeepsVerified newId l l :=
  fun u' hu => Or.inr ⟨u', hu, rfl, id⟩

theorem keepsVerified_append (newId : ObjectId) (l : List Account) (new : Account)
    (h : new._id = newId) : KeepsVerified newId l (l ++ [new]) := by
  intro u' hu
  rcases List.mem_append.1 hu with h1 | h1
  · exact Or.inr ⟨u', h1, rfl, id⟩
  · simp at h1
    exact Or.inl (h1 ▸ h)

theorem keepsVerified_updateFirst (newId : ObjectId) (l : List Account)
    (p : Account → Bool) (f : Account → Account)
    (hf : ∀ u ∈ l, p u = true →
      (f u)._id = u._id ∧ (u.isVerified = true → (f u).isVerified = true)) :
    KeepsVerified newId l (updateFirst p f l) := by
  intro u' hu
  rcases mem_updateFirst p f l u' hu with h1 | ⟨y, hy, hpy, rfl⟩
  · exact Or.inr ⟨u', h1, rfl, id⟩
  · exact Or.inr ⟨y, hy, (hf y hy hpy).1.symm, (hf y hy hpy).2⟩

theorem keepsVerified_replaceById (newId : ObjectId) (l : List Account) (saved : Account)
    (h : saved.isVerified = true ∨
      ∃ u ∈ l, u._id = saved._id ∧ (u.isVerified = true → saved.isVerified = true)) :
    KeepsVerified newId l (replaceById l saved) := by
  intro u' hu
  rcases mem_updateFirst _ _ l u' hu with h1 | ⟨y, hy, hpy, rfl⟩
  · exact Or.inr ⟨u', h1, rfl, id⟩
  · rcases h with h | ⟨u, hu2, hid, hv⟩
    · exact Or.inr ⟨y, hy, by simpa using hpy, fun _ => h⟩
    · exact Or.inr ⟨u, hu2, hid, hv⟩

theorem keepsVerified_eraseP (newId : ObjectId) (l : List Account) (p : Account → Bool) :
    KeepsVerified newId l (l.eraseP p) :=
  fun u' hu => Or.inr ⟨u', List.mem_of_mem_eraseP hu, rfl, id⟩

theorem findOneByEmail_mem (L : Lib) (l : List Account) (email : String) (u : Account)
    (h : findOneByEmail L l email = some u) : u ∈ l :=
  List.mem_of_find?_eq_some h

/-! ## Login -/

theorem login_user_token (L : Lib) (st : Store) (b : AuthBody) :
    (AuthController.login L st b).2.token.isSome = true ↔
      ∃ email password u, b.email = some email ∧ b.password = some password ∧
        email ≠ "" ∧ password ≠ "" ∧ findOneByEmail L st.users email = some u ∧
        L.compare password u.password = true ∧ u.isVerified = true := by
  unfold AuthController.login
  rcases he : b.email with _ | email <;> rcases hp : b.password with _ | password <;>
    simp [falsy, Response.msg]
  by_cases h1 : email = "" <;> by_cases h2 : password = "" <;> simp [h1, h2, Response.msg]
  rcases hf : findOneByEmail L st.users email with _ | u <;> simp [Response.msg]
  by_cases hc : L.compare password u.password = true <;>
    by_cases hv : u.isVerified = true <;> simp [hc, hv, Response.msg]

theorem login_vendor_token (L : Lib) (env : Env) (st : Store) (hdr : Option String)
    (b : AuthBody) :
    (VendorRoutes.handle L env st hdr (VendorRequest.login b)).2.token.isSome = true ↔
      ∃ email password v, b.email = some email ∧ b.password = some password ∧
        L.isEmail email = true ∧ password ≠ "" ∧
        findOneByEmail L st.vendors email = some v ∧
        L.compare password v.password = true ∧ v.isVerified = true := by
  simp only [VendorRoutes.handle]
  unfold VendorRoutes.validate VendorRoutes.loginErrors VendorController.login
  rcases he : b.email with _ | email <;> rcases hp : b.password with _ | password
  · simp [VendorRoutes.required, VendorRoutes.check, VendorRoutes.notEmpty, Response.invalid]
  · simp [VendorRoutes.required, VendorRoutes.check, VendorRoutes.notEmpty, Response.invalid]
  · simp [VendorRoutes.required, VendorRoutes.check, VendorRoutes.notEmpty, Response.invalid]
  by_cases h1 : L.isEmail email = true <;> by_cases h2 : password = "" <;>
    simp [h1, h2, Response.invalid, VendorRoutes.required, VendorRoutes.check,
      VendorRoutes.notEmpty]
  rcases hf : findOneByEmail L st.vendors email with _ | v <;> simp [Response.msg]
  by_cases hc : L.compare password v.password = true <;>
    by_cases hv : v.isVerified = true <;> simp [hc, hv, Response.msg]

theorem login_user_unverified (L : Lib) (st : Store) (b : AuthBody) (email password : String)
    (u : Account) (he : b.email = some email) (hp : b.password = some password)
    (hne : email ≠ "") (hnp : password ≠ "")
    (hf : findOneByEmail L st.users email = some u)
    (hc : L.compare password u.password = true) (hv : u.isVerified = false) :
    AuthController.login L st b
      = (st, Response.msg 400 "Email not verified. Please verify OTP.") := by
  unfold AuthController.login
  simp [he, hp, falsy, hne, hnp, hf, hc, hv]

theorem login_vendor_unverified (L : Lib) (env : Env) (st : Store) (hdr : Option String)
    (b : AuthBody) (email password : String) (v : Account)
    (he : b.email = some email) (hp : b.password = some password)
    (hne : L.isEmail email = true) (hnp : password ≠ "")
    (hf : findOneByEmail L st.vendors email = some v)
    (hc : L.compare password v.password = true) (hv : v.isVerified = false) :
    VendorRoutes.handle L env st hdr (VendorRequest.login b)
      = (st, Response.msg 400 "Email not verified. Please verify OTP.") := by
  simp only [VendorRoutes.handle]
  unfold VendorRoutes.validate VendorRoutes.loginErrors VendorController.login
  simp [he, hp, VendorRoutes.required, VendorRoutes.check, VendorRoutes.notEmpty, hne, hnp,
    hf, hc, hv]

/-! ## Route validators -/

theorem required_eq_nil (x : Option String) (ok : String → Bool) (message : String) :
    VendorRoutes.required x ok message = [] ↔ ∃ v, x = some v ∧ ok v = true := by
  cases x with
  | none => simp [VendorRoutes.required]
  | some v => by_cases h : ok v = true <;> simp [VendorRoutes.required, VendorRoutes.check, h]

/-! ## Verification is never undone -/

theorem preSave_keeps (L : Lib) (pw otp : Bool) (doc : Account) :
    (vendorPreSave L pw otp doc)._id = doc._id ∧
    (vendorPreSave L pw otp doc).isVerified = doc.isVerified ∧
    (vendorPreSave L pw otp doc).email = doc.email ∧
    (vendorPreSave L pw otp doc).name = doc.name ∧
    (vendorPreSave L pw otp doc).role = doc.role ∧
    (vendorPreSave L pw otp doc).otpExpiry = doc.otpExpiry ∧
    (vendorPreSave L pw otp doc).phoneNumber = doc.phoneNumber ∧
    (vendorPreSave L pw otp doc).address = doc.address := by
  unfold vendorPreSave
  cases pw <;> cases otp <;> simp <;> split <;> simp

theorem userPreSave_eq (L : Lib) (pw otp : Bool) (doc : Account) :
    userPreSave L pw otp doc = vendorPreSave L pw otp doc := rfl

theorem vendorSave_eq (L : Lib) (loaded : Option Account) (doc saved : Account)
    (h : vendorSave L loaded doc = some saved) :
    vendorValid doc = true ∧
    saved = vendorPreSave L (passwordModified loaded doc) (otpModified loaded doc) doc := by
  unfold vendorSave at h
  split at h
  · exact ⟨by assumption, (Option.some.inj h).symm⟩
  · simp at h

theorem userSave_eq (L : Lib) (loaded : Option Account) (doc saved : Account)
    (h : userSave L loaded doc = some saved) :
    userValid doc = true ∧
    saved = vendorPreSave L (passwordModified loaded doc) (otpModified loaded doc) doc := by
  unfold userSave at h
  split at h
  · exact ⟨by assumption, (Option.some.inj h).symm⟩
  · simp at h

theorem vendorSave_keeps (L : Lib) (loaded : Option Account) (doc saved : Account)
    (h : vendorSave L loaded doc = some saved) :
    saved._id = doc._id ∧ saved.isVerified = doc.isVerified ∧ saved.email = doc.email := by
  rw [(vendorSave_eq L loaded doc saved h).2]
  exact ⟨(preSave_keeps L _ _ doc).1, (preSave_keeps L _ _ doc).2.1,
    (preSave_keeps L _ _ doc).2.2.1⟩

theorem userSave_keeps (L : Lib) (loaded : Option Account) (doc saved : Account)
    (h : userSave L loaded doc = some saved) :
    saved._id = doc._id ∧ saved.isVerified = doc.isVerified ∧ saved.email = doc.email := by
  rw [(userSave_eq L loaded doc saved h).2]
  exact ⟨(preSave_keeps L _ _ doc).1, (preSave_keeps L _ _ doc).2.1,
    (preSave_keeps L _ _ doc).2.2.1⟩

theorem keepsVerified_save (L : Lib) (newId : ObjectId) (l : List Account)
    (email : String) (u saved : Account)
    (hf : findOneByEmail L l email = some u) (hid : saved._id = u._id)
    (hv : saved.isVerified = u.isVerified) :
    KeepsVerified newId l (replaceById l saved) := by
  apply keepsVerified_replaceById
  refine Or.inr ⟨u, findOneByEmail_mem L l email u hf, hid.symm, ?_⟩
  intro h
  rw [hv, h]

theorem keepsVerified_vendorSave (L : Lib) (newId : ObjectId) (l : List Account)
    (email : String) (u doc saved : Account)
    (hf : findOneByEmail L l email = some u) (hs : vendorSave L (some u) doc = some saved)
    (hid : doc._id = u._id) (hv : doc.isVerified = u.isVerified) :
    KeepsVerified newId l (replaceById l saved) :=
  keepsVerified_save L newId l email u saved hf
    ((vendorSave_keeps L _ doc saved hs).1.trans hid)
    ((vendorSave_keeps L _ doc saved hs).2.1.trans hv)

theorem keepsVerified_userSave (L : Lib) (newId : ObjectId) (l : List Account)
    (email : String) (u doc saved : Account)
    (hf : findOneByEmail L l email = some u) (hs : userSave L (some u) doc = some saved)
    (hid : doc._id = u._id) (hv : doc.isVerified = u.isVerified) :
    KeepsVerified newId l (replaceById l saved) :=
  keepsVerified_save L newId l email u saved hf
    ((userSave_keeps L _ doc saved hs).1.trans hid)
    ((userSave_keeps L _ doc saved hs).2.1.trans hv)

theorem keeps_user_register (L : Lib) (env : Env) (st : Store) (b : AuthBody) :
    KeepsVerified env.newId st.users (AuthController.register L env st b).1.users := by
  unfold AuthController.register
  try dsimp only
  repeat' split
  all_goals first
    | exact keepsVerified_refl _ _
    | (have hs := userSave_keeps L _ _ _ (by assumption)
       exact keepsVerified_append _ _ _ hs.1)

theorem keeps_user_verifyOTP (L : Lib) (env : Env) (st : Store) (b : AuthBody) :
    KeepsVerified env.newId st.users (AuthController.verifyOTP L env st b).1.users := by
  unfold AuthController.verifyOTP
  try dsimp only
  repeat' split
  all_goals first
    | exact keepsVerified_refl _ _
    | (have hs := userSave_keeps L _ _ _ (by assumption)
       exact keepsVerified_replaceById _ _ _ (Or.inl hs.2.1))

theorem keeps_user_resendOTP (L : Lib) (env : Env) (st : Store) (b : AuthBody) :
    KeepsVerified env.newId st.users (AuthController.resendOTP L env st b).1.users := by
  unfold AuthController.resendOTP
  try dsimp only
  repeat' split
  all_goals first
    | exact keepsVerified_refl _ _
    | (apply keepsVerified_userSave
       · assumption
       · assumption
       · rfl
       · rfl)

theorem keeps_user_updateUser (L : Lib) (env : Env) (st : Store) (user : Option ReqUser)
    (b : AuthBody) :
    KeepsVerified env.newId st.users (AuthController.updateUser L env st user b).1.users := by
  unfold AuthController.updateUser
  try dsimp only
  repeat' split
  all_goals first
    | exact keepsVerified_refl _ _
    | exact keepsVerified_updateFirst _ _ _ _ (fun u _ _ => ⟨rfl, id⟩)

theorem keeps_user_updatePassword (L : Lib) (env : Env) (st : Store)
    (user : Option ReqUser) (b : AuthBody) :
    KeepsVerified env.newId st.users
      (AuthController.updatePassword L env st user b).1.users := by
  unfold AuthController.updatePassword
  try dsimp only
  repeat' split
  all_goals first
    | exact keepsVerified_refl _ _
    | (apply keepsVerified_userSave
       · assumption
       · assumption
       · rfl
       · rfl)

theorem keeps_user_deleteAccount (L : Lib) (env : Env) (st : Store)
    (user : Option ReqUser) (b : AuthBody) :
    KeepsVerified env.newId st.users
      (AuthController.deleteAccount L env st user b).1.users := by
  unfold AuthController.deleteAccount
  try dsimp only
  repeat' split
  all_goals first
    | exact keepsVerified_refl _ _
    | exact keepsVerified_eraseP _ _ _

theorem keeps_user_handle (L : Lib) (env : Env) (st : Store) (hdr : Option String)
    (r : AuthRequest) :
    KeepsVerified env.newId st.users (AuthRoutes.handle L env st hdr r).1.users := by
  cases r <;> simp only [AuthRoutes.handle, AuthRoutes.withUser]
  case register b => exact keeps_user_register L env st b
  case verifyOTP b => exact keeps_user_verifyOTP L env st b
  case resendOTP b => exact keeps_user_resendOTP L env st b
  case login b =>
    unfold AuthController.login
    dsimp only
    repeat' split
    all_goals exact keepsVerified_refl _ _
  case logout => split <;> exact keepsVerified_refl _ _
  case updateUser b =>
    split
    · exact keepsVerified_refl _ _
    · exact keeps_user_updateUser L env st _ b
  case updatePassword b =>
    split
    · exact keepsVerified_refl _ _
    · exact keeps_user_updatePassword L env st _ b
  case deleteAccount b =>
    split
    · exact keepsVerified_refl _ _
    · exact keeps_user_deleteAccount L env st _ b
  case dashboard => split <;> exact keepsVerified_refl _ _
  case adminStats =>
    repeat' split
    all_goals exact keepsVerified_refl _ _

theorem vendorPreSave_keeps (L : Lib) (pw otp : Bool) (doc : Account) :
    (vendorPreSave L pw otp doc)._id = doc._id ∧
    (vendorPreSave L pw otp doc).isVerified = doc.isVerified ∧
    (vendorPreSave L pw otp doc).email = doc.email := by
  unfold vendorPreSave
  cases pw <;> cases otp <;> simp <;> split <;> simp

theorem keepsVerified_vendor_save (L : Lib) (newId : ObjectId) (l : List Account)
    (email : String) (u doc : Account) (pw otp : Bool)
    (hf : findOneByEmail L l email = some u) (hid : doc._id = u._id)
    (hv : doc.isVerified = u.isVerified) :
    KeepsVerified newId l (replaceById l (vendorPreSave L pw otp doc)) := by
  apply keepsVerified_replaceById
  refine Or.inr ⟨u, findOneByEmail_mem L l email u hf, ?_, ?_⟩
  · rw [(vendorPreSave_keeps L pw otp doc).1, hid]
  · intro h
    rw [(vendorPreSave_keeps L pw otp doc).2.1, hv, h]

theorem keeps_vendor_register (L : Lib) (env : Env) (st : Store) (e : List String)
    (b : AuthBody) :
    KeepsVerified env.newId st.vendors (VendorController.register L env st e b).1.vendors := by
  unfold VendorController.register
  try dsimp only
  repeat' split
  all_goals first
    | exact keepsVerified_refl _ _
    | (have hs := vendorSave_keeps L _ _ _ (by assumption)
       exact keepsVerified_append _ _ _ hs.1)

theorem keeps_vendor_verifyOTP (L : Lib) (env : Env) (st : Store) (e : List String)
    (b : AuthBody) :
    KeepsVerified env.newId st.vendors (VendorController.verifyOTP L env st e b).1.vendors := by
  unfold VendorController.verifyOTP
  try dsimp only
  repeat' split
  all_goals first
    | exact keepsVerified_refl _ _
    | (have hs := vendorSave_keeps L _ _ _ (by assumption)
       exact keepsVerified_replaceById _ _ _ (Or.inl hs.2.1))

theorem keeps_vendor_resendOTP (L : Lib) (env : Env) (st : Store) (e : List String)
    (b : AuthBody) :
    KeepsVerified env.newId st.vendors (VendorController.resendOTP L env st e b).1.vendors := by
  unfold VendorController.resendOTP
  try dsimp only
  repeat' split
  all_goals first
    | exact keepsVerified_refl _ _
    | (apply keepsVerified_vendorSave
       · assumption
       · assumption
       · rfl
       · rfl)

theorem keeps_vendor_updateVendor (L : Lib) (env : Env) (st : Store) (e : List String)
    (vendor : Option ReqVendor) (b : AuthBody) :
    KeepsVerified env.newId st.vendors
      (VendorController.updateVendor L env st e vendor b).1.vendors := by
  unfold VendorController.updateVendor
  try dsimp only
  repeat' split
  all_goals first
    | exact keepsVerified_refl _ _
    | exact keepsVerified_updateFirst _ _ _ _ (fun u _ _ => ⟨rfl, id⟩)

theorem keeps_vendor_updatePassword (L : Lib) (env : Env) (st : Store) (e : List String)
    (vendor : Option ReqVendor) (b : AuthBody) :
    KeepsVerified env.newId st.vendors
      (VendorController.updatePassword L env st e vendor b).1.vendors := by
  unfold VendorController.updatePassword
  try dsimp only
  repeat' split
  all_goals first
    | exact keepsVerified_refl _ _
    | (apply keepsVerified_vendorSave
       · assumption
       · assumption
       · rfl
       · rfl)

theorem keeps_vendor_deleteAccount (L : Lib) (env : Env) (st : Store) (e : List String)
    (vendor : Option ReqVendor) (b : AuthBody) :
    KeepsVerified env.newId st.vendors
      (VendorController.deleteAccount L env st e vendor b).1.vendors := by
  unfold VendorController.deleteAccount
  try dsimp only
  repeat' split
  all_goals first
    | exact keepsVerified_refl _ _
    | exact keepsVerified_eraseP _ _ _

theorem keeps_vendor_handle (L : Lib) (env : Env) (st : Store) (hdr : Option String)
    (r : VendorRequest) :
    KeepsVerified env.newId st.vendors (VendorRoutes.handle L env st hdr r).1.vendors := by
  cases r <;> simp only [VendorRoutes.handle, VendorRoutes.withVendor, VendorRoutes.validate]
  case register b => split <;> first | exact keepsVerified_refl _ _ | exact keeps_vendor_register _ _ _ _ _
  case verifyOTP b => split <;> first | exact keepsVerified_refl _ _ | exact keeps_vendor_verifyOTP _ _ _ _ _
  case resendOTP b => split <;> first | exact keepsVerified_refl _ _ | exact keeps_vendor_resendOTP _ _ _ _ _
  case updateVendor b =>
    repeat' split
    all_goals first | exact keepsVerified_refl _ _ | exact keeps_vendor_updateVendor _ _ _ _ _ _
  case updatePassword b =>
    repeat' split
    all_goals first | exact keepsVerified_refl _ _ | exact keeps_vendor_updatePassword _ _ _ _ _ _
  case deleteAccount b =>
    repeat' split
    all_goals first | exact keepsVerified_refl _ _ | exact keeps_vendor_deleteAccount _ _ _ _ _ _
  all_goals
    simp only [VendorController.login, VendorController.logout, VendorController.dashboard,
      VendorController.addRestaurant, VendorController.getRestaurant,
      VendorController.updateRestaurant, VendorController.deleteRestaurant,
      VendorController.addItem, VendorController.getItems, VendorController.updateItem,
      VendorController.deleteItem, VendorController.searchItems,
      VendorController.addBreakfastPackage, VendorController.getBreakfastPackages,
      VendorController.updateBreakfastPackage, VendorController.writePackageUpdate,
      VendorController.deleteBreakfastPackage]
    repeat' split
    all_goals exact keepsVerified_refl _ _

theorem keepsVerified_stays (newId : ObjectId) (l l' : List Account)
    (hk : KeepsVerified newId l l') (hnd : (l.map (fun d => d._id)).Nodup)
    (hfresh : newId ∉ l.map (fun d => d._id)) (u : Account) (hu : u ∈ l)
    (hv : u.isVerified = true) (u' : Account) (hu' : u' ∈ l') (hid : u'._id = u._id) :
    u'.isVerified = true := by
  rcases hk u' hu' with h | ⟨u0, hu0, hid0, himp⟩
  · exact absurd (List.mem_map.2 ⟨u, hu, by rw [← hid, h]⟩) hfresh
  · have : u0 = u := List.inj_on_of_nodup_map hnd hu0 hu (hid0.trans hid)
    exact himp (this ▸ hv)

theorem verified_user_refused (L : Lib) (env : Env) (st : Store) (b : AuthBody)
    (email : String) (u : Account) (hbe : b.email = some email)
    (hf : findOneByEmail L st.users email = some u) (hv : u.isVerified = true) :
    (AuthController.verifyOTP L env st b).1 = st ∧
    (AuthController.verifyOTP L env st b).2.status = 400 ∧
    (AuthController.resendOTP L env st b).1 = st ∧
    (AuthController.resendOTP L env st b).2.status = 400 ∧
    (email ≠ "" → falsy b.otp = false →
      AuthController.verifyOTP L env st b = (st, Response.msg 400 "User already verified")) ∧
    (email ≠ "" →
      AuthController.resendOTP L env st b = (st, Response.msg 400 "User already verified")) := by
  unfold AuthController.verifyOTP AuthController.resendOTP
  rcases ho : b.otp with _ | code
  · by_cases he : email = "" <;> simp [hbe, falsy, he, hf, hv, Response.msg]
  · by_cases he : email = "" <;> by_cases hc : code = "" <;>
      simp [hbe, falsy, he, hc, hf, hv, Response.msg]

theorem verified_vendor_refused (L : Lib) (env : Env) (st : Store) (hdr : Option String)
    (b : AuthBody) (email : String) (v : Account) (hbe : b.email = some email)
    (hf : findOneByEmail L st.vendors email = some v) (hv : v.isVerified = true) :
    (VendorRoutes.handle L env st hdr (VendorRequest.verifyOTP b)).1 = st ∧
    (VendorRoutes.handle L env st hdr (VendorRequest.verifyOTP b)).2.status = 400 ∧
    (VendorRoutes.handle L env st hdr (VendorRequest.resendOTP b)).1 = st ∧
    (VendorRoutes.handle L env st hdr (VendorRequest.resendOTP b)).2.status = 400 ∧
    (L.isEmail email = true → falsy b.otp = false →
      VendorRoutes.handle L env st hdr (VendorRequest.verifyOTP b)
        = (st, Response.msg 400 "Vendor already verified")) ∧
    (L.isEmail email = true →
      VendorRoutes.handle L env st hdr (VendorRequest.resendOTP b)
        = (st, Response.msg 400 "Vendor already verified")) := by
  simp only [VendorRoutes.handle]
  unfold VendorRoutes.validate VendorRoutes.verifyOTPErrors VendorRoutes.resendOTPErrors
    VendorController.verifyOTP VendorController.resendOTP
  rcases ho : b.otp with _ | code
  · by_cases he : L.isEmail email = true <;>
      simp [hbe, falsy, he, hf, hv, Response.msg, Response.invalid, VendorRoutes.required,
        VendorRoutes.check, VendorRoutes.notEmpty]
  · by_cases he : L.isEmail email = true <;> by_cases hc : code = "" <;>
      simp [hbe, falsy, he, hc, hf, hv, Response.msg, Response.invalid,
        VendorRoutes.required, VendorRoutes.check, VendorRoutes.notEmpty]

/-! ## The vendor middleware -/

theorem vendorAuth_ok_iff (L : Lib) (st : Store) (hdr : Option String) (rv : ReqVendor) :
    VendorAuth.authenticateToken L st hdr = Except.ok rv ↔
      ∃ token claims id v, bearerToken hdr = some token ∧ L.verify token = some claims ∧
        claims.vendorId = some id ∧ findById st.vendors id = some v ∧
        v.isVerified = true ∧ rv = { id := v._id, email := v.email, name := v.name } := by
  unfold VendorAuth.authenticateToken
  rcases ht : bearerToken hdr with _ | token
  · simp
  rcases hc : L.verify token with _ | claims
  · simp [hc]
  rcases hi : claims.vendorId with _ | id
  · simp [hc, hi]
  rcases hf : findById st.vendors id with _ | v
  · simp [hc, hi, hf]
  by_cases hv : v.isVerified = true
  · simp [hc, hi, hf, hv]
    exact eq_comm
  · simp [hc, hi, hf, hv]

theorem vendor_protected_gate (L : Lib) (env : Env) (st : Store) (hdr : Option String)
    (r : VendorRequest) (hp : r.isProtected = true) (resp : Response)
    (h : VendorAuth.authenticateToken L st hdr = Except.error resp) :
    VendorRoutes.handle L env st hdr r = (st, resp) := by
  cases r <;> simp [VendorRequest.isProtected] at hp <;>
    simp [VendorRoutes.handle, VendorRoutes.withVendor, h]

theorem vendorAuth_error_status (L : Lib) (st : Store) (hdr : Option String)
    (resp : Response) (h : VendorAuth.authenticateToken L st hdr = Except.error resp) :
    resp.status = 401 ∨ resp.status = 403 := by
  unfold VendorAuth.authenticateToken at h
  repeat' split at h
  all_goals first
    | (injection h with h; subst h; simp [Response.msg, Response.caught])
    | simp at h

theorem vendor_delete_success (L : Lib) (env : Env) (st : Store) (hdr : Option String)
    (b : AuthBody)
    (h : (VendorRoutes.handle L env st hdr (VendorRequest.deleteAccount b)).2.status = 200) :
    ∃ rv doc, VendorAuth.authenticateToken L st hdr = Except.ok rv ∧
      b.email = some rv.email ∧ findOneByEmail L st.vendors rv.email = some doc ∧
      (VendorRoutes.handle L env st hdr (VendorRequest.deleteAccount b)).1
        = { st with
            restaurants := st.restaurants.eraseP (fun r => r.vendorId == doc._id),
            items := st.items.filter (fun i => i.vendorId != doc._id),
            packages := st.packages.filter (fun p => p.vendorId != doc._id),
            vendors := deleteOneByEmail L st.vendors rv.email } := by
  simp only [VendorRoutes.handle, VendorRoutes.withVendor, VendorRoutes.validate] at h ⊢
  rcases hauth : VendorAuth.authenticateToken L st hdr with resp | rv
  · rw [hauth] at h
    rcases vendorAuth_error_status L st hdr resp hauth with h1 | h1 <;> simp [h1] at h
  rw [hauth] at h
  simp only at h ⊢
  split at h
  · simp [Response.invalid] at h
  rename_i hval
  rw [if_neg hval]
  unfold VendorController.deleteAccount at h ⊢
  rw [if_neg hval] at h
  rw [if_neg hval]
  split at h
  · simp [Response.msg] at h
  rename_i hmail
  rw [if_neg hmail]
  have hbe : b.email = some rv.email := by
    rcases hb : b.email with _ | e
    · simp [hb] at hmail
    · simp [hb] at hmail
      rw [hmail]
  simp only [hbe, Option.getD_some] at h ⊢
  rcases hf : findOneByEmail L st.vendors rv.email with _ | doc
  · simp [hf, Response.msg] at h
  simp only [hf] at h ⊢
  rcases hp : b.password with _ | password
  · simp [hp, Response.caught] at h
  simp only [hp] at h ⊢
  split at h
  · simp [Response.msg] at h
  rename_i hcmp
  rw [if_neg hcmp]
  exact ⟨rv, doc, rfl, rfl, hf, rfl⟩

theorem eraseP_email_gone (l : List Account) (e : String)
    (hnd : (l.map (fun d => d.email)).Nodup) :
    ∀ y ∈ l.eraseP (fun d => d.email == e), y.email ≠ e := by
  induction l with
  | nil => simp
  | cons d ds ih =>
    simp only [List.map_cons, List.nodup_cons] at hnd
    by_cases hp : d.email = e
    · simp only [List.eraseP_cons, hp, beq_self_eq_true, cond_true]
      intro y hy hye
      exact hnd.1 (List.mem_map.2 ⟨y, hy, by rw [hye, hp]⟩)
    · have hp2 : (d.email == e) = false := by simpa using hp
      simp only [List.eraseP_cons, hp2, cond_false, List.mem_cons]
      intro y hy
      rcases hy with rfl | hy
      · exact hp
      · exact ih hnd.2 y hy

theorem findById_none_after_delete (L : Lib) (l : List Account) (v : Account)
    (hv : v ∈ l) (hids : (l.map (fun d => d._id)).Nodup)
    (hemails : (l.map (fun d => d.email)).Nodup)
    (hnorm : emailSetter L v.email = v.email) :
    findById (deleteOneByEmail L l v.email) v._id = none := by
  unfold findById deleteOneByEmail
  rw [List.find?_eq_none]
  intro y hy hid
  have hyl : y ∈ l := List.mem_of_mem_eraseP hy
  have hyv : y = v := List.inj_on_of_nodup_map hids hyl hv (by simpa using hid)
  have := eraseP_email_gone l (emailSetter L v.email) hemails y hy
  rw [hyv, hnorm] at this
  exact this rfl

/-! ## The user middleware -/

theorem userAuth_ok_iff (L : Lib) (st : Store) (hdr : Option String) (ru : ReqUser) :
    AuthMiddleware.authenticateToken L st hdr = Except.ok ru ↔
      ∃ token claims id u, bearerToken hdr = some token ∧ L.verify token = some claims ∧
        claims._id = some id ∧ findById st.users id = some u ∧
        ru = { _id := u._id, email := u.email, name := u.name, role := u.role } := by
  unfold AuthMiddleware.authenticateToken
  rcases ht : bearerToken hdr with _ | token
  · simp
  rcases hc : L.verify token with _ | claims
  · simp [hc]
  rcases hi : claims._id with _ | id
  · simp [hc, hi]
  rcases hf : findById st.users id with _ | u
  · simp [hc, hi, hf]
  · simp [hc, hi, hf]
    exact eq_comm

theorem userAuth_of_claims (L : Lib) (st : Store) (hdr : Option String) (token : String)
    (claims : Claims) (ht : bearerToken hdr = some token)
    (hc : L.verify token = some claims) :
    AuthMiddleware.authenticateToken L st hdr
      = match claims._id.bind (findById st.users) with
        | none => Except.error (Response.msg 401 "Unauthorized: User not found")
        | some u =>
          Except.ok { _id := u._id, email := u.email, name := u.name, role := u.role } := by
  unfold AuthMiddleware.authenticateToken
  simp only [ht, hc]

theorem find_updateFirst_same {α : Type} (p q : α → Bool) (f : α → α) (l : List α) (u : α)
    (hfind : l.find? q = some u) (honly : ∀ y ∈ l, p y = true → y = u) (hp : p u = true)
    (hq : q (f u) = true) : (updateFirst p f l).find? q = some (f u) := by
  induction l with
  | nil => simp at hfind
  | cons d ds ih =>
    by_cases hqd : q d = true
    · have hd : d = u := by simpa [List.find?_cons, hqd] using hfind
      subst hd
      simp [updateFirst, hp, List.find?_cons, hq]
    · have hpd : ¬ p d = true := by
        intro hpd
        have hd : d = u := honly d (by simp) hpd
        subst hd
        exact hqd (List.find?_some hfind)
      simp only [List.find?_cons, hqd] at hfind
      simp [updateFirst, hpd, List.find?_cons, hqd]
      exact ih hfind (fun y hy => honly y (by simp [hy]))

theorem find_email_unique (L : Lib) (l : List Account) (u : Account) (hu : u ∈ l)
    (hemails : (l.map (fun d => d.email)).Nodup)
    (hnorm : emailSetter L u.email = u.email) :
    findOneByEmail L l u.email = some u ∧
    ∀ y ∈ l, (y.email == emailSetter L u.email) = true → y = u := by
  have honly : ∀ y ∈ l, (y.email == emailSetter L u.email) = true → y = u := by
    intro y hy hye
    rw [hnorm] at hye
    exact List.inj_on_of_nodup_map hemails hy hu (by simpa using hye)
  refine ⟨?_, honly⟩
  unfold findOneByEmail
  rcases hf : l.find? (fun d => d.email == emailSetter L u.email) with _ | d
  · rw [List.find?_eq_none] at hf
    exact absurd (by simp [hnorm]) (hf u hu)
  · have hpd : (d.email == emailSetter L u.email) = true := by
      have := List.find?_some hf
      simpa using this
    have hd : d = u := honly d (List.mem_of_find?_eq_some hf) hpd
    rw [hf, hd]

theorem updateUser_success (L : Lib) (env : Env) (st : Store) (hdr : Option String)
    (b : AuthBody) (w : ReqUser) (u : Account)
    (hauth : AuthMiddleware.authenticateToken L st hdr = Except.ok w)
    (hw : w = { _id := u._id, email := u.email, name := u.name, role := u.role })
    (hfe : findOneByEmail L st.users u.email = some u)
    (hok : (AuthRoutes.handle L env st hdr (AuthRequest.updateUser b)).2.status = 200) :
    (AuthRoutes.handle L env st hdr (AuthRequest.updateUser b)).1
      = { st with users := (AuthController.updateOne L st.users u.email
            (AuthController.changed b.name u.name)
            (AuthController.changed b.phoneNumber u.phoneNumber)
            (AuthController.changed b.address u.address)) } := by
  simp only [AuthRoutes.handle, AuthRoutes.withUser, hauth] at hok ⊢
  unfold AuthController.updateUser at hok ⊢
  split at hok
  · simp [Response.msg] at hok
  rename_i hmail
  rw [if_neg hmail]
  have hbe : b.email = some u.email := by
    rcases hb : b.email with _ | e
    · simp [hb] at hmail
    · simp [hb, hw] at hmail
      rw [hmail]
  simp only [hbe, Option.getD_some] at hok ⊢
  split at hok
  · simp [Response.msg] at hok
  rename_i hfalsy
  rw [if_neg hfalsy]
  simp only [hfe] at hok ⊢
  split at hok
  · simp [Response.msg] at hok
  rename_i hver
  rw [if_neg hver]
  split at hok
  · simp [Response.msg] at hok
  rename_i hchg
  rw [if_neg hchg]

theorem dashboard_after_update (L : Lib) (env env2 : Env) (st : Store)
    (hdr : Option String) (b : AuthBody) (newName : String) (w : ReqUser)
    (hemails : (st.users.map (fun d => d.email)).Nodup)
    (hnorm : ∀ d ∈ st.users, emailSetter L d.email = d.email)
    (hauth : AuthMiddleware.authenticateToken L st hdr = Except.ok w)
    (hname : b.name = some newName) (hne : newName ≠ "") (hchg : newName ≠ w.name)
    (hok : (AuthRoutes.handle L env st hdr (AuthRequest.updateUser b)).2.status = 200) :
    (AuthRoutes.handle L env2 (AuthRoutes.handle L env st hdr (AuthRequest.updateUser b)).1 hdr
        AuthRequest.dashboard).2
      = Response.msg 200 ("Welcome to the dashboard, " ++ newName) := by
  obtain ⟨token, claims, id, u, ht, hc, hi, hfind, hw⟩ := (userAuth_ok_iff L st hdr w).1 hauth
  have hu : u ∈ st.users := List.mem_of_find?_eq_some hfind
  obtain ⟨hfe, honly⟩ := find_email_unique L st.users u hu hemails (hnorm u hu)
  have hst := updateUser_success L env st hdr b w u hauth hw hfe hok
  have hwn : w.name = u.name := by rw [hw]
  have hchanged : AuthController.changed b.name u.name = some newName := by
    have h2 : ¬ newName = u.name := fun h => hchg (h.trans hwn.symm)
    simp [AuthController.changed, hname, hne, h2]
  rw [hst, hchanged]
  have hid : u._id = id := by
    have := List.find?_some hfind
    simpa using this
  have hfind2 : findById
      (AuthController.updateOne L st.users u.email (some newName)
        (AuthController.changed b.phoneNumber u.phoneNumber)
        (AuthController.changed b.address u.address)) id
      = some { u with name := newName,
                      phoneNumber := ((AuthController.changed b.phoneNumber u.phoneNumber).getD
                        u.phoneNumber),
                      address := (AuthController.changed b.address u.address).getD u.address } := by
    unfold findById AuthController.updateOne
    exact find_updateFirst_same _ _ _ st.users u hfind honly (by simp [hnorm u hu])
      (by simp [hid])
  simp only [AuthRoutes.handle, AuthRoutes.withUser]
  rw [userAuth_of_claims L _ hdr token claims ht hc]
  simp [hi, hfind2, AuthController.dashboard]

theorem login_user_issues (L : Lib) (st : Store) (b : AuthBody) (tok : String)
    (h : (AuthController.login L st b).2.token = some tok) :
    ∃ u ∈ st.users, tok = L.sign
      { _id := some u._id, vendorId := none, email := u.email, name := u.name,
        role := some u.role } := by
  unfold AuthController.login at h
  split at h
  · simp [Response.msg] at h
  rcases hf : findOneByEmail L st.users (b.email.getD "") with _ | u
  · simp [hf, Response.msg] at h
  simp only [hf] at h
  split at h
  · simp [Response.msg] at h
  split at h
  · simp [Response.msg] at h
  simp only [Option.some.injEq] at h
  exact ⟨u, findOneByEmail_mem L _ _ u hf, h.symm⟩

theorem login_token_authenticates (L : Lib) (st : Store) (b : AuthBody) (tok : String)
    (hdr : Option String)
    (hjwt : ∀ c, ∃ d, L.verify (L.sign c) = some d ∧ d._id = c._id)
    (h : (AuthController.login L st b).2.token = some tok)
    (hh : bearerToken hdr = some tok) :
    ∃ u ∈ st.users, AuthMiddleware.authenticateToken L st hdr
      = Except.ok { _id := u._id, email := u.email, name := u.name, role := u.role } := by
  obtain ⟨u, hu, htok⟩ := login_user_issues L st b tok h
  obtain ⟨d, hd, hid⟩ := hjwt
    { _id := some u._id, vendorId := none, email := u.email, name := u.name,
      role := some u.role }
  rw [← htok] at hd
  rw [userAuth_of_claims L st hdr tok d hh hd, hid]
  rcases hf : findById st.users u._id with _ | u2
  · unfold findById at hf
    rw [List.find?_eq_none] at hf
    exact absurd (by simp) (hf u hu)
  · exact ⟨u2, List.mem_of_find?_eq_some hf, by simp [hf]⟩

/-! ## The role gate -/

theorem restrictTo_ok_iff (allowedRoles : List String) (user : Option ReqUser) :
    AuthMiddleware.restrictTo allowedRoles user = Except.ok () ↔
      ∃ u, user = some u ∧ u.role ∈ allowedRoles := by
  unfold AuthMiddleware.restrictTo
  cases user with
  | none => simp
  | some u => by_cases h : u.role ∈ allowedRoles <;> simp [h]

theorem restrictTo_denied (allowedRoles : List String) (user : Option ReqUser)
    (h : ¬ ∃ u, user = some u ∧ u.role ∈ allowedRoles) :
    AuthMiddleware.restrictTo allowedRoles user
      = Except.error (Response.msg 403 "Access denied: Insufficient permissions") := by
  unfold AuthMiddleware.restrictTo
  cases user with
  | none => simp
  | some u =>
    have h2 : u.role ∉ allowedRoles := fun hm => h ⟨u, rfl, hm⟩
    simp [h2]

theorem adminStats_route (L : Lib) (env : Env) (st : Store) (hdr : Option String)
    (ru : ReqUser) (hauth : AuthMiddleware.authenticateToken L st hdr = Except.ok ru) :
    (ru.role = "admin" →
      AuthRoutes.handle L env st hdr AuthRequest.adminStats = AuthController.adminStats st) ∧
    (ru.role ≠ "admin" →
      AuthRoutes.handle L env st hdr AuthRequest.adminStats
        = (st, Response.msg 403 "Access denied: Insufficient permissions")) := by
  simp only [AuthRoutes.handle, AuthRoutes.withUser, hauth, AuthMiddleware.restrictTo]
  by_cases h : ru.role = "admin" <;> simp [h]

theorem adminStats_only_admin (L : Lib) (env : Env) (st : Store) (hdr : Option String)
    (h : (AuthRoutes.handle L env st hdr AuthRequest.adminStats).2.status = 200) :
    ∃ token claims id u, bearerToken hdr = some token ∧ L.verify token = some claims ∧
      claims._id = some id ∧ findById st.users id = some u ∧ u.role = "admin" := by
  rcases hauth : AuthMiddleware.authenticateToken L st hdr with resp | ru
  · simp only [AuthRoutes.handle, AuthRoutes.withUser, hauth] at h
    unfold AuthMiddleware.authenticateToken at hauth
    repeat' split at hauth
    all_goals first
      | (injection hauth with hauth; subst hauth; simp [Response.msg, Response.caught] at h)
      | simp at hauth
  · obtain ⟨token, claims, id, u, ht, hc, hi, hf, hru⟩ := (userAuth_ok_iff L st hdr ru).1 hauth
    refine ⟨token, claims, id, u, ht, hc, hi, hf, ?_⟩
    by_cases hr : ru.role = "admin"
    · rw [hru] at hr
      exact hr
    · rw [(adminStats_route L env st hdr ru hauth).2 hr] at h
      simp [Response.msg] at h

/-! ## Ownership scoping -/

theorem filter_updateFirst_frame {α : Type} (key : α → ObjectId) (a : ObjectId)
    (q : α → Bool) (f : α → α) (l : List α)
    (hq : ∀ y, q y = true → key y = a) (hf : ∀ y, key (f y) = key y) :
    (updateFirst q f l).filter (fun y => key y != a) = l.filter (fun y => key y != a) := by
  induction l with
  | nil => rfl
  | cons d ds ih =>
    by_cases hd : q d = true
    · have h1 : key d = a := hq d hd
      have h2 : key (f d) = a := (hf d).trans h1
      simp [updateFirst, hd, List.filter_cons, h1, h2]
    · simp [updateFirst, hd, List.filter_cons, ih]

theorem filter_eraseP_frame {α : Type} (key : α → ObjectId) (a : ObjectId)
    (q : α → Bool) (l : List α) (hq : ∀ y, q y = true → key y = a) :
    (l.eraseP q).filter (fun y => key y != a) = l.filter (fun y => key y != a) := by
  induction l with
  | nil => rfl
  | cons d ds ih =>
    by_cases hd : q d = true
    · have h1 : key d = a := hq d hd
      simp [List.eraseP_cons, hd, List.filter_cons, h1]
    · simp [List.eraseP_cons, hd, List.filter_cons, ih]

theorem filter_append_frame {α : Type} (key : α → ObjectId) (a : ObjectId) (l : List α)
    (x : α) (hx : key x = a) :
    (l ++ [x]).filter (fun y => key y != a) = l.filter (fun y => key y != a) := by
  simp [List.filter_append, List.filter_cons, hx]

theorem filter_filter_frame {α : Type} (key : α → ObjectId) (a : ObjectId) (l : List α) :
    (l.filter (fun y => key y != a)).filter (fun y => key y != a)
      = l.filter (fun y => key y != a) := by
  simp [List.filter_filter]

theorem sameForeign_refl (a : ObjectId) (st : Store) : SameForeign a st st :=
  ⟨rfl, rfl, rfl⟩

theorem frame_deleteAccount (L : Lib) (env : Env) (st : Store) (hdr : Option String)
    (e : List String) (b : AuthBody) (rv : ReqVendor)
    (hauth : VendorAuth.authenticateToken L st hdr = Except.ok rv)
    (hemails : (st.vendors.map (fun d => d.email)).Nodup)
    (hnorm : ∀ d ∈ st.vendors, emailSetter L d.email = d.email) :
    SameForeign rv.id st (VendorController.deleteAccount L env st e (some rv) b).1 := by
  obtain ⟨_, _, id, v, _, _, _, hfind, _, hrv⟩ := (vendorAuth_ok_iff L st hdr rv).1 hauth
  have hv : v ∈ st.vendors := List.mem_of_find?_eq_some hfind
  obtain ⟨hfe, _⟩ := find_email_unique L st.vendors v hv hemails (hnorm v hv)
  unfold VendorController.deleteAccount
  dsimp only
  split
  · exact sameForeign_refl _ _
  split
  · exact sameForeign_refl _ _
  rename_i hmail
  have hbe : b.email = some v.email := by
    rcases hb : b.email with _ | e
    · simp [hb] at hmail
    · simp [hb, hrv] at hmail
      rw [hmail]
  simp only [hbe, Option.getD_some, hfe]
  have hid : rv.id = v._id := by rw [hrv]
  rw [hid]
  repeat' split
  all_goals first
    | exact sameForeign_refl _ _
    | exact ⟨filter_eraseP_frame (fun r : Restaurant => r.vendorId) v._id _ _
          (by intro y hy; simpa using hy),
        filter_filter_frame (fun i : Item => i.vendorId) v._id _,
        filter_filter_frame (fun p : Package => p.vendorId) v._id _⟩

theorem frame_handle (L : Lib) (env : Env) (st : Store) (hdr : Option String)
    (r : VendorRequest) (rv : ReqVendor)
    (hauth : VendorAuth.authenticateToken L st hdr = Except.ok rv)
    (hemails : (st.vendors.map (fun d => d.email)).Nodup)
    (hnorm : ∀ d ∈ st.vendors, emailSetter L d.email = d.email) :
    SameForeign rv.id st (VendorRoutes.handle L env st hdr r).1 := by
  cases r <;>
    simp only [VendorRoutes.handle, VendorRoutes.withVendor, hauth, VendorRoutes.validate]
  case deleteAccount b =>
    split
    · exact sameForeign_refl _ _
    · exact frame_deleteAccount L env st hdr _ b rv hauth hemails hnorm
  all_goals
    simp only [VendorController.register, VendorController.verifyOTP,
      VendorController.resendOTP, VendorController.updateVendor,
      VendorController.updatePassword,
      VendorController.login, VendorController.logout, VendorController.dashboard,
      VendorController.addRestaurant, VendorController.getRestaurant,
      VendorController.updateRestaurant, VendorController.deleteRestaurant,
      VendorController.addItem, VendorController.getItems, VendorController.updateItem,
      VendorController.deleteItem, VendorController.searchItems,
      VendorController.addBreakfastPackage, VendorController.getBreakfastPackages,
      VendorController.updateBreakfastPackage, VendorController.writePackageUpdate,
      VendorController.deleteBreakfastPackage]
    repeat' split
    all_goals first
      | exact ⟨rfl, rfl, rfl⟩
      | exact ⟨filter_append_frame (fun r : Restaurant => r.vendorId) rv.id _ _ rfl, rfl, rfl⟩
      | exact ⟨rfl, filter_append_frame (fun i : Item => i.vendorId) rv.id _ _ rfl, rfl⟩
      | exact ⟨rfl, rfl, filter_append_frame (fun p : Package => p.vendorId) rv.id _ _ rfl⟩
      | exact ⟨filter_updateFirst_frame (fun r : Restaurant => r.vendorId) rv.id _ _ _
            (by intro y hy; simpa using hy) (fun _ => rfl), rfl, rfl⟩
      | exact ⟨rfl, filter_updateFirst_frame (fun i : Item => i.vendorId) rv.id _ _ _
            (by intro y hy; simp at hy; exact hy.2) (fun _ => rfl), rfl⟩
      | exact ⟨rfl, rfl, filter_updateFirst_frame (fun p : Package => p.vendorId) rv.id _ _ _
            (by intro y hy; simp at hy; exact hy.2) (fun _ => rfl)⟩
      | exact ⟨filter_eraseP_frame (fun r : Restaurant => r.vendorId) rv.id _ _
            (by intro y hy; simpa using hy), rfl, rfl⟩
      | exact ⟨rfl, filter_eraseP_frame (fun i : Item => i.vendorId) rv.id _ _
            (by intro y hy; simp at hy; exact hy.2), rfl⟩
      | exact ⟨rfl, rfl, filter_eraseP_frame (fun p : Package => p.vendorId) rv.id _ _
            (by intro y hy; simp at hy; exact hy.2)⟩

/-! ## Cross-vendor requests -/

theorem find_scoped_none {α : Type} (ident key : α → ObjectId) (a : ObjectId) (l : List α)
    (x : α) (hx : x ∈ l) (hk : key x ≠ a) (hnd : (l.map ident).Nodup) :
    l.find? (fun i => ident i == ident x && key i == a) = none := by
  rw [List.find?_eq_none]
  intro y hy hcond
  simp only [Bool.and_eq_true, beq_iff_eq] at hcond
  have hyx : y = x := List.inj_on_of_nodup_map hnd hy hx hcond.1
  exact hk (hyx ▸ hcond.2)

theorem foreign_item_not_found (L : Lib) (env : Env) (st : Store) (hdr : Option String)
    (rv : ReqVendor) (x : Item)
    (hauth : VendorAuth.authenticateToken L st hdr = Except.ok rv)
    (hx : x ∈ st.items) (hk : x.vendorId ≠ rv.id)
    (hnd : (st.items.map (fun i => i._id)).Nodup) :
    VendorRoutes.handle L env st hdr (VendorRequest.deleteItem (IdArg.oid x._id))
      = (st, Response.msg 404 "Item not found") ∧
    ∀ b : ItemBody,
      (VendorRoutes.updateItemErrors b = [] →
        VendorRoutes.handle L env st hdr (VendorRequest.updateItem (IdArg.oid x._id) b)
          = (st, Response.msg 404 "Item not found")) ∧
      (VendorRoutes.updateItemErrors b ≠ [] →
        VendorRoutes.handle L env st hdr (VendorRequest.updateItem (IdArg.oid x._id) b)
          = (st, Response.invalid (VendorRoutes.updateItemErrors b))) := by
  have hnone : st.items.find? (fun i => i._id == x._id && i.vendorId == rv.id) = none :=
    find_scoped_none (fun i : Item => i._id) (fun i => i.vendorId) rv.id st.items x hx hk hnd
  simp only [VendorRoutes.handle, VendorRoutes.withVendor, hauth, VendorRoutes.validate,
    VendorController.deleteItem, VendorController.updateItem]
  refine ⟨by simp only [hnone], fun b => ⟨fun h => ?_, fun h => ?_⟩⟩
  · simp [h, hnone]
  · simp [h]

theorem owned_length_eq_iff (st : Store) (ids : List ObjectId) (a : ObjectId)
    (hnd : (st.items.map (fun i => i._id)).Nodup) :
    (VendorController.ownedItemsIn st ids a).length = ids.length ↔
      (∀ n ∈ ids, st.items.any (fun i => i._id == n && i.vendorId == a) = true) ∧
        ids.Nodup := by
  have hm : ((VendorController.ownedItemsIn st ids a).map (fun i => i._id)).Nodup :=
    List.Nodup.sublist (List.Sublist.map _ (List.filter_sublist _)) hnd
  have hsub : (VendorController.ownedItemsIn st ids a).map (fun i => i._id) ⊆ ids := by
    intro n hn
    obtain ⟨i, hi, rfl⟩ := List.mem_map.1 hn
    simp only [VendorController.ownedItemsIn, List.mem_filter, Bool.and_eq_true] at hi
    simpa using hi.2.1
  have hsp := hm.subperm hsub
  constructor
  · intro h
    have hperm : ((VendorController.ownedItemsIn st ids a).map (fun i => i._id)).Perm ids :=
      hsp.perm_of_length_le (by simp [h])
    refine ⟨?_, hperm.nodup_iff.1 hm⟩
    intro n hn
    obtain ⟨i, hi, hin⟩ := List.mem_map.1 (hperm.mem_iff.2 hn)
    simp only [VendorController.ownedItemsIn, List.mem_filter, Bool.and_eq_true,
      beq_iff_eq] at hi
    simp only [List.any_eq_true, Bool.and_eq_true, beq_iff_eq]
    exact ⟨i, hi.1, hin, hi.2.2⟩
  · rintro ⟨hall, hnd2⟩
    have hsub2 : ids ⊆ (VendorController.ownedItemsIn st ids a).map (fun i => i._id) := by
      intro n hn
      have h1 := hall n hn
      simp only [List.any_eq_true, Bool.and_eq_true, beq_iff_eq] at h1
      obtain ⟨i, hi, hin, hia⟩ := h1
      refine List.mem_map.2 ⟨i, ?_, hin⟩
      simp only [VendorController.ownedItemsIn, List.mem_filter, Bool.and_eq_true,
        beq_iff_eq]
      exact ⟨hi, by simpa [hin] using hn, hia⟩
    have h1 := (hnd2.subperm hsub2).length_le
    have h2 := hsp.length_le
    simp only [List.length_map] at h1 h2
    omega

theorem castIds_eq_some (items : List IdArg) (ids : List ObjectId)
    (h : castIds items = some ids) : items = ids.map IdArg.oid := by
  induction items generalizing ids with
  | nil =>
    simp only [castIds, Option.some.injEq] at h
    rw [← h]
    rfl
  | cons x xs ih =>
    cases x with
    | malformed raw => simp [castIds] at h
    | oid n =>
      simp only [castIds, Option.map_eq_some'] at h
      obtain ⟨ids2, h2, h3⟩ := h
      rw [← h3, ih ids2 h2]
      rfl

theorem items_check_iff (st : Store) (items : List IdArg) (ids : List ObjectId)
    (a : ObjectId) (hc : castIds items = some ids)
    (hnd : (st.items.map (fun i => i._id)).Nodup) :
    (VendorController.ownedItemsIn st ids a).length = items.length ↔
      (∀ id ∈ items, id.resolvesTo st a = true) ∧ items.Nodup := by
  rw [castIds_eq_some items ids hc, List.length_map, owned_length_eq_iff st ids a hnd,
    List.nodup_map_iff (fun x y h => by injection h)]
  simp only [List.forall_mem_map, IdArg.resolvesTo]

theorem castIds_none_iff (items : List IdArg) :
    castIds items = none ↔ items.all IdArg.isValid = false := by
  induction items with
  | nil => simp [castIds]
  | cons x xs ih =>
    cases x with
    | malformed raw => simp [castIds, IdArg.isValid]
    | oid n => simp [castIds, IdArg.isValid, ih]

theorem foreign_package_not_found (L : Lib) (env : Env) (st : Store) (hdr : Option String)
    (rv : ReqVendor) (x : Package)
    (hauth : VendorAuth.authenticateToken L st hdr = Except.ok rv)
    (hx : x ∈ st.packages) (hk : x.vendorId ≠ rv.id)
    (hnd : (st.packages.map (fun p => p._id)).Nodup) :
    VendorRoutes.handle L env st hdr (VendorRequest.deleteBreakfastPackage (IdArg.oid x._id))
      = (st, Response.msg 404 "Breakfast package not found") ∧
    ∀ b : PackageBody,
      (VendorRoutes.updatePackageErrors b = [] →
        (b.items = none ∨ ∃ items ids, b.items = some items ∧ castIds items = some ids ∧
          (VendorController.ownedItemsIn st ids rv.id).length = items.length) →
        VendorRoutes.handle L env st hdr
            (VendorRequest.updateBreakfastPackage (IdArg.oid x._id) b)
          = (st, Response.msg 404 "Breakfast package not found")) ∧
      (VendorRoutes.updatePackageErrors b ≠ [] →
        VendorRoutes.handle L env st hdr
            (VendorRequest.updateBreakfastPackage (IdArg.oid x._id) b)
          = (st, Response.invalid (VendorRoutes.updatePackageErrors b))) ∧
      (VendorRoutes.handle L env st hdr
          (VendorRequest.updateBreakfastPackage (IdArg.oid x._id) b)).1 = st ∧
      ((VendorRoutes.handle L env st hdr
          (VendorRequest.updateBreakfastPackage (IdArg.oid x._id) b)).2.status = 404 ∨
        (VendorRoutes.handle L env st hdr
          (VendorRequest.updateBreakfastPackage (IdArg.oid x._id) b)).2.status = 400 ∨
        (VendorRoutes.handle L env st hdr
          (VendorRequest.updateBreakfastPackage (IdArg.oid x._id) b)).2.status = 500) ∧
      (VendorRoutes.updatePackageErrors b = [] →
        ∀ items ids, b.items = some items → castIds items = some ids →
          (VendorController.ownedItemsIn st ids rv.id).length ≠ items.length →
          VendorRoutes.handle L env st hdr
              (VendorRequest.updateBreakfastPackage (IdArg.oid x._id) b)
            = (st, Response.msg 400 "Some items are invalid or not authorized")) ∧
      (VendorRoutes.updatePackageErrors b = [] →
        ∀ items, b.items = some items → items.all IdArg.isValid = false →
          VendorRoutes.handle L env st hdr
              (VendorRequest.updateBreakfastPackage (IdArg.oid x._id) b)
            = (st, Response.caught 500 "Error updating breakfast package")) := by
  have hnone : st.packages.find? (fun p => p._id == x._id && p.vendorId == rv.id) = none :=
    find_scoped_none (fun p : Package => p._id) (fun p => p.vendorId) rv.id st.packages x hx
      hk hnd
  simp only [VendorRoutes.handle, VendorRoutes.withVendor, hauth, VendorRoutes.validate,
    VendorController.deleteBreakfastPackage, VendorController.updateBreakfastPackage,
    VendorController.writePackageUpdate]
  refine ⟨by simp only [hnone], fun b => ⟨fun h hitems => ?_, fun h => ?_, ?_, ?_,
    fun h items ids h1 h2 h3 => ?_, fun h items h1 h2 => ?_⟩⟩
  · rcases hitems with h0 | ⟨items, ids, h1, h2, h3⟩
    · simp [h, h0, hnone]
    · simp [h, h1, h2, h3, hnone]
  · simp [h]
  · simp only [hnone]
    repeat' split
    all_goals rfl
  · simp only [hnone]
    repeat' split
    all_goals simp [Response.msg, Response.invalid, Response.caught]
  · simp [h, h1, h2, h3]
  · simp [h, h1, (castIds_none_iff items).2 h2]

/-- C1: in the user flow and in the vendor flow, login issues a token exactly when the
request carries an email and a password that pass the route's input checks, a record
with that email exists, the password matches the stored hash and the record is
verified; on an unverified account the correct password is answered with
400 `Email not verified. Please verify OTP.` and no token. -/
theorem login_token_iff_verified (L : Lib) (env : Env) (st : Store) (hdr : Option String)
    (b : AuthBody) :
    ((AuthController.login L st b).2.token.isSome = true ↔
      ∃ email password u, b.email = some email ∧ b.password = some password ∧
        email ≠ "" ∧ password ≠ "" ∧ findOneByEmail L st.users email = some u ∧
        L.compare password u.password = true ∧ u.isVerified = true) ∧
    ((VendorRoutes.handle L env st hdr (VendorRequest.login b)).2.token.isSome = true ↔
      ∃ email password v, b.email = some email ∧ b.password = some password ∧
        L.isEmail email = true ∧ password ≠ "" ∧
        findOneByEmail L st.vendors email = some v ∧
        L.compare password v.password = true ∧ v.isVerified = true) ∧
    (∀ email password u, b.email = some email → b.password = some password →
      email ≠ "" → password ≠ "" → findOneByEmail L st.users email = some u →
      L.compare password u.password = true → u.isVerified = false →
      AuthController.login L st b
        = (st, Response.msg 400 "Email not verified. Please verify OTP.")) ∧
    (∀ email password v, b.email = some email → b.password = some password →
      L.isEmail email = true → password ≠ "" →
      findOneByEmail L st.vendors email = some v →
      L.compare password v.password = true → v.isVerified = false →
      VendorRoutes.handle L env st hdr (VendorRequest.login b)
        = (st, Response.msg 400 "Email not verified. Please verify OTP.")) :=
  ⟨login_user_token L st b, login_vendor_token L env st hdr b,
    fun email password u he hp hne hnp hf hc hv =>
      login_user_unverified L st b email password u he hp hne hnp hf hc hv,
    fun email password v he hp hne hnp hf hc hv =>
      login_vendor_unverified L env st hdr b email password v he hp hne hnp hf hc hv⟩

theorem login_token_iff_verified_witness :
    AuthController.login demoLib demoStore
        { emptyBody with email := some "b@b.com", password := some "secret2" }
      = (demoStore, Response.msg 400 "Email not verified. Please verify OTP.") :=
  (login_token_iff_verified demoLib (envAt 0) demoStore none
      { emptyBody with email := some "b@b.com", password := some "secret2" }).2.2.1
    "b@b.com" "secret2" bob rfl rfl (by decide) (by decide) (by decide) (by decide)
    (by decide)

/-! ## The OTP window -/

/-- C2: the code at the failing input. On `demoStore` the user `register` of
`carolBody` at time 5 is answered 201 and issues the code `123456`; the record is stored
unverified with the hash of the code and `otpExpiry` ten minutes later. The user
`verifyOTP` with the issued code one millisecond later compares it with the stored
value by `!==` and answers 400 `Invalid or expired OTP`, the store unchanged. The vendor
`verifyOTP` after the same `register` accepts the issued code up to the expiry, marks
the record verified and clears `otp` and `otpExpiry`, and refuses it afterwards. -/
theorem issued_user_code_is_refused :
    (AuthRoutes.handle demoLib (envAt 5) demoStore none
        (AuthRequest.register carolBody)).2
      = Response.msg 201 "User registered. Please verify OTP sent to your email." ∧
    generateOTP (envAt 5).rand = "123456" ∧
    (findOneByEmail demoLib
        (AuthRoutes.handle demoLib (envAt 5) demoStore none
          (AuthRequest.register carolBody)).1.users "c@b.com").map
        (fun u => (u.otp, u.otpExpiry, u.isVerified))
      = some (some (demoLib.hash "123456"), some (5 + otpWindow), false) ∧
    AuthRoutes.handle demoLib (envAt 6)
        (AuthRoutes.handle demoLib (envAt 5) demoStore none
          (AuthRequest.register carolBody)).1 none
        (AuthRequest.verifyOTP
          { emptyBody with email := some "c@b.com", otp := some "123456" })
      = ((AuthRoutes.handle demoLib (envAt 5) demoStore none
            (AuthRequest.register carolBody)).1,
          Response.msg 400 "Invalid or expired OTP") ∧
    (VendorRoutes.handle demoLib (envAt 5) demoStore none
        (VendorRequest.register carolBody)).2
      = Response.msg 201 "Vendor registered. Please verify OTP sent to your email." ∧
    (VendorRoutes.handle demoLib (envAt (5 + otpWindow))
        (VendorRoutes.handle demoLib (envAt 5) demoStore none
          (VendorRequest.register carolBody)).1 none
        (VendorRequest.verifyOTP
          { emptyBody with email := some "c@b.com", otp := some "123456" })).2
      = Response.msg 200 "Email verified successfully. You can now log in." ∧
    (findOneByEmail demoLib
        (VendorRoutes.handle demoLib (envAt (5 + otpWindow))
          (VendorRoutes.handle demoLib (envAt 5) demoStore none
            (VendorRequest.register carolBody)).1 none
          (VendorRequest.verifyOTP
            { emptyBody with email := some "c@b.com", otp := some "123456" })).1.vendors
        "c@b.com").map (fun v => (v.otp, v.otpExpiry, v.isVerified))
      = some (none, none, true) ∧
    VendorRoutes.handle demoLib (envAt (5 + otpWindow + 1))
        (VendorRoutes.handle demoLib (envAt 5) demoStore none
          (VendorRequest.register carolBody)).1 none
        (VendorRequest.verifyOTP
          { emptyBody with email := some "c@b.com", otp := some "123456" })
      = ((VendorRoutes.handle demoLib (envAt 5) demoStore none
            (VendorRequest.register carolBody)).1,
          Response.msg 400 "Invalid or expired OTP") :=
  ⟨by decide, by decide, by decide, by decide, by decide, by decide, by decide, by decide⟩

/-- C3: the code at the failing input. On `demoStore` the user `register` of `carolBody`
issues the code `123456` and a `resendOTP` at time 9 issues `100007`: the record then
holds the hash of the second code only and `otpExpiry` ten minutes after the resend,
and `verifyOTP` with the first code is refused with 400 `Invalid or expired OTP`. The
user `verifyOTP` with the second code inside the new window is refused in the same
way, the store unchanged, because it compares the code with the stored value by `!==`;
the vendor `verifyOTP` after the same requests refuses the first code and accepts the
second. -/
theorem resent_user_code_is_refused :
    generateOTP (envAt 5).rand = "123456" ∧ generateOTP 7 = "100007" ∧
    (AuthRoutes.handle demoLib { envAt 9 with rand := 7 }
        (AuthRoutes.handle demoLib (envAt 5) demoStore none
          (AuthRequest.register carolBody)).1 none
        (AuthRequest.resendOTP carolBody)).2
      = Response.msg 200 "OTP resent successfully." ∧
    (findOneByEmail demoLib
        (AuthRoutes.handle demoLib { envAt 9 with rand := 7 }
          (AuthRoutes.handle demoLib (envAt 5) demoStore none
            (AuthRequest.register carolBody)).1 none
          (AuthRequest.resendOTP carolBody)).1.users "c@b.com").map
        (fun u => (u.otp, u.otpExpiry, u.isVerified))
      = some (some (demoLib.hash "100007"), some (9 + otpWindow), false) ∧
    AuthRoutes.handle demoLib (envAt 10)
        (AuthRoutes.handle demoLib { envAt 9 with rand := 7 }
          (AuthRoutes.handle demoLib (envAt 5) demoStore none
            (AuthRequest.register carolBody)).1 none
          (AuthRequest.resendOTP carolBody)).1 none
        (AuthRequest.verifyOTP
          { emptyBody with email := some "c@b.com", otp := some "123456" })
      = ((AuthRoutes.handle demoLib { envAt 9 with rand := 7 }
            (AuthRoutes.handle demoLib (envAt 5) demoStore none
              (AuthRequest.register carolBody)).1 none
            (AuthRequest.resendOTP carolBody)).1,
          Response.msg 400 "Invalid or expired OTP") ∧
    AuthRoutes.handle demoLib (envAt 10)
        (AuthRoutes.handle demoLib { envAt 9 with rand := 7 }
          (AuthRoutes.handle demoLib (envAt 5) demoStore none
            (AuthRequest.register carolBody)).1 none
          (AuthRequest.resendOTP carolBody)).1 none
        (AuthRequest.verifyOTP
          { emptyBody with email := some "c@b.com", otp := some "100007" })
      = ((AuthRoutes.handle demoLib { envAt 9 with rand := 7 }
            (AuthRoutes.handle demoLib (envAt 5) demoStore none
              (AuthRequest.register carolBody)).1 none
            (AuthRequest.resendOTP carolBody)).1,
          Response.msg 400 "Invalid or expired OTP") ∧
    (VendorRoutes.handle demoLib (envAt 10)
        (VendorRoutes.handle demoLib { envAt 9 with rand := 7 }
          (VendorRoutes.handle demoLib (envAt 5) demoStore none
            (VendorRequest.register carolBody)).1 none
          (VendorRequest.resendOTP carolBody)).1 none
        (VendorRequest.verifyOTP
          { emptyBody with email := some "c@b.com", otp := some "123456" })).2
      = Response.msg 400 "Invalid or expired OTP" ∧
    (VendorRoutes.handle demoLib (envAt 10)
        (VendorRoutes.handle demoLib { envAt 9 with rand := 7 }
          (VendorRoutes.handle demoLib (envAt 5) demoStore none
            (VendorRequest.register carolBody)).1 none
          (VendorRequest.resendOTP carolBody)).1 none
        (VendorRequest.verifyOTP
          { emptyBody with email := some "c@b.com", otp := some "100007" })).2
      = Response.msg 200 "Email verified successfully. You can now log in." :=
  ⟨by decide, by decide, by decide, by decide, by decide, by decide, by decide, by decide⟩

/-- C4: on a verified principal `verifyOTP` and `resendOTP` answer 400 and leave the
store as it is, with the message `... already verified` for every request that passes
the input check, whatever code it supplies; and no request to either router makes a
verified record unverified: with unique `_id`s and a fresh id for a new document, a
record verified before the request is, if it still exists, verified after it. -/
theorem verified_is_absorbing (L : Lib) (env : Env) (st : Store) (hdr : Option String) :
    (∀ (b : AuthBody) (email : String) (u : Account), b.email = some email →
      findOneByEmail L st.users email = some u → u.isVerified = true →
      (AuthController.verifyOTP L env st b).1 = st ∧
      (AuthController.verifyOTP L env st b).2.status = 400 ∧
      (AuthController.resendOTP L env st b).1 = st ∧
      (AuthController.resendOTP L env st b).2.status = 400 ∧
      (email ≠ "" → falsy b.otp = false →
        AuthController.verifyOTP L env st b
          = (st, Response.msg 400 "User already verified")) ∧
      (email ≠ "" →
        AuthController.resendOTP L env st b
          = (st, Response.msg 400 "User already verified"))) ∧
    (∀ (b : AuthBody) (email : String) (v : Account), b.email = some email →
      findOneByEmail L st.vendors email = some v → v.isVerified = true →
      (VendorRoutes.handle L env st hdr (VendorRequest.verifyOTP b)).1 = st ∧
      (VendorRoutes.handle L env st hdr (VendorRequest.verifyOTP b)).2.status = 400 ∧
      (VendorRoutes.handle L env st hdr (VendorRequest.resendOTP b)).1 = st ∧
      (VendorRoutes.handle L env st hdr (VendorRequest.resendOTP b)).2.status = 400 ∧
      (L.isEmail email = true → falsy b.otp = false →
        VendorRoutes.handle L env st hdr (VendorRequest.verifyOTP b)
          = (st, Response.msg 400 "Vendor already verified")) ∧
      (L.isEmail email = true →
        VendorRoutes.handle L env st hdr (VendorRequest.resendOTP b)
          = (st, Response.msg 400 "Vendor already verified"))) ∧
    (∀ r : AuthRequest, (st.users.map (fun d => d._id)).Nodup →
      env.newId ∉ st.users.map (fun d => d._id) →
      ∀ u ∈ st.users, u.isVerified = true →
        ∀ u' ∈ (AuthRoutes.handle L env st hdr r).1.users, u'._id = u._id →
          u'.isVerified = true) ∧
    (∀ r : VendorRequest, (st.vendors.map (fun d => d._id)).Nodup →
      env.newId ∉ st.vendors.map (fun d => d._id) →
      ∀ v ∈ st.vendors, v.isVerified = true →
        ∀ v' ∈ (VendorRoutes.handle L env st hdr r).1.vendors, v'._id = v._id →
          v'.isVerified = true) :=
  ⟨fun b email u hbe hf hv => verified_user_refused L env st b email u hbe hf hv,
    fun b email v hbe hf hv => verified_vendor_refused L env st hdr b email v hbe hf hv,
    fun r hnd hfresh u hu hv u' hu' hid =>
      keepsVerified_stays env.newId _ _ (keeps_user_handle L env st hdr r) hnd hfresh u hu hv
        u' hu' hid,
    fun r hnd hfresh v hv0 hv v' hv' hid =>
      keepsVerified_stays env.newId _ _ (keeps_vendor_handle L env st hdr r) hnd hfresh v hv0
        hv v' hv' hid⟩

theorem verified_is_absorbing_witness :
    VendorRoutes.handle demoLib (envAt 5) demoStore none
        (VendorRequest.verifyOTP
          { emptyBody with email := some "a@b.com", otp := some "123456" })
      = (demoStore, Response.msg 400 "Vendor already verified") :=
  ((verified_is_absorbing demoLib (envAt 5) demoStore none).2.1
    { emptyBody with email := some "a@b.com", otp := some "123456" } "a@b.com" aliceVendor
    rfl (by decide) (by decide)).2.2.2.2.1 (by decide) (by decide)

/-- C5: the vendor middleware calls `next`, with `req.vendor` read from the store, exactly
when the header carries a token that verifies and whose `vendorId` names a stored vendor
with `isVerified = true`; otherwise a protected route answers with the middleware's 401
or 403 and the store is untouched, so no handler runs. After a successful
`deleteAccount` (unique ids and emails, emails stored in normal form) every token with
the deleted vendor's id is answered 401. -/
theorem vendor_routes_need_verified_vendor (L : Lib) (env : Env) (st : Store)
    (hdr : Option String) :
    (∀ rv, VendorAuth.authenticateToken L st hdr = Except.ok rv ↔
      ∃ token claims id v, bearerToken hdr = some token ∧ L.verify token = some claims ∧
        claims.vendorId = some id ∧ findById st.vendors id = some v ∧
        v.isVerified = true ∧ rv = { id := v._id, email := v.email, name := v.name }) ∧
    (∀ (r : VendorRequest) (resp : Response), r.isProtected = true →
      VendorAuth.authenticateToken L st hdr = Except.error resp →
      VendorRoutes.handle L env st hdr r = (st, resp) ∧
        (resp.status = 401 ∨ resp.status = 403)) ∧
    (∀ (b : AuthBody) (rv : ReqVendor),
      (VendorRoutes.handle L env st hdr (VendorRequest.deleteAccount b)).2.status = 200 →
      (st.vendors.map (fun d => d._id)).Nodup →
      (st.vendors.map (fun d => d.email)).Nodup →
      (∀ d ∈ st.vendors, emailSetter L d.email = d.email) →
      VendorAuth.authenticateToken L st hdr = Except.ok rv →
      ∀ (hdr2 : Option String) (token : String) (claims : Claims),
        bearerToken hdr2 = some token → L.verify token = some claims →
        claims.vendorId = some rv.id →
        VendorAuth.authenticateToken L
            (VendorRoutes.handle L env st hdr (VendorRequest.deleteAccount b)).1 hdr2
          = Except.error (Response.msg 401 "Unauthorized: Vendor not found or unverified")) := by
  refine ⟨fun rv => vendorAuth_ok_iff L st hdr rv, ?_, ?_⟩
  · intro r resp hp h
    exact ⟨vendor_protected_gate L env st hdr r hp resp h,
      vendorAuth_error_status L st hdr resp h⟩
  · intro b rv hok hids hemails hnorm hauth hdr2 token claims ht hc hi
    obtain ⟨rv2, doc, hauth2, _, _, hst⟩ := vendor_delete_success L env st hdr b hok
    have hrv : rv2 = rv := by
      rw [hauth] at hauth2
      injection hauth2 with h
      exact h.symm
    subst hrv
    obtain ⟨_, _, id, v, _, _, _, hfind, _, hrv⟩ := (vendorAuth_ok_iff L st hdr rv2).1 hauth
    have hmem : v ∈ st.vendors := List.mem_of_find?_eq_some hfind
    have hnone := findById_none_after_delete L st.vendors v hmem hids hemails (hnorm v hmem)
    rw [hst]
    unfold VendorAuth.authenticateToken
    simp only [ht, hc, hi, Option.bind_some]
    rw [hrv]
    simp [hnone]

theorem vendor_routes_need_verified_vendor_witness :
    VendorAuth.authenticateToken demoLib
        (VendorRoutes.handle demoLib (envAt 5) demoStore (some "Bearer vx")
          (VendorRequest.deleteAccount
            { emptyBody with email := some "a@b.com", password := some "secret1" })).1
        (some "Bearer vx")
      = Except.error (Response.msg 401 "Unauthorized: Vendor not found or unverified") :=
  (vendor_routes_need_verified_vendor demoLib (envAt 5) demoStore (some "Bearer vx")).2.2
    { emptyBody with email := some "a@b.com", password := some "secret1" }
    { id := 1, email := "a@b.com", name := "Alice" }
    (by decide) (by decide) (by decide) (by intro d _; rfl) rfl
    (some "Bearer vx") "vx"
    { _id := none, vendorId := some 1, email := "", name := "", role := none }
    (by decide) (by decide) rfl

/-- C6: the user middleware attaches the stored record's current `_id`, `email`, `name`
and `role`, found by the token's `_id` claim: two tokens that verify with the same
`_id` claim give the same result whatever their other claims; the token a login issued
authenticates as a stored record; and after a successful `updateUser` that changes the
name (emails unique and stored in normal form), `dashboard` with the same token greets
the new name. -/
theorem user_principal_read_from_store (L : Lib) (env env2 : Env) (st : Store)
    (hdr : Option String) :
    (∀ ru, AuthMiddleware.authenticateToken L st hdr = Except.ok ru ↔
      ∃ token claims id u, bearerToken hdr = some token ∧ L.verify token = some claims ∧
        claims._id = some id ∧ findById st.users id = some u ∧
        ru = { _id := u._id, email := u.email, name := u.name, role := u.role }) ∧
    (∀ (hdr2 : Option String) (t1 t2 : String) (c1 c2 : Claims),
      bearerToken hdr = some t1 → bearerToken hdr2 = some t2 →
      L.verify t1 = some c1 → L.verify t2 = some c2 → c1._id = c2._id →
      AuthMiddleware.authenticateToken L st hdr
        = AuthMiddleware.authenticateToken L st hdr2) ∧
    (∀ (b : AuthBody) (tok : String),
      (∀ c, ∃ d, L.verify (L.sign c) = some d ∧ d._id = c._id) →
      (AuthController.login L st b).2.token = some tok → bearerToken hdr = some tok →
      ∃ u ∈ st.users, AuthMiddleware.authenticateToken L st hdr
        = Except.ok { _id := u._id, email := u.email, name := u.name, role := u.role }) ∧
    (∀ (b : AuthBody) (newName : String) (w : ReqUser),
      (st.users.map (fun d => d.email)).Nodup →
      (∀ d ∈ st.users, emailSetter L d.email = d.email) →
      AuthMiddleware.authenticateToken L st hdr = Except.ok w →
      b.name = some newName → newName ≠ "" → newName ≠ w.name →
      (AuthRoutes.handle L env st hdr (AuthRequest.updateUser b)).2.status = 200 →
      (AuthRoutes.handle L env2
          (AuthRoutes.handle L env st hdr (AuthRequest.updateUser b)).1 hdr
          AuthRequest.dashboard).2
        = Response.msg 200 ("Welcome to the dashboard, " ++ newName)) := by
  refine ⟨fun ru => userAuth_ok_iff L st hdr ru, ?_, ?_, ?_⟩
  · intro hdr2 t1 t2 c1 c2 h1 h2 hc1 hc2 hid
    rw [userAuth_of_claims L st hdr t1 c1 h1 hc1, userAuth_of_claims L st hdr2 t2 c2 h2 hc2,
      hid]
  · intro b tok hjwt h hh
    exact login_token_authenticates L st b tok hdr hjwt h hh
  · intro b newName w hemails hnorm hauth hname hne hchg hok
    exact dashboard_after_update L env env2 st hdr b newName w hemails hnorm hauth hname hne
      hchg hok

theorem user_principal_read_from_store_witness :
    (AuthRoutes.handle demoLib (envAt 9)
        (AuthRoutes.handle demoLib (envAt 5) demoStore (some "Bearer ux")
          (AuthRequest.updateUser
            { emptyBody with email := some "a@b.com", name := some "Alicia" })).1
        (some "Bearer ux") AuthRequest.dashboard).2
      = Response.msg 200 ("Welcome to the dashboard, " ++ "Alicia") :=
  (user_principal_read_from_store demoLib (envAt 5) (envAt 9) demoStore
      (some "Bearer ux")).2.2.2
    { emptyBody with email := some "a@b.com", name := some "Alicia" } "Alicia"
    { _id := 1, email := "a@b.com", name := "Alice", role := "user" }
    (by decide) (by intro d _; rfl) rfl rfl (by decide) (by decide) (by decide)

/-- C7: `restrictTo(allowedRoles)` calls `next` exactly when `req.user` is present and
its role is one of `allowedRoles`, and otherwise answers
403 `Access denied: Insufficient permissions`; with no role allowed it denies every
request; and the admin-stats route runs `adminStats` exactly for an authenticated
principal whose stored role is `admin`. -/
theorem restrictTo_role_gate (L : Lib) (env : Env) (st : Store) (hdr : Option String) :
    (∀ (allowedRoles : List String) (user : Option ReqUser),
      (AuthMiddleware.restrictTo allowedRoles user = Except.ok () ↔
        ∃ u, user = some u ∧ u.role ∈ allowedRoles) ∧
      ((¬ ∃ u, user = some u ∧ u.role ∈ allowedRoles) →
        AuthMiddleware.restrictTo allowedRoles user
          = Except.error (Response.msg 403 "Access denied: Insufficient permissions"))) ∧
    (∀ user : Option ReqUser,
      AuthMiddleware.restrictTo [] user
        = Except.error (Response.msg 403 "Access denied: Insufficient permissions")) ∧
    ((AuthRoutes.handle L env st hdr AuthRequest.adminStats).2.status = 200 →
      ∃ token claims id u, bearerToken hdr = some token ∧ L.verify token = some claims ∧
        claims._id = some id ∧ findById st.users id = some u ∧ u.role = "admin") ∧
    (∀ ru : ReqUser, AuthMiddleware.authenticateToken L st hdr = Except.ok ru →
      (ru.role = "admin" →
        AuthRoutes.handle L env st hdr AuthRequest.adminStats
          = AuthController.adminStats st) ∧
      (ru.role ≠ "admin" →
        AuthRoutes.handle L env st hdr AuthRequest.adminStats
          = (st, Response.msg 403 "Access denied: Insufficient permissions"))) := by
  refine ⟨fun roles user => ⟨restrictTo_ok_iff roles user, restrictTo_denied roles user⟩,
    ?_, adminStats_only_admin L env st hdr, fun ru h => adminStats_route L env st hdr ru h⟩
  intro user
  exact restrictTo_denied [] user (by simp)

theorem restrictTo_role_gate_witness :
    AuthRoutes.handle demoLib (envAt 5) demoStore (some "Bearer ux") AuthRequest.adminStats
      = (demoStore, Response.msg 403 "Access denied: Insufficient permissions") :=
  ((restrictTo_role_gate demoLib (envAt 5) demoStore (some "Bearer ux")).2.2.2
    { _id := 1, email := "a@b.com", name := "Alice", role := "user" } rfl).2 (by decide)

/-- C8: whatever a request authenticated as vendor `rv` asks for (any restaurant, item or
package create, update or delete with any ids, and the vendor's own `deleteAccount`
cascade), the restaurants, items and packages whose `vendorId` is not `rv.id` are the
same documents after the request as before it. The vendor collection has its unique
email index and stores emails in normal form. -/
theorem ownership_frame (L : Lib) (env : Env) (st : Store) (hdr : Option String)
    (r : VendorRequest) (rv : ReqVendor)
    (hauth : VendorAuth.authenticateToken L st hdr = Except.ok rv)
    (hemails : (st.vendors.map (fun d => d.email)).Nodup)
    (hnorm : ∀ d ∈ st.vendors, emailSetter L d.email = d.email) :
    SameForeign rv.id st (VendorRoutes.handle L env st hdr r).1 :=
  frame_handle L env st hdr r rv hauth hemails hnorm

theorem ownership_frame_witness :
    SameForeign 1 demoMarket
      (VendorRoutes.handle demoLib (envAt 5) demoMarket (some "Bearer vx")
        (VendorRequest.deleteAccount
          { emptyBody with email := some "a@b.com", password := some "secret1" })).1 :=
  ownership_frame demoLib (envAt 5) demoMarket (some "Bearer vx")
    (VendorRequest.deleteAccount
      { emptyBody with email := some "a@b.com", password := some "secret1" })
    { id := 1, email := "a@b.com", name := "Alice" } rfl (by decide) (by intro d _; rfl)

/-- C9, as amended: for a vendor `rv` and an item or package owned by another vendor
(ids unique in the collection), `deleteItem` and `deleteBreakfastPackage` on its id
answer 404; `updateItem` and `updateBreakfastPackage` answer 404 when the body passes
the route's validators and, for a package, a supplied `items` list passes the handler's
items check: its ids are well formed and as many items of the acting vendor are found
among them as the list is long, which with unique item ids is the case exactly when
every id names an item of the acting vendor and none is named twice. When the body
fails the validators the answer is 400 with the validation errors; when the items check
fails it is 400 `Some items are invalid or not authorized`; when an item id is malformed
it is 500. The update of a package never answers 200 or 403, and the store is left as
it was. -/
theorem cross_vendor_item_package_requests (L : Lib) (env : Env) (st : Store)
    (hdr : Option String) (rv : ReqVendor)
    (hauth : VendorAuth.authenticateToken L st hdr = Except.ok rv) :
    (∀ x ∈ st.items, x.vendorId ≠ rv.id → (st.items.map (fun i => i._id)).Nodup →
      VendorRoutes.handle L env st hdr (VendorRequest.deleteItem (IdArg.oid x._id))
        = (st, Response.msg 404 "Item not found") ∧
      ∀ b : ItemBody,
        (VendorRoutes.updateItemErrors b = [] →
          VendorRoutes.handle L env st hdr (VendorRequest.updateItem (IdArg.oid x._id) b)
            = (st, Response.msg 404 "Item not found")) ∧
        (VendorRoutes.updateItemErrors b ≠ [] →
          VendorRoutes.handle L env st hdr (VendorRequest.updateItem (IdArg.oid x._id) b)
            = (st, Response.invalid (VendorRoutes.updateItemErrors b)))) ∧
    (∀ x ∈ st.packages, x.vendorId ≠ rv.id → (st.packages.map (fun p => p._id)).Nodup →
      VendorRoutes.handle L env st hdr
          (VendorRequest.deleteBreakfastPackage (IdArg.oid x._id))
        = (st, Response.msg 404 "Breakfast package not found") ∧
      ∀ b : PackageBody,
        (VendorRoutes.updatePackageErrors b = [] →
          (b.items = none ∨ ∃ items ids, b.items = some items ∧ castIds items = some ids ∧
            (VendorController.ownedItemsIn st ids rv.id).length = items.length) →
          VendorRoutes.handle L env st hdr
              (VendorRequest.updateBreakfastPackage (IdArg.oid x._id) b)
            = (st, Response.msg 404 "Breakfast package not found")) ∧
        (VendorRoutes.updatePackageErrors b ≠ [] →
          VendorRoutes.handle L env st hdr
              (VendorRequest.updateBreakfastPackage (IdArg.oid x._id) b)
            = (st, Response.invalid (VendorRoutes.updatePackageErrors b))) ∧
        (VendorRoutes.handle L env st hdr
            (VendorRequest.updateBreakfastPackage (IdArg.oid x._id) b)).1 = st ∧
        ((VendorRoutes.handle L env st hdr
            (VendorRequest.updateBreakfastPackage (IdArg.oid x._id) b)).2.status = 404 ∨
          (VendorRoutes.handle L env st hdr
            (VendorRequest.updateBreakfastPackage (IdArg.oid x._id) b)).2.status = 400 ∨
          (VendorRoutes.handle L env st hdr
            (VendorRequest.updateBreakfastPackage (IdArg.oid x._id) b)).2.status = 500) ∧
        (VendorRoutes.updatePackageErrors b = [] →
          ∀ items ids, b.items = some items → castIds items = some ids →
            (VendorController.ownedItemsIn st ids rv.id).length ≠ items.length →
            VendorRoutes.handle L env st hdr
                (VendorRequest.updateBreakfastPackage (IdArg.oid x._id) b)
              = (st, Response.msg 400 "Some items are invalid or not authorized")) ∧
        (VendorRoutes.updatePackageErrors b = [] →
          ∀ items, b.items = some items → items.all IdArg.isValid = false →
            VendorRoutes.handle L env st hdr
                (VendorRequest.updateBreakfastPackage (IdArg.oid x._id) b)
              = (st, Response.caught 500 "Error updating breakfast package"))) ∧
    ((st.items.map (fun i => i._id)).Nodup →
      ∀ (items : List IdArg) (ids : List ObjectId), castIds items = some ids →
        ((VendorController.ownedItemsIn st ids rv.id).length = items.length ↔
          (∀ id ∈ items, id.resolvesTo st rv.id = true) ∧ items.Nodup)) :=
  ⟨fun x hx hk hnd => foreign_item_not_found L env st hdr rv x hauth hx hk hnd,
    fun x hx hk hnd => foreign_package_not_found L env st hdr rv x hauth hx hk hnd,
    fun hnd items ids hc => items_check_iff st items ids rv.id hc hnd⟩

theorem cross_vendor_item_package_requests_witness :
    VendorRoutes.handle demoLib (envAt 5) demoMarket (some "Bearer vx")
        (VendorRequest.updateItem (IdArg.oid 11) { emptyItemBody with name := some "Dosa" })
      = (demoMarket, Response.msg 404 "Item not found") :=
  (((cross_vendor_item_package_requests demoLib (envAt 5) demoMarket (some "Bearer vx")
      { id := 1, email := "a@b.com", name := "Alice" } rfl).1
    { _id := 11, vendorId := 2, name := "Lassi", description := none, price := 30,
      type := "Juice", isAvailable := true }
    (by decide) (by decide) (by decide)).2
    { emptyItemBody with name := some "Dosa" }).1 (by decide)

/-- C9, as stated, fails: vendor 1 (`alice`) asks to update item 11, which vendor 2 owns,
with the body `{ name: "" }`; the validators of the route answer 400 before the handler
looks the item up, so the response is not 404. Likewise her update of package 31, which
vendor 2 owns, with the items `[10, 10]` (her own item, named twice) is answered
400 `Some items are invalid or not authorized` by the items check that runs before the
package is looked up. -/
theorem cross_vendor_update_invalid_body_is_400 :
    VendorAuth.authenticateToken demoLib demoMarket (some "Bearer vx")
      = Except.ok { id := 1, email := "a@b.com", name := "Alice" } ∧
    (demoMarket.items.find? (fun i => i._id == 11)).map (fun i => i.vendorId) = some 2 ∧
    VendorRoutes.handle demoLib (envAt 5) demoMarket (some "Bearer vx")
        (VendorRequest.updateItem (IdArg.oid 11) { emptyItemBody with name := some "" })
      = (demoMarket, Response.invalid ["Item name is required"]) ∧
    (VendorRoutes.handle demoLib (envAt 5) demoMarket (some "Bearer vx")
        (VendorRequest.updateItem (IdArg.oid 11)
          { emptyItemBody with name := some "" })).2.status = 400 ∧
    (demoMarket.packages.find? (fun p => p._id == 31)).map (fun p => p.vendorId) = some 2 ∧
    (demoMarket.items.find? (fun i => i._id == 10)).map (fun i => i.vendorId) = some 1 ∧
    VendorRoutes.handle demoLib (envAt 5) demoMarket (some "Bearer vx")
        (VendorRequest.updateBreakfastPackage (IdArg.oid 31)
          { emptyPackageBody with items := some [IdArg.oid 10, IdArg.oid 10] })
      = (demoMarket, Response.msg 400 "Some items are invalid or not authorized") :=
  ⟨rfl, by decide, by decide, by decide, by decide, by decide, by decide⟩

/-- C10: the code at the failing input. Vendor 1 (`alice`), who has restaurant 20, sends
`DELETE /restaurant/21` and `PUT /restaurant/21`, naming the restaurant of vendor 2: the
handlers filter on `vendorId` only, answer 200, and delete or rewrite restaurant 20. -/
theorem restaurant_path_id_is_ignored :
    VendorRoutes.handle demoLib (envAt 5) demoMarket (some "Bearer vx")
        (VendorRequest.deleteRestaurant (IdArg.oid 21))
      = ({ demoMarket with restaurants :=
            [{ _id := 21, vendorId := 2, name := "Dave Diner", address := "4 Main St",
               phone := "9876543213", operatingHours := "9-21" }] },
          Response.msg 200 "Restaurant deleted successfully") ∧
    (VendorRoutes.handle demoLib (envAt 5) demoMarket (some "Bearer vx")
        (VendorRequest.updateRestaurant (IdArg.oid 21)
          { emptyRestaurantBody with name := some "Renamed" })).2.status = 200 ∧
    (VendorRoutes.handle demoLib (envAt 5) demoMarket (some "Bearer vx")
        (VendorRequest.updateRestaurant (IdArg.oid 21)
          { emptyRestaurantBody with name := some "Renamed" })).1.restaurants
      = [{ _id := 20, vendorId := 1, name := "Renamed", address := "1 Main St",
           phone := "9876543210", operatingHours := "8-20" },
         { _id := 21, vendorId := 2, name := "Dave Diner", address := "4 Main St",
           phone := "9876543213", operatingHours := "9-21" }] :=
  ⟨by decide, by decide, by decide⟩

/-! ## The OTP generator -/

theorem digitChar_value (k : Nat) (hk : k < 10) : (Nat.digitChar k).toNat - 48 = k := by
  interval_cases k <;> rfl

theorem digitChar_isDigit (k : Nat) (hk : k < 10) : (Nat.digitChar k).isDigit = true := by
  interval_cases k <;> rfl

theorem toDigitsCore_isDigit (f : Nat) :
    ∀ (n : Nat) (acc : List Char), (∀ c ∈ acc, c.isDigit = true) →
      ∀ c ∈ Nat.toDigitsCore 10 f n acc, c.isDigit = true := by
  induction f with
  | zero => intro n acc h; simpa [Nat.toDigitsCore] using h
  | succ f ih =>
    intro n acc h
    have hd : ∀ c ∈ Nat.digitChar (n % 10) :: acc, c.isDigit = true := by
      intro c hc
      rcases List.mem_cons.1 hc with h1 | h1
      · rw [h1]
        exact digitChar_isDigit _ (Nat.mod_lt _ (by decide))
      · exact h c h1
    simp only [Nat.toDigitsCore]
    split
    · exact hd
    · exact ih _ _ hd

theorem toString_isDigit (n : Nat) : ∀ c ∈ (toString n).data, c.isDigit = true := by
  show ∀ c ∈ (Nat.repr n).data, c.isDigit = true
  simp only [Nat.repr, Nat.toDigits, List.asString]
  exact toDigitsCore_isDigit (n + 1) n [] (by simp)

theorem toDigitsCore_spec (f : Nat) :
    ∀ (n : Nat) (acc : List Char), n < f →
      ∃ ds : List Char, Nat.toDigitsCore 10 f n acc = ds ++ acc ∧
        ds.foldl (fun a c => a * 10 + (c.toNat - 48)) 0 = n ∧
        (∀ c ∈ ds, c.toNat - 48 < 10) ∧ ds ≠ [] := by
  induction f with
  | zero => intro n acc h; omega
  | succ f ih =>
    intro n acc h
    simp only [Nat.toDigitsCore]
    by_cases h0 : n / 10 = 0
    · refine ⟨[Nat.digitChar (n % 10)], by simp [h0], ?_, ?_, by simp⟩
      · simp only [List.foldl_cons, List.foldl_nil, Nat.zero_mul, Nat.zero_add]
        rw [digitChar_value _ (Nat.mod_lt _ (by decide))]
        omega
      · intro c hc
        simp only [List.mem_singleton] at hc
        rw [hc, digitChar_value _ (Nat.mod_lt _ (by decide))]
        exact Nat.mod_lt _ (by decide)
    · obtain ⟨ds, hds, hval, hdig, _⟩ := ih (n / 10) (Nat.digitChar (n % 10) :: acc) (by omega)
      refine ⟨ds ++ [Nat.digitChar (n % 10)], by simp [h0, hds], ?_, ?_, by simp⟩
      · rw [List.foldl_append, hval]
        simp only [List.foldl_cons, List.foldl_nil]
        rw [digitChar_value _ (Nat.mod_lt _ (by decide))]
        omega
      · intro c hc
        rcases List.mem_append.1 hc with h1 | h1
        · exact hdig c h1
        · simp only [List.mem_singleton] at h1
          rw [h1, digitChar_value _ (Nat.mod_lt _ (by decide))]
          exact Nat.mod_lt _ (by decide)

theorem toString_value (n : Nat) :
    (toString n).data.foldl (fun a c => a * 10 + (c.toNat - 48)) 0 = n ∧
    ∀ c ∈ (toString n).data, c.toNat - 48 < 10 := by
  obtain ⟨ds, hds, hval, hdig, _⟩ := toDigitsCore_spec (n + 1) n [] (by omega)
  have h : (toString n).data = ds := by
    show (Nat.repr n).data = ds
    simp only [Nat.repr, Nat.toDigits, List.asString, hds, List.append_nil]
  rw [h]
  exact ⟨hval, hdig⟩

theorem toString_nat_injective (m n : Nat) (h : toString m = toString n) : m = n := by
  rw [← (toString_value m).1, ← (toString_value n).1, h]

theorem digits_value_lt (ds : List Char) (hdig : ∀ c ∈ ds, c.toNat - 48 < 10) :
    ∀ a : Nat, ds.foldl (fun a c => a * 10 + (c.toNat - 48)) a < (a + 1) * 10 ^ ds.length := by
  induction ds with
  | nil => intro a; simp
  | cons d ds ih =>
    intro a
    have hd : d.toNat - 48 < 10 := hdig d (by simp)
    have := ih (fun c hc => hdig c (by simp [hc])) (a * 10 + (d.toNat - 48))
    simp only [List.foldl_cons, List.length_cons, Nat.pow_succ]
    calc _ < (a * 10 + (d.toNat - 48) + 1) * 10 ^ ds.length := this
      _ ≤ ((a + 1) * 10) * 10 ^ ds.length := Nat.mul_le_mul_right _ (by omega)
      _ = (a + 1) * (10 ^ ds.length * 10) := by ring

theorem toString_length_six (n : Nat) (hlo : 100000 ≤ n) (hhi : n < 1000000) :
    (toString n).length = 6 := by
  have hle : (toString n).length ≤ 6 := Nat.repr_length n 6 (by decide) (by omega)
  have hv := toString_value n
  have hlt := digits_value_lt (toString n).data hv.2 0
  rw [hv.1] at hlt
  have hlen : (toString n).length = (toString n).data.length := rfl
  by_contra hne
  have h5 : (toString n).data.length ≤ 5 := by omega
  have : 10 ^ (toString n).data.length ≤ 10 ^ 5 := Nat.pow_le_pow_right (by decide) h5
  omega

/-- C17: the code at the failing input. `generateOTP` returns the decimal string of
`100000 + rand % 899999`, the draw of `crypto.randomInt(100000, 999999)`, whose upper
bound is exclusive: every output is six decimal digits, and no draw returns `999999`. -/
theorem generateOTP_never_returns_999999 :
    (∀ rand, generateOTP rand = toString (100000 + rand % 899999)) ∧
    (∀ rand, (generateOTP rand).length = 6 ∧
      ∀ c ∈ (generateOTP rand).data, c.isDigit = true) ∧
    (∀ rand, generateOTP rand ≠ "999999") := by
  refine ⟨fun rand => rfl, fun rand => ⟨?_, toString_isDigit _⟩, fun rand h => ?_⟩
  · exact toString_length_six _ (by unfold randomInt; omega) (by unfold randomInt; omega)
  · have h2 : toString (randomInt 100000 999999 rand) = toString 999999 := h
    have h3 := toString_nat_injective _ _ h2
    unfold randomInt at h3
    omega

/-! ## Token payloads and middleware statuses -/

theorem login_user_payload (L : Lib) (st : Store) (b : AuthBody) (tok : String)
    (h : (AuthController.login L st b).2.token = some tok) :
    ∃ u, findOneByEmail L st.users (b.email.getD "") = some u ∧
      tok = L.sign { _id := some u._id, vendorId := none, email := u.email, name := u.name,
                     role := some u.role } := by
  unfold AuthController.login at h
  split at h
  · simp [Response.msg] at h
  rcases hf : findOneByEmail L st.users (b.email.getD "") with _ | u
  · simp [hf, Response.msg] at h
  simp only [hf] at h
  split at h
  · simp [Response.msg] at h
  split at h
  · simp [Response.msg] at h
  simp only [Option.some.injEq] at h
  exact ⟨u, rfl, h.symm⟩

theorem login_vendor_payload (L : Lib) (env : Env) (st : Store) (hdr : Option String)
    (b : AuthBody) (tok : String)
    (h : (VendorRoutes.handle L env st hdr (VendorRequest.login b)).2.token = some tok) :
    ∃ v, findOneByEmail L st.vendors (b.email.getD "") = some v ∧
      tok = L.sign { _id := none, vendorId := some v._id, email := v.email, name := v.name,
                     role := none } := by
  simp only [VendorRoutes.handle, VendorRoutes.validate] at h
  split at h
  · simp [Response.invalid] at h
  unfold VendorController.login at h
  split at h
  · simp [Response.invalid] at h
  rcases hf : findOneByEmail L st.vendors (b.email.getD "") with _ | v
  · simp [hf, Response.msg] at h
  simp only [hf] at h
  split at h
  · simp [Response.caught] at h
  split at h
  · simp [Response.msg] at h
  split at h
  · simp [Response.msg] at h
  simp only [Option.some.injEq] at h
  exact ⟨v, rfl, h.symm⟩

/-- C18, as amended: the token a successful login issues is the signature of a payload
built from the stored record found by the email: `_id`, `email`, `name` and `role` in
the user flow; `vendorId`, `email` and `name`, and no role claim, in the vendor flow. -/
theorem login_token_payload (L : Lib) (env : Env) (st : Store) (hdr : Option String)
    (b : AuthBody) (tok : String) :
    ((AuthController.login L st b).2.token = some tok →
      ∃ u, findOneByEmail L st.users (b.email.getD "") = some u ∧
        tok = L.sign { _id := some u._id, vendorId := none, email := u.email,
                       name := u.name, role := some u.role }) ∧
    ((VendorRoutes.handle L env st hdr (VendorRequest.login b)).2.token = some tok →
      ∃ v, findOneByEmail L st.vendors (b.email.getD "") = some v ∧
        tok = L.sign { _id := none, vendorId := some v._id, email := v.email,
                       name := v.name, role := none }) :=
  ⟨login_user_payload L st b tok, login_vendor_payload L env st hdr b tok⟩

theorem login_token_payload_witness :
    ∃ v, findOneByEmail demoLib demoMarket.vendors
        (({ emptyBody with email := some "d@b.com", password := some "secret4" } :
          AuthBody).email.getD "") = some v ∧
      "vxx" = demoLib.sign { _id := none, vendorId := some v._id, email := v.email,
                             name := v.name, role := none } :=
  (login_token_payload demoLib (envAt 5) demoMarket none
    { emptyBody with email := some "d@b.com", password := some "secret4" } "vxx").2
    (by decide)

/-- C18, as stated, fails in the vendor flow: the vendor `dave`, whose stored role is
`vendor`, logs in; with a signature that shows the role claim, the issued token is the
one of a payload without a role, which no payload with the stored role produces. -/
theorem vendor_token_has_no_role_claim :
    (VendorRoutes.handle roleLib (envAt 5) demoMarket none
        (VendorRequest.login
          { emptyBody with email := some "d@b.com", password := some "secret4" })).2.token
      = some "no role claim" ∧
    dave.role = "vendor" ∧
    ∀ c : Claims, c.role = some dave.role → roleLib.sign c ≠ "no role claim" := by
  refine ⟨by decide, rfl, ?_⟩
  intro c hc
  simp only [roleLib, hc, Option.getD_some]
  decide

theorem userAuth_statuses (L : Lib) (st : Store) (hdr : Option String) :
    (bearerToken hdr = none →
      AuthMiddleware.authenticateToken L st hdr
        = Except.error (Response.msg 401 "Token missing")) ∧
    (∀ t, bearerToken hdr = some t → L.verify t = none →
      AuthMiddleware.authenticateToken L st hdr
        = Except.error (Response.caught 403 "Authentication failed")) ∧
    (∀ t c, bearerToken hdr = some t → L.verify t = some c →
      c._id.bind (findById st.users) = none →
      AuthMiddleware.authenticateToken L st hdr
        = Except.error (Response.msg 401 "Unauthorized: User not found")) := by
  unfold AuthMiddleware.authenticateToken
  refine ⟨fun h => by simp [h], fun t h1 h2 => by simp [h1, h2], fun t c h1 h2 h3 => ?_⟩
  simp [h1, h2, h3]

theorem vendorAuth_statuses (L : Lib) (st : Store) (hdr : Option String) :
    (bearerToken hdr = none →
      VendorAuth.authenticateToken L st hdr
        = Except.error (Response.msg 401 "Authentication required: No token provided")) ∧
    (∀ t, bearerToken hdr = some t → L.verify t = none →
      VendorAuth.authenticateToken L st hdr
        = Except.error (Response.caught 403 "Authentication failed")) ∧
    (∀ t c, bearerToken hdr = some t → L.verify t = some c →
      (c.vendorId.bind (findById st.vendors) = none ∨
        ∃ v, c.vendorId.bind (findById st.vendors) = some v ∧ v.isVerified = false) →
      VendorAuth.authenticateToken L st hdr
        = Except.error (Response.msg 401 "Unauthorized: Vendor not found or unverified")) := by
  unfold VendorAuth.authenticateToken
  refine ⟨fun h => by simp [h], fun t h1 h2 => by simp [h1, h2], fun t c h1 h2 h3 => ?_⟩
  rcases h3 with h3 | ⟨v, h3, h4⟩
  · simp [h1, h2, h3]
  · simp [h1, h2, h3, h4]

/-- C19, as amended: in both middlewares a request without a token is answered 401, a
token that fails verification is answered 403 `Authentication failed`, and a verifying
token whose principal is not in the store (or, for a vendor, is unverified) is answered
401; the role gate answers 403 to a principal whose role is not permitted. -/
theorem middleware_status_codes (L : Lib) (st : Store) (hdr : Option String) :
    ((bearerToken hdr = none →
        AuthMiddleware.authenticateToken L st hdr
          = Except.error (Response.msg 401 "Token missing")) ∧
      (∀ t, bearerToken hdr = some t → L.verify t = none →
        AuthMiddleware.authenticateToken L st hdr
          = Except.error (Response.caught 403 "Authentication failed")) ∧
      (∀ t c, bearerToken hdr = some t → L.verify t = some c →
        c._id.bind (findById st.users) = none →
        AuthMiddleware.authenticateToken L st hdr
          = Except.error (Response.msg 401 "Unauthorized: User not found"))) ∧
    ((bearerToken hdr = none →
        VendorAuth.authenticateToken L st hdr
          = Except.error (Response.msg 401 "Authentication required: No token provided")) ∧
      (∀ t, bearerToken hdr = some t → L.verify t = none →
        VendorAuth.authenticateToken L st hdr
          = Except.error (Response.caught 403 "Authentication failed")) ∧
      (∀ t c, bearerToken hdr = some t → L.verify t = some c →
        (c.vendorId.bind (findById st.vendors) = none ∨
          ∃ v, c.vendorId.bind (findById st.vendors) = some v ∧ v.isVerified = false) →
        VendorAuth.authenticateToken L st hdr
          = Except.error
              (Response.msg 401 "Unauthorized: Vendor not found or unverified"))) ∧
    (∀ (allowedRoles : List String) (u : ReqUser), u.role ∉ allowedRoles →
      AuthMiddleware.restrictTo allowedRoles (some u)
        = Except.error (Response.msg 403 "Access denied: Insufficient permissions")) :=
  ⟨userAuth_statuses L st hdr, vendorAuth_statuses L st hdr,
    fun roles u h => restrictTo_denied roles (some u) (by simpa using h)⟩

theorem middleware_status_codes_witness :
    VendorAuth.authenticateToken demoLib demoStore (some "Bearer vxx")
      = Except.error (Response.msg 401 "Unauthorized: Vendor not found or unverified") :=
  (middleware_status_codes demoLib demoStore (some "Bearer vxx")).2.1.2.2 "vxx"
    { _id := none, vendorId := some 2, email := "", name := "", role := none }
    (by decide) (by decide) (Or.inr ⟨bob, by decide, by decide⟩)

/-- C19, as stated, fails: a request whose token is present but does not verify is
answered 403, not 401, by the user middleware and by the vendor middleware. -/
theorem invalid_token_is_answered_403 :
    bearerToken (some "Bearer forged") = some "forged" ∧
    demoLib.verify "forged" = none ∧
    AuthMiddleware.authenticateToken demoLib demoStore (some "Bearer forged")
      = Except.error (Response.caught 403 "Authentication failed") ∧
    VendorAuth.authenticateToken demoLib demoStore (some "Bearer forged")
      = Except.error (Response.caught 403 "Authentication failed") ∧
    (Response.caught 403 "Authentication failed").status = 403 :=
  ⟨by decide, by decide, rfl, rfl, rfl⟩

/-! ## OTP storage and comparison -/

/-- C16: the code at the failing input. The user `bob` of `demoStore` holds the stored
OTP value `$2b$123456`, the hash of the code `123456`, unexpired. The user `verifyOTP`
compares with `!==`: it refuses the code `123456` and accepts the stored string itself,
where the vendor `verifyOTP` on the same record accepts the code through
`bcrypt.compare`; and both `register` handlers store the issued code through the `save`
hook, which the spec has hash it in both flows. -/
theorem user_otp_is_compared_in_clear :
    AuthController.verifyOTP demoLib (envAt 5) demoStore
        { emptyBody with email := some "b@b.com", otp := some "123456" }
      = (demoStore, Response.msg 400 "Invalid or expired OTP") ∧
    (AuthController.verifyOTP demoLib (envAt 5) demoStore
        { emptyBody with email := some "b@b.com", otp := some "$2b$123456" }).2
      = Response.msg 200 "Email verified successfully. You can now log in." ∧
    (VendorRoutes.handle demoLib (envAt 5) demoStore none
        (VendorRequest.verifyOTP
          { emptyBody with email := some "b@b.com", otp := some "123456" })).2
      = Response.msg 200 "Email verified successfully. You can now log in." ∧
    (findOneByEmail demoLib
        (AuthController.register demoLib (envAt 5) demoStore carolBody).1.users
        "c@b.com").map (fun u => u.otp)
      = some (some (demoLib.hash (generateOTP 23456))) ∧
    (findOneByEmail demoLib
        (VendorRoutes.handle demoLib (envAt 5) demoStore none
          (VendorRequest.register carolBody)).1.vendors
        "c@b.com").map (fun u => u.otp)
      = some (some (demoLib.hash (generateOTP 23456))) :=
  ⟨by decide, by decide, by decide, by decide, by decide⟩

/-! ## Package item lists -/

/-- C13: the code at the failing input. The vendor `alice` of `demoMarket` owns item 10;
a package with the item list `[10]` is created (201, stored with that list), and one
with the list `[10, 10]` is refused with 400 and nothing is stored, because the query
returns the one matching document and its count is compared with the length of the
list. -/
theorem duplicate_item_ids_are_refused :
    VendorRoutes.handle demoLib (envAt 5) demoMarket (some "Bearer vx")
        (VendorRequest.addBreakfastPackage
          { emptyPackageBody with packageName := some "Twice", price := some 70,
                                  items := some [IdArg.oid 10, IdArg.oid 10] })
      = (demoMarket, Response.msg 400 "Some items are invalid or not authorized") ∧
    (VendorRoutes.handle demoLib (envAt 5) demoMarket (some "Bearer vx")
        (VendorRequest.addBreakfastPackage
          { emptyPackageBody with packageName := some "Once", price := some 70,
                                  items := some [IdArg.oid 10] })).2.status = 201 ∧
    ((VendorRoutes.handle demoLib (envAt 5) demoMarket (some "Bearer vx")
        (VendorRequest.addBreakfastPackage
          { emptyPackageBody with packageName := some "Once", price := some 70,
                                  items := some [IdArg.oid 10] })).1.packages.map
        (fun p => p.items))
      = [[10], [11], [10]] :=
  ⟨by decide, by decide, by decide⟩

/-! ## The deletion cascade -/

theorem eraseP_key_gone {α : Type} (key : α → ObjectId) (a : ObjectId) (l : List α)
    (hnd : (l.map key).Nodup) : ∀ y ∈ l.eraseP (fun x => key x == a), key y ≠ a := by
  induction l with
  | nil => simp
  | cons d ds ih =>
    simp only [List.map_cons, List.nodup_cons] at hnd
    by_cases hp : key d = a
    · simp only [List.eraseP_cons, hp, beq_self_eq_true, cond_true]
      intro y hy hye
      exact hnd.1 (List.mem_map.2 ⟨y, hy, by rw [hye, hp]⟩)
    · have hp2 : (key d == a) = false := by simpa using hp
      simp only [List.eraseP_cons, hp2, cond_false, List.mem_cons]
      intro y hy
      rcases hy with rfl | hy
      · exact hp
      · exact ih hnd.2 y hy

theorem vendor_delete_cascade_store (L : Lib) (env : Env) (st : Store)
    (hdr : Option String) (b : AuthBody)
    (hok : (VendorRoutes.handle L env st hdr (VendorRequest.deleteAccount b)).2.status = 200)
    (hemails : (st.vendors.map (fun d => d.email)).Nodup)
    (hnorm : ∀ d ∈ st.vendors, emailSetter L d.email = d.email) :
    ∃ rv v, VendorAuth.authenticateToken L st hdr = Except.ok rv ∧
      v ∈ st.vendors ∧ v._id = rv.id ∧ v.email = rv.email ∧
      findOneByEmail L st.vendors rv.email = some v ∧
      (VendorRoutes.handle L env st hdr (VendorRequest.deleteAccount b)).1
        = (((st.deleteRestaurantOf rv.id).deleteItemsOf rv.id).deletePackagesOf
            rv.id).deleteVendorByEmail L rv.email := by
  obtain ⟨rv, doc, hauth, _, hf, hst⟩ := vendor_delete_success L env st hdr b hok
  obtain ⟨_, _, id, v, _, _, _, hfind, _, hrv⟩ := (vendorAuth_ok_iff L st hdr rv).1 hauth
  have hv : v ∈ st.vendors := List.mem_of_find?_eq_some hfind
  obtain ⟨hfe, _⟩ := find_email_unique L st.vendors v hv hemails (hnorm v hv)
  have hemail : rv.email = v.email := by rw [hrv]
  have hid : rv.id = v._id := by rw [hrv]
  have hdoc : doc = v := by
    rw [hemail, hfe] at hf
    exact (Option.some.inj hf).symm
  refine ⟨rv, v, hauth, hv, hid.symm, hemail.symm, by rw [hemail]; exact hfe, ?_⟩
  rw [hst, hdoc, hid]
  rfl

/-- C11: after a `deleteAccount` answered 200, the store is the old one after
`Restaurant.deleteOne`, `Item.deleteMany`, `Package.deleteMany` on the vendor's id and
then `Vendor.deleteOne` on its email, composed in that order; it holds no vendor with
that id and no restaurant, item or package with that `vendorId`, so the lookups by
that id find nothing. The writes the handler awaits before it answers are these four,
in this order: after the first only the restaurant collection has changed and the items
are all still stored, after the second the packages are all still stored, after the
third the vendor record is still stored, and the store of the answer is the one after
the fourth. The vendor collection has unique ids and emails, stored in normal form, and
the restaurant collection its unique `vendorId` index. -/
theorem vendor_delete_cascades (L : Lib) (env : Env) (st : Store) (hdr : Option String)
    (b : AuthBody)
    (hok : (VendorRoutes.handle L env st hdr (VendorRequest.deleteAccount b)).2.status = 200)
    (hids : (st.vendors.map (fun d => d._id)).Nodup)
    (hemails : (st.vendors.map (fun d => d.email)).Nodup)
    (hnorm : ∀ d ∈ st.vendors, emailSetter L d.email = d.email)
    (hrest : (st.restaurants.map (fun r => r.vendorId)).Nodup) :
    ∃ rv, VendorAuth.authenticateToken L st hdr = Except.ok rv ∧
      (VendorRoutes.handle L env st hdr (VendorRequest.deleteAccount b)).1
        = (((st.deleteRestaurantOf rv.id).deleteItemsOf rv.id).deletePackagesOf
            rv.id).deleteVendorByEmail L rv.email ∧
      findById (VendorRoutes.handle L env st hdr (VendorRequest.deleteAccount b)).1.vendors
        rv.id = none ∧
      (VendorRoutes.handle L env st hdr
        (VendorRequest.deleteAccount b)).1.restaurants.find? (fun r => r.vendorId == rv.id)
        = none ∧
      (VendorRoutes.handle L env st hdr
        (VendorRequest.deleteAccount b)).1.items.filter (fun i => i.vendorId == rv.id)
        = [] ∧
      (VendorRoutes.handle L env st hdr
        (VendorRequest.deleteAccount b)).1.packages.filter (fun p => p.vendorId == rv.id)
        = [] ∧
      ∃ doc, findOneByEmail L st.vendors rv.email = some doc ∧
        VendorController.deleteAccountWrites doc rv.email
          = [Write.restaurantDeleteOne rv.id, Write.itemDeleteMany rv.id,
             Write.packageDeleteMany rv.id, Write.vendorDeleteOne rv.email] ∧
        (VendorRoutes.handle L env st hdr (VendorRequest.deleteAccount b)).1
          = st.after L (VendorController.deleteAccountWrites doc rv.email) ∧
        st.after L ((VendorController.deleteAccountWrites doc rv.email).take 1)
          = st.deleteRestaurantOf rv.id ∧
        (st.after L ((VendorController.deleteAccountWrites doc rv.email).take 1)).items
          = st.items ∧
        st.after L ((VendorController.deleteAccountWrites doc rv.email).take 2)
          = (st.deleteRestaurantOf rv.id).deleteItemsOf rv.id ∧
        (st.after L ((VendorController.deleteAccountWrites doc rv.email).take 2)).packages
          = st.packages ∧
        st.after L ((VendorController.deleteAccountWrites doc rv.email).take 3)
          = ((st.deleteRestaurantOf rv.id).deleteItemsOf rv.id).deletePackagesOf rv.id ∧
        findOneByEmail L
            (st.after L ((VendorController.deleteAccountWrites doc rv.email).take 3)).vendors
            rv.email
          = some doc := by
  obtain ⟨rv, v, hauth, hv, hid, hemail, hfind, hst⟩ :=
    vendor_delete_cascade_store L env st hdr b hok hemails hnorm
  refine ⟨rv, hauth, hst, ?_, ?_, ?_, ?_,
    ⟨v, hfind, by rw [← hid]; rfl, by rw [hst, ← hid]; rfl, by rw [← hid]; rfl, rfl,
      by rw [← hid]; rfl, rfl, by rw [← hid]; rfl, hfind⟩⟩
  · rw [hst, ← hid, ← hemail]
    exact findById_none_after_delete L st.vendors v hv hids hemails (hnorm v hv)
  · rw [hst, List.find?_eq_none]
    intro r hr
    have := eraseP_key_gone (fun r : Restaurant => r.vendorId) rv.id st.restaurants hrest r hr
    simpa using this
  · rw [hst, List.filter_eq_nil_iff]
    intro i hi
    have hi2 : i ∈ st.items.filter (fun i => i.vendorId != rv.id) := hi
    simp only [List.mem_filter] at hi2
    simpa using hi2.2
  · rw [hst, List.filter_eq_nil_iff]
    intro p hp
    have hp2 : p ∈ st.packages.filter (fun p => p.vendorId != rv.id) := hp
    simp only [List.mem_filter] at hp2
    simpa using hp2.2

theorem vendor_delete_cascades_witness :
    ∃ rv, VendorAuth.authenticateToken demoLib demoMarket (some "Bearer vx") = Except.ok rv ∧
      (VendorRoutes.handle demoLib (envAt 5) demoMarket (some "Bearer vx")
          (VendorRequest.deleteAccount
            { emptyBody with email := some "a@b.com", password := some "secret1" })).1
        = (((demoMarket.deleteRestaurantOf rv.id).deleteItemsOf rv.id).deletePackagesOf
            rv.id).deleteVendorByEmail demoLib rv.email ∧
      findById (VendorRoutes.handle demoLib (envAt 5) demoMarket (some "Bearer vx")
          (VendorRequest.deleteAccount
            { emptyBody with email := some "a@b.com", password := some "secret1" })).1.vendors
        rv.id = none ∧
      (VendorRoutes.handle demoLib (envAt 5) demoMarket (some "Bearer vx")
          (VendorRequest.deleteAccount
            { emptyBody with email := some "a@b.com",
                             password := some "secret1" })).1.restaurants.find?
        (fun r => r.vendorId == rv.id) = none ∧
      (VendorRoutes.handle demoLib (envAt 5) demoMarket (some "Bearer vx")
          (VendorRequest.deleteAccount
            { emptyBody with email := some "a@b.com",
                             password := some "secret1" })).1.items.filter
        (fun i => i.vendorId == rv.id) = [] ∧
      (VendorRoutes.handle demoLib (envAt 5) demoMarket (some "Bearer vx")
          (VendorRequest.deleteAccount
            { emptyBody with email := some "a@b.com",
                             password := some "secret1" })).1.packages.filter
        (fun p => p.vendorId == rv.id) = [] ∧
      ∃ doc, findOneByEmail demoLib demoMarket.vendors rv.email = some doc ∧
        VendorController.deleteAccountWrites doc rv.email
          = [Write.restaurantDeleteOne rv.id, Write.itemDeleteMany rv.id,
             Write.packageDeleteMany rv.id, Write.vendorDeleteOne rv.email] ∧
        (VendorRoutes.handle demoLib (envAt 5) demoMarket (some "Bearer vx")
            (VendorRequest.deleteAccount
              { emptyBody with email := some "a@b.com", password := some "secret1" })).1
          = demoMarket.after demoLib (VendorController.deleteAccountWrites doc rv.email) ∧
        demoMarket.after demoLib
            ((VendorController.deleteAccountWrites doc rv.email).take 1)
          = demoMarket.deleteRestaurantOf rv.id ∧
        (demoMarket.after demoLib
            ((VendorController.deleteAccountWrites doc rv.email).take 1)).items
          = demoMarket.items ∧
        demoMarket.after demoLib
            ((VendorController.deleteAccountWrites doc rv.email).take 2)
          = (demoMarket.deleteRestaurantOf rv.id).deleteItemsOf rv.id ∧
        (demoMarket.after demoLib
            ((VendorController.deleteAccountWrites doc rv.email).take 2)).packages
          = demoMarket.packages ∧
        demoMarket.after demoLib
            ((VendorController.deleteAccountWrites doc rv.email).take 3)
          = ((demoMarket.deleteRestaurantOf rv.id).deleteItemsOf rv.id).deletePackagesOf
              rv.id ∧
        findOneByEmail demoLib
            (demoMarket.after demoLib
              ((VendorController.deleteAccountWrites doc rv.email).take 3)).vendors
            rv.email
          = some doc :=
  vendor_delete_cascades demoLib (envAt 5) demoMarket (some "Bearer vx")
    { emptyBody with email := some "a@b.com", password := some "secret1" }
    (by decide) (by decide) (by decide) (by intro d _; rfl) (by decide)

theorem castIds_of_all_valid (items : List IdArg) (h : items.all IdArg.isValid = true) :
    ∃ ids, castIds items = some ids := by
  induction items with
  | nil => exact ⟨[], rfl⟩
  | cons x xs ih =>
    cases x with
    | malformed raw => simp [IdArg.isValid] at h
    | oid n =>
      simp only [List.all_cons, IdArg.isValid, Bool.true_and] at h
      obtain ⟨ids, hids⟩ := ih h
      exact ⟨n :: ids, by simp [castIds, hids]⟩

theorem owned_ids_nodup (st : Store) (ids : List ObjectId) (a : ObjectId)
    (hnd : (st.items.map (fun i => i._id)).Nodup) :
    ((VendorController.ownedItemsIn st ids a).map (fun i => i._id)).Nodup :=
  List.Nodup.sublist (List.Sublist.map _ (List.filter_sublist _)) hnd

theorem owned_length_le (st : Store) (ids : List ObjectId) (a : ObjectId)
    (hnd : (st.items.map (fun i => i._id)).Nodup) :
    (VendorController.ownedItemsIn st ids a).length
      ≤ (ids.filter (fun n => st.items.any (fun i => i._id == n && i.vendorId == a))).length := by
  have hsub : (VendorController.ownedItemsIn st ids a).map (fun i => i._id)
      ⊆ ids.filter (fun n => st.items.any (fun i => i._id == n && i.vendorId == a)) := by
    intro n hn
    obtain ⟨i, hi, rfl⟩ := List.mem_map.1 hn
    simp only [VendorController.ownedItemsIn, List.mem_filter, Bool.and_eq_true,
      beq_iff_eq] at hi
    simp only [List.mem_filter, List.any_eq_true, Bool.and_eq_true, beq_iff_eq]
    exact ⟨by simpa using hi.2.1, i, hi.1, rfl, hi.2.2⟩
  have := ((owned_ids_nodup st ids a hnd).subperm hsub).length_le
  simpa using this

theorem owned_length_lt (st : Store) (ids : List ObjectId) (a : ObjectId)
    (hnd : (st.items.map (fun i => i._id)).Nodup)
    (hbad : ∃ n ∈ ids, st.items.any (fun i => i._id == n && i.vendorId == a) = false) :
    (VendorController.ownedItemsIn st ids a).length < ids.length := by
  have h1 := owned_length_le st ids a hnd
  have h2 : (ids.filter (fun n => st.items.any (fun i => i._id == n && i.vendorId == a))).length
      < ids.length := by
    rw [List.length_filter_lt_length_iff_exists]
    obtain ⟨n, hn, hf⟩ := hbad
    exact ⟨n, hn, by simp [hf]⟩
  omega

theorem unresolved_after_cast (st : Store) (a : ObjectId) (items : List IdArg)
    (ids : List ObjectId) (hc : castIds items = some ids)
    (hbad : ∃ id ∈ items, id.resolvesTo st a = false) :
    ∃ n ∈ ids, st.items.any (fun i => i._id == n && i.vendorId == a) = false := by
  obtain ⟨id, hid, hres⟩ := hbad
  rw [castIds_eq_some items ids hc] at hid
  obtain ⟨n, hn, rfl⟩ := List.mem_map.1 hid
  exact ⟨n, hn, hres⟩

theorem add_bad_items (L : Lib) (env : Env) (st : Store) (e : List String) (rv : ReqVendor)
    (b : PackageBody) (items : List IdArg)
    (hnd : (st.items.map (fun i => i._id)).Nodup) (hitems : b.items = some items)
    (hbad : ∃ id ∈ items, id.resolvesTo st rv.id = false) :
    (VendorController.addBreakfastPackage L env st e (some rv) b).1 = st ∧
    (VendorController.addBreakfastPackage L env st e (some rv) b).2.status = 400 := by
  unfold VendorController.addBreakfastPackage
  split
  · exact ⟨rfl, rfl⟩
  simp only [hitems]
  split
  · exact ⟨rfl, rfl⟩
  rename_i hall
  obtain ⟨ids, hids⟩ := castIds_of_all_valid items (by simpa using hall)
  have hlen : items.length = ids.length := by
    rw [castIds_eq_some items ids hids, List.length_map]
  have hlt := owned_length_lt st ids rv.id hnd (unresolved_after_cast st rv.id items ids hids hbad)
  have hne : ((VendorController.ownedItemsIn st ids rv.id).length != items.length) = true := by
    simp only [bne_iff_ne, ne_eq]
    omega
  simp [hids, hne, Response.msg]

theorem update_bad_items (L : Lib) (st : Store) (e : List String) (rv : ReqVendor)
    (pid : IdArg) (b : PackageBody) (items : List IdArg)
    (hnd : (st.items.map (fun i => i._id)).Nodup) (hitems : b.items = some items)
    (hbad : ∃ id ∈ items, id.resolvesTo st rv.id = false) :
    (VendorController.updateBreakfastPackage L st e (some rv) pid b).1 = st ∧
    ((VendorController.updateBreakfastPackage L st e (some rv) pid b).2.status = 400 ∨
      (VendorController.updateBreakfastPackage L st e (some rv) pid b).2.status = 500) := by
  unfold VendorController.updateBreakfastPackage
  split
  · exact ⟨rfl, Or.inl rfl⟩
  simp only [hitems]
  rcases hids : castIds items with _ | ids
  · exact ⟨rfl, Or.inr rfl⟩
  have hlen : items.length = ids.length := by
    rw [castIds_eq_some items ids hids, List.length_map]
  have hlt := owned_length_lt st ids rv.id hnd (unresolved_after_cast st rv.id items ids hids hbad)
  have hne : ((VendorController.ownedItemsIn st ids rv.id).length != items.length) = true := by
    simp only [bne_iff_ne, ne_eq]
    omega
  simp [hne, Response.msg]

/-- C12: when the `items` of the body holds an identifier that is malformed or names no
item of the acting vendor (no item at all, or another vendor's), `addBreakfastPackage`
answers 400 and `updateBreakfastPackage` answers 400 or, for a malformed identifier,
500, and the store is the one before the request: no package is created or changed.
Item `_id`s are unique. -/
theorem bad_item_list_persists_nothing (L : Lib) (env : Env) (st : Store)
    (hdr : Option String) (rv : ReqVendor) (pid : IdArg) (b : PackageBody)
    (items : List IdArg)
    (hauth : VendorAuth.authenticateToken L st hdr = Except.ok rv)
    (hnd : (st.items.map (fun i => i._id)).Nodup) (hitems : b.items = some items)
    (hbad : ∃ id ∈ items, id.resolvesTo st rv.id = false) :
    (VendorRoutes.handle L env st hdr (VendorRequest.addBreakfastPackage b)).1 = st ∧
    (VendorRoutes.handle L env st hdr (VendorRequest.addBreakfastPackage b)).2.status = 400 ∧
    (VendorRoutes.handle L env st hdr (VendorRequest.updateBreakfastPackage pid b)).1 = st ∧
    ((VendorRoutes.handle L env st hdr
        (VendorRequest.updateBreakfastPackage pid b)).2.status = 400 ∨
      (VendorRoutes.handle L env st hdr
        (VendorRequest.updateBreakfastPackage pid b)).2.status = 500) := by
  simp only [VendorRoutes.handle, VendorRoutes.withVendor, hauth, VendorRoutes.validate]
  have h1 := add_bad_items L env st (VendorRoutes.addPackageErrors b) rv b items hnd hitems hbad
  have h2 := update_bad_items L st (VendorRoutes.updatePackageErrors b) rv pid b items hnd
    hitems hbad
  refine ⟨?_, ?_, ?_, ?_⟩
  · split
    · rfl
    · exact h1.1
  · split
    · rfl
    · exact h1.2
  · split
    · rfl
    · exact h2.1
  · split
    · exact Or.inl rfl
    · exact h2.2

theorem bad_item_list_persists_nothing_witness :
    (VendorRoutes.handle demoLib (envAt 5) demoMarket (some "Bearer vx")
        (VendorRequest.addBreakfastPackage
          { emptyPackageBody with packageName := some "Mixed", price := some 70,
                                  items := some [IdArg.oid 10, IdArg.oid 11] })).1
      = demoMarket ∧
    (VendorRoutes.handle demoLib (envAt 5) demoMarket (some "Bearer vx")
        (VendorRequest.addBreakfastPackage
          { emptyPackageBody with packageName := some "Mixed", price := some 70,
                                  items := some [IdArg.oid 10, IdArg.oid 11] })).2.status
      = 400 ∧
    (VendorRoutes.handle demoLib (envAt 5) demoMarket (some "Bearer vx")
        (VendorRequest.updateBreakfastPackage (IdArg.oid 30)
          { emptyPackageBody with packageName := some "Mixed", price := some 70,
                                  items := some [IdArg.oid 10, IdArg.oid 11] })).1
      = demoMarket ∧
    ((VendorRoutes.handle demoLib (envAt 5) demoMarket (some "Bearer vx")
        (VendorRequest.updateBreakfastPackage (IdArg.oid 30)
          { emptyPackageBody with packageName := some "Mixed", price := some 70,
                                  items := some [IdArg.oid 10, IdArg.oid 11] })).2.status
        = 400 ∨
      (VendorRoutes.handle demoLib (envAt 5) demoMarket (some "Bearer vx")
        (VendorRequest.updateBreakfastPackage (IdArg.oid 30)
          { emptyPackageBody with packageName := some "Mixed", price := some 70,
                                  items := some [IdArg.oid 10, IdArg.oid 11] })).2.status
        = 500) :=
  bad_item_list_persists_nothing demoLib (envAt 5) demoMarket (some "Bearer vx")
    { id := 1, email := "a@b.com", name := "Alice" } (IdArg.oid 30)
    { emptyPackageBody with packageName := some "Mixed", price := some 70,
                            items := some [IdArg.oid 10, IdArg.oid 11] }
    [IdArg.oid 10, IdArg.oid 11] rfl (by decide) rfl ⟨IdArg.oid 11, by decide, by decide⟩

/-! ## Stored passwords -/

theorem keepsPassword_refl (newId : ObjectId) (l : List Account) : KeepsPassword newId l l :=
  fun u' hu => Or.inr ⟨u', hu, rfl, rfl⟩

theorem keepsPassword_append (newId : ObjectId) (l : List Account) (new : Account)
    (h : new._id = newId) : KeepsPassword newId l (l ++ [new]) := by
  intro u' hu
  rcases List.mem_append.1 hu with h1 | h1
  · exact Or.inr ⟨u', h1, rfl, rfl⟩
  · simp at h1
    exact Or.inl (h1 ▸ h)

theorem keepsPassword_updateFirst (newId : ObjectId) (l : List Account)
    (p : Account → Bool) (f : Account → Account)
    (hf : ∀ u, (f u)._id = u._id ∧ (f u).password = u.password) :
    KeepsPassword newId l (updateFirst p f l) := by
  intro u' hu
  rcases mem_updateFirst p f l u' hu with h1 | ⟨y, hy, _, rfl⟩
  · exact Or.inr ⟨u', h1, rfl, rfl⟩
  · exact Or.inr ⟨y, hy, (hf y).1.symm, (hf y).2⟩

theorem vendorPreSave_password (L : Lib) (otp : Bool) (doc : Account) :
    (vendorPreSave L false otp doc).password = doc.password ∧
    (vendorPreSave L true otp doc).password = L.hash doc.password := by
  unfold vendorPreSave
  cases otp
  · simp
  · simp only [Bool.false_eq_true, if_false, Bool.true_and, if_true]
    constructor <;> split <;> rfl

theorem keepsPassword_eraseP (newId : ObjectId) (l : List Account) (p : Account → Bool) :
    KeepsPassword newId l (l.eraseP p) :=
  fun u' hu => Or.inr ⟨u', List.mem_of_mem_eraseP hu, rfl, rfl⟩

theorem login_vendor_wrong_password (L : Lib) (env : Env) (st : Store) (hdr : Option String)
    (b : AuthBody) (email password : String) (v : Account)
    (he : b.email = some email) (hp : b.password = some password)
    (hne : L.isEmail email = true) (hnp : password ≠ "")
    (hf : findOneByEmail L st.vendors email = some v)
    (hc : L.compare password v.password = false) :
    VendorRoutes.handle L env st hdr (VendorRequest.login b)
      = (st, Response.msg 400 "Incorrect password") := by
  simp only [VendorRoutes.handle]
  unfold VendorRoutes.validate VendorRoutes.loginErrors VendorController.login
  simp [he, hp, VendorRoutes.required, VendorRoutes.check, VendorRoutes.notEmpty, hne, hnp,
    hf, hc]

theorem vendorSave_password_kept (L : Lib) (u doc saved : Account)
    (hs : vendorSave L (some u) doc = some saved) (hp : doc.password = u.password) :
    saved.password = u.password := by
  rw [(vendorSave_eq L _ doc saved hs).2]
  have hm : passwordModified (some u) doc = false := by simp [passwordModified, hp]
  rw [hm, (vendorPreSave_password L _ doc).1, hp]

theorem keepsPassword_vendorSave (L : Lib) (newId : ObjectId) (l : List Account)
    (email : String) (u doc saved : Account)
    (hf : findOneByEmail L l email = some u) (hs : vendorSave L (some u) doc = some saved)
    (hid : doc._id = u._id) (hp : doc.password = u.password) :
    KeepsPassword newId l (replaceById l saved) := by
  intro u' hu
  rcases mem_updateFirst _ _ l u' hu with h1 | ⟨y, _, _, hx⟩
  · exact Or.inr ⟨u', h1, rfl, rfl⟩
  · rw [hx]
    exact Or.inr ⟨u, findOneByEmail_mem L l email u hf,
      ((vendorSave_keeps L _ doc saved hs).1.trans hid).symm,
      vendorSave_password_kept L u doc saved hs hp⟩

theorem keepsPassword_handle (L : Lib) (env : Env) (st : Store) (hdr : Option String)
    (r : VendorRequest) (hr : ∀ b, r ≠ VendorRequest.updatePassword b) :
    KeepsPassword env.newId st.vendors (VendorRoutes.handle L env st hdr r).1.vendors := by
  cases r <;> simp only [VendorRoutes.handle, VendorRoutes.withVendor, VendorRoutes.validate]
  case updatePassword b => exact absurd rfl (hr b)
  all_goals
    simp only [VendorController.register, VendorController.verifyOTP,
      VendorController.resendOTP, VendorController.updateVendor,
      VendorController.updateOne, VendorController.deleteAccount,
      VendorController.login, VendorController.logout, VendorController.dashboard,
      VendorController.addRestaurant, VendorController.getRestaurant,
      VendorController.updateRestaurant, VendorController.deleteRestaurant,
      VendorController.addItem, VendorController.getItems, VendorController.updateItem,
      VendorController.deleteItem, VendorController.searchItems,
      VendorController.addBreakfastPackage, VendorController.getBreakfastPackages,
      VendorController.updateBreakfastPackage, VendorController.writePackageUpdate,
      VendorController.deleteBreakfastPackage]
    repeat' split
    all_goals first
      | exact keepsPassword_refl _ _
      | (have hs := vendorSave_keeps L _ _ _ (by assumption)
         exact keepsPassword_append _ _ _ hs.1)
      | exact keepsPassword_updateFirst _ _ _ _ (fun u => ⟨rfl, rfl⟩)
      | exact keepsPassword_eraseP _ _ _
      | (apply keepsPassword_vendorSave
         · assumption
         · assumption
         · rfl
         · rfl)

theorem register_vendor_password (L : Lib) (env : Env) (st : Store) (hdr : Option String)
    (b : AuthBody)
    (h : (VendorRoutes.handle L env st hdr (VendorRequest.register b)).2.status = 201) :
    ∃ email p v, b.email = some email ∧ b.password = some p ∧
      findOneByEmail L (VendorRoutes.handle L env st hdr (VendorRequest.register b)).1.vendors
        email = some v ∧
      v.password = L.hash p := by
  simp only [VendorRoutes.handle] at h ⊢
  unfold VendorRoutes.validate at h ⊢
  split at h
  · simp [Response.invalid] at h
  rename_i hg
  rw [if_neg hg]
  have herr : VendorRoutes.registerErrors L b = [] := by simpa using hg
  have herr2 := herr
  unfold VendorRoutes.registerErrors at herr2
  simp only [List.append_eq_nil] at herr2
  obtain ⟨email, he, _⟩ := (required_eq_nil _ _ _).1 herr2.1.1.1.1
  obtain ⟨p, hp, _⟩ := (required_eq_nil _ _ _).1 herr2.1.1.1.2
  unfold VendorController.register at h ⊢
  simp only [herr, List.isEmpty_nil, Bool.not_true, he, hp, Option.getD_some,
    Bool.false_eq_true, if_false] at h ⊢
  rcases hf : findOneByEmail L st.vendors email with _ | old
  · simp only [hf] at h ⊢
    rcases hs : vendorSave L none
        { _id := env.newId, name := L.trim (b.name.getD ""), email := emailSetter L email,
          password := p, phoneNumber := L.trim (b.phoneNumber.getD ""),
          address := L.trim (b.address.getD ""), otp := some (generateOTP env.rand),
          otpExpiry := some (env.now + otpWindow), isVerified := false, role := "vendor" }
      with _ | saved
    · simp [hs, Response.caught] at h
    · simp only [hs]
      refine ⟨email, p, saved, rfl, rfl,
        findOneByEmail_append L st.vendors email _ hf (vendorSave_keeps L _ _ _ hs).2.2, ?_⟩
      rw [(vendorSave_eq L _ _ _ hs).2]
      exact (vendorPreSave_password L _ _).2
  · simp [hf, Response.msg] at h

theorem updatePassword_vendor_success (L : Lib) (env : Env) (st : Store)
    (hdr : Option String) (b : AuthBody)
    (h : (VendorRoutes.handle L env st hdr (VendorRequest.updatePassword b)).2.status = 200) :
    ∃ rv doc current new saved, VendorAuth.authenticateToken L st hdr = Except.ok rv ∧
      b.email = some rv.email ∧ L.isEmail rv.email = true ∧
      b.currentPassword = some current ∧ current ≠ "" ∧
      b.newPassword = some new ∧ 6 ≤ new.length ∧
      findOneByEmail L st.vendors rv.email = some doc ∧
      L.compare current doc.password = true ∧
      vendorSave L (some doc) { doc with password := new } = some saved ∧
      (VendorRoutes.handle L env st hdr (VendorRequest.updatePassword b)).1
        = { st with vendors := replaceById st.vendors saved } := by
  simp only [VendorRoutes.handle, VendorRoutes.withVendor, VendorRoutes.validate] at h ⊢
  rcases hauth : VendorAuth.authenticateToken L st hdr with resp | rv
  · rw [hauth] at h
    rcases vendorAuth_error_status L st hdr resp hauth with h1 | h1 <;> simp [h1] at h
  rw [hauth] at h
  simp only at h ⊢
  split at h
  · simp [Response.invalid] at h
  rename_i hval
  rw [if_neg hval]
  have herr : VendorRoutes.updatePasswordErrors L b = [] := by simpa using hval
  have herr2 := herr
  unfold VendorRoutes.updatePasswordErrors at herr2
  simp only [List.append_eq_nil] at herr2
  obtain ⟨email, he, hvalid⟩ := (required_eq_nil _ _ _).1 herr2.1.1
  obtain ⟨current, hc, hcne⟩ := (required_eq_nil _ _ _).1 herr2.1.2
  obtain ⟨new, hn, hnlen⟩ := (required_eq_nil _ _ _).1 herr2.2
  unfold VendorController.updatePassword at h ⊢
  rw [if_neg hval] at h
  rw [if_neg hval]
  split at h
  · simp [Response.msg] at h
  rename_i hmail
  rw [if_neg hmail]
  have hre : rv.email = email := by
    simp [he] at hmail
    exact hmail
  subst hre
  simp only [he, hc, hn, Option.getD_some] at h ⊢
  rcases hf : findOneByEmail L st.vendors rv.email with _ | doc
  · simp [hf, Response.msg] at h
  simp only [hf] at h ⊢
  split at h
  · simp [Response.msg] at h
  rename_i hcmp
  rw [if_neg hcmp]
  rcases hs : vendorSave L (some doc) { doc with password := new } with _ | saved
  · simp [hs, Response.caught] at h
  · simp only [hs]
    refine ⟨rv, doc, current, new, saved, rfl, rfl, hvalid, rfl, ?_, rfl, ?_,
      hf, ?_, hs, rfl⟩
    · simpa [VendorRoutes.notEmpty] using hcne
    · simpa using hnlen
    · simpa using hcmp

theorem vendorSave_newPassword (L : Lib) (u saved : Account) (new : String)
    (hs : vendorSave L (some u) { u with password := new } = some saved) :
    (new = u.password → saved.password = u.password) ∧
    (new ≠ u.password → saved.password = L.hash new) := by
  constructor
  · intro h
    exact vendorSave_password_kept L u _ saved hs h
  · intro h
    rw [(vendorSave_eq L _ _ saved hs).2]
    have hm : passwordModified (some u) { u with password := new } = true := by
      simp [passwordModified, h]
    rw [hm]
    exact (vendorPreSave_password L _ _).2

theorem login_after_updatePassword (L : Lib)
    (hrefl : ∀ p, L.compare p (L.hash p) = true)
    (hinj : ∀ p q, p.utf8ByteSize ≤ 72 → q.utf8ByteSize ≤ 72 →
      L.compare p (L.hash q) = true → p = q)
    (env : Env) (st : Store) (hdr : Option String) (b : AuthBody)
    (hok : (VendorRoutes.handle L env st hdr (VendorRequest.updatePassword b)).2.status = 200)
    (hemails : (st.vendors.map (fun d => d.email)).Nodup)
    (hnorm : ∀ d ∈ st.vendors, emailSetter L d.email = d.email) :
    ∃ email current new old v, b.email = some email ∧ b.currentPassword = some current ∧
      b.newPassword = some new ∧
      findOneByEmail L st.vendors email = some old ∧
      findOneByEmail L
        (VendorRoutes.handle L env st hdr (VendorRequest.updatePassword b)).1.vendors email
        = some v ∧
      (new = old.password → v.password = old.password) ∧
      (new ≠ old.password →
        v.password = L.hash new ∧
        ∀ (env2 : Env) (hdr2 : Option String) (lb : AuthBody), lb.email = some email →
          (lb.password = some new →
            (VendorRoutes.handle L env2
              (VendorRoutes.handle L env st hdr (VendorRequest.updatePassword b)).1 hdr2
              (VendorRequest.login lb)).2.token.isSome = true) ∧
          (lb.password = some current → current ≠ new →
            current.utf8ByteSize ≤ 72 → new.utf8ByteSize ≤ 72 →
            VendorRoutes.handle L env2
                (VendorRoutes.handle L env st hdr (VendorRequest.updatePassword b)).1 hdr2
                (VendorRequest.login lb)
              = ((VendorRoutes.handle L env st hdr (VendorRequest.updatePassword b)).1,
                  Response.msg 400 "Incorrect password"))) := by
  obtain ⟨rv, doc, current, new, saved, hauth, he, hvalid, hc, hcne, hn, hnlen, hf, _, hs,
    hst⟩ := updatePassword_vendor_success L env st hdr b hok
  obtain ⟨_, _, id, v, _, _, _, hfind, hver, hrv⟩ := (vendorAuth_ok_iff L st hdr rv).1 hauth
  have hv : v ∈ st.vendors := List.mem_of_find?_eq_some hfind
  obtain ⟨hfe, _⟩ := find_email_unique L st.vendors v hv hemails (hnorm v hv)
  have hemail : rv.email = v.email := by rw [hrv]
  have hdoc : doc = v := by
    rw [hemail, hfe] at hf
    exact (Option.some.inj hf).symm
  have hsaved := vendorSave_keeps L _ _ saved hs
  have hpw := vendorSave_newPassword L doc saved new hs
  have hfind2 : findOneByEmail L
      (VendorRoutes.handle L env st hdr (VendorRequest.updatePassword b)).1.vendors rv.email
      = some saved := by
    rw [hst]
    exact findOneByEmail_replaceById L st.vendors rv.email doc _ hf hsaved.1 hsaved.2.2
  have hnne : new ≠ "" := by
    intro h0
    rw [h0] at hnlen
    simp at hnlen
  refine ⟨rv.email, current, new, doc, saved, he, hc, hn, hf, hfind2, hpw.1, ?_⟩
  intro hmod
  refine ⟨hpw.2 hmod, ?_⟩
  intro env2 hdr2 lb hle
  constructor
  · intro hlp
    rw [login_vendor_token]
    refine ⟨rv.email, new, _, hle, hlp, hvalid, hnne, hfind2, ?_, ?_⟩
    · rw [hpw.2 hmod]
      exact hrefl new
    · rw [hsaved.2.1]
      show doc.isVerified = true
      rw [hdoc]
      exact hver
  · intro hlp hdiff hc72 hn72
    refine login_vendor_wrong_password L env2 _ hdr2 lb rv.email current _ hle hlp hvalid hcne
      hfind2 ?_
    rw [hpw.2 hmod]
    rcases hcmp : L.compare current (L.hash new) with _ | _
    · rfl
    · exact absurd (hinj _ _ hc72 hn72 hcmp) hdiff

theorem demoLib_hash_ne (p : String) : demoLib.hash p ≠ p := by
  intro h
  have h2 := congrArg String.length h
  simp only [demoLib, String.length_append] at h2
  have h3 : "$2b$".length = 4 := by decide
  omega

/-- C15, as amended: in the vendor flow a `register` answered 201 stores the hash of
the submitted password, which is not the plaintext; a successful
`updatePassword(current, new)` stores the hash of `new` when `new` is not the stored
value itself, and leaves the stored value as it is when it is (the `save` hook hashes
only a modified password); every other request leaves the stored password of every
vendor record as it was. After an `updatePassword` with `new` different from the stored
value a login with `new` is given a token, and a login with `current`, when the two
differ and are at most 72 bytes long, is refused with 400 `Incorrect password`.
`compare p (hash p)` holds, `compare p (hash q)` holds only for `p = q` among inputs of
at most 72 bytes, and the hash differs from its input; vendor emails are unique and
stored in normal form. -/
theorem vendor_password_is_stored_hashed (L : Lib)
    (hrefl : ∀ p, L.compare p (L.hash p) = true)
    (hinj : ∀ p q, p.utf8ByteSize ≤ 72 → q.utf8ByteSize ≤ 72 →
      L.compare p (L.hash q) = true → p = q)
    (hh : ∀ p, L.hash p ≠ p)
    (env : Env) (st : Store) (hdr : Option String) (b : AuthBody) :
    ((VendorRoutes.handle L env st hdr (VendorRequest.register b)).2.status = 201 →
      ∃ email p v, b.email = some email ∧ b.password = some p ∧
        findOneByEmail L
          (VendorRoutes.handle L env st hdr (VendorRequest.register b)).1.vendors email
          = some v ∧
        v.password = L.hash p ∧ v.password ≠ p) ∧
    ((VendorRoutes.handle L env st hdr (VendorRequest.updatePassword b)).2.status = 200 →
      (st.vendors.map (fun d => d.email)).Nodup →
      (∀ d ∈ st.vendors, emailSetter L d.email = d.email) →
      ∃ email current new old v, b.email = some email ∧ b.currentPassword = some current ∧
        b.newPassword = some new ∧
        findOneByEmail L st.vendors email = some old ∧
        findOneByEmail L
          (VendorRoutes.handle L env st hdr (VendorRequest.updatePassword b)).1.vendors email
          = some v ∧
        (new = old.password → v.password = old.password) ∧
        (new ≠ old.password →
          v.password = L.hash new ∧ v.password ≠ new ∧
          ∀ (env2 : Env) (hdr2 : Option String) (lb : AuthBody), lb.email = some email →
            (lb.password = some new →
              (VendorRoutes.handle L env2
                (VendorRoutes.handle L env st hdr (VendorRequest.updatePassword b)).1 hdr2
                (VendorRequest.login lb)).2.token.isSome = true) ∧
            (lb.password = some current → current ≠ new →
              current.utf8ByteSize ≤ 72 → new.utf8ByteSize ≤ 72 →
              VendorRoutes.handle L env2
                  (VendorRoutes.handle L env st hdr (VendorRequest.updatePassword b)).1 hdr2
                  (VendorRequest.login lb)
                = ((VendorRoutes.handle L env st hdr (VendorRequest.updatePassword b)).1,
                    Response.msg 400 "Incorrect password")))) ∧
    (∀ r : VendorRequest, (∀ body, r ≠ VendorRequest.updatePassword body) →
      KeepsPassword env.newId st.vendors (VendorRoutes.handle L env st hdr r).1.vendors) := by
  refine ⟨?_, ?_, fun r hr => keepsPassword_handle L env st hdr r hr⟩
  · intro h
    obtain ⟨email, p, v, he, hp, hf, hv⟩ := register_vendor_password L env st hdr b h
    exact ⟨email, p, v, he, hp, hf, hv, by rw [hv]; exact hh p⟩
  · intro hok hemails hnorm
    obtain ⟨email, current, new, old, v, he, hc, hn, hfo, hf, hkeep, hmod⟩ :=
      login_after_updatePassword L hrefl hinj env st hdr b hok hemails hnorm
    refine ⟨email, current, new, old, v, he, hc, hn, hfo, hf, hkeep, ?_⟩
    intro hne
    obtain ⟨hv, hlogin⟩ := hmod hne
    exact ⟨hv, by rw [hv]; exact hh new, hlogin⟩

theorem vendor_password_is_stored_hashed_witness :
    ∃ email p v, carolBody.email = some email ∧ carolBody.password = some p ∧
      findOneByEmail demoLib
        (VendorRoutes.handle demoLib (envAt 5) demoStore none
          (VendorRequest.register carolBody)).1.vendors email
        = some v ∧
      v.password = demoLib.hash p ∧ v.password ≠ p :=
  (vendor_password_is_stored_hashed demoLib (fun p => (demoLib_compare p p).2 rfl)
    (fun p q _ _ h => (demoLib_compare p q).1 h) demoLib_hash_ne (envAt 5) demoStore none
    carolBody).1 (by decide)

/-- C15, as stated, fails. The vendor `alice` of `demoMarket` has the stored password
`$2b$secret1`, the hash of `secret1`. Her `updatePassword` with that stored string as
the new password is answered 200 and leaves the stored value as it is, so the stored
credential is the submitted plaintext, it is not the hash of the new password, and a
login with the new password is refused. With a hash that reads the first 72 bytes of
its input, as bcrypt does, after an `updatePassword` from one password of 73 characters
to another with the same first 72 the login with the old password is given a token. -/
theorem updatePassword_edge_cases :
    (findOneByEmail demoLib demoMarket.vendors "a@b.com").map (fun v => v.password)
      = some "$2b$secret1" ∧
    (VendorRoutes.handle demoLib (envAt 5) demoMarket (some "Bearer vx")
        (VendorRequest.updatePassword
          { emptyBody with email := some "a@b.com", currentPassword := some "secret1",
                           newPassword := some "$2b$secret1" })).2
      = Response.msg 200 "Password updated successfully." ∧
    (findOneByEmail demoLib
        (VendorRoutes.handle demoLib (envAt 5) demoMarket (some "Bearer vx")
          (VendorRequest.updatePassword
            { emptyBody with email := some "a@b.com", currentPassword := some "secret1",
                             newPassword := some "$2b$secret1" })).1.vendors
        "a@b.com").map (fun v => (v.password, v.password == demoLib.hash "$2b$secret1"))
      = some ("$2b$secret1", false) ∧
    (VendorRoutes.handle demoLib (envAt 9)
        (VendorRoutes.handle demoLib (envAt 5) demoMarket (some "Bearer vx")
          (VendorRequest.updatePassword
            { emptyBody with email := some "a@b.com", currentPassword := some "secret1",
                             newPassword := some "$2b$secret1" })).1 none
        (VendorRequest.login
          { emptyBody with email := some "a@b.com", password := some "$2b$secret1" })).2
      = Response.msg 400 "Incorrect password" ∧
    longPassword '1' ≠ longPassword '2' ∧
    (VendorRoutes.handle truncLib (envAt 5) longMarket (some "Bearer vx")
        (VendorRequest.updatePassword
          { emptyBody with email := some "a@b.com",
                           currentPassword := some (longPassword '1'),
                           newPassword := some (longPassword '2') })).2
      = Response.msg 200 "Password updated successfully." ∧
    (VendorRoutes.handle truncLib (envAt 9)
        (VendorRoutes.handle truncLib (envAt 5) longMarket (some "Bearer vx")
          (VendorRequest.updatePassword
            { emptyBody with email := some "a@b.com",
                             currentPassword := some (longPassword '1'),
                             newPassword := some (longPassword '2') })).1 none
        (VendorRequest.login
          { emptyBody with email := some "a@b.com",
                           password := some (longPassword '1') })).2.token.isSome
      = true :=
  ⟨by decide, by decide, by decide, by decide, by decide, by decide, by decide⟩

/-! ## Email uniqueness -/

theorem map_updateFirst {α β : Type} (g : α → β) (p : α → Bool) (f : α → α) (l : List α)
    (h : ∀ y ∈ l, p y = true → g (f y) = g y) : (updateFirst p f l).map g = l.map g := by
  induction l with
  | nil => rfl
  | cons d ds ih =>
    by_cases hd : p d = true
    · simp [updateFirst, hd, h d (by simp) hd]
    · simp [updateFirst, hd, ih (fun y hy => h y (by simp [hy]))]

theorem unique_updateFirst (l : List Account) (p : Account → Bool) (f : Account → Account)
    (hU : UniqueAccounts l) (hf : ∀ y, (f y)._id = y._id ∧ (f y).email = y.email) :
    UniqueAccounts (updateFirst p f l) := by
  unfold UniqueAccounts
  rw [map_updateFirst (fun d => d._id) p f l (fun y _ _ => (hf y).1),
    map_updateFirst (fun d => d.email) p f l (fun y _ _ => (hf y).2)]
  exact hU

theorem unique_replaceById (l : List Account) (u saved : Account) (hU : UniqueAccounts l)
    (hu : u ∈ l) (hid : saved._id = u._id) (hem : saved.email = u.email) :
    UniqueAccounts (replaceById l saved) := by
  have hsame : ∀ y ∈ l, (y._id == saved._id) = true → y = u := by
    intro y hy hp
    exact List.inj_on_of_nodup_map hU.1 hy hu (by simpa [hid] using hp)
  unfold UniqueAccounts replaceById
  rw [map_updateFirst (fun d => d._id) _ _ l (fun y hy hp => by rw [hsame y hy hp]; exact hid),
    map_updateFirst (fun d => d.email) _ _ l (fun y hy hp => by rw [hsame y hy hp]; exact hem)]
  exact hU

theorem unique_eraseP (l : List Account) (p : Account → Bool) (hU : UniqueAccounts l) :
    UniqueAccounts (l.eraseP p) :=
  ⟨List.Nodup.sublist (List.Sublist.map _ (List.eraseP_sublist l)) hU.1,
    List.Nodup.sublist (List.Sublist.map _ (List.eraseP_sublist l)) hU.2⟩

theorem unique_append (L : Lib) (l : List Account) (email : String) (new : Account)
    (hU : UniqueAccounts l) (hfresh : new._id ∉ l.map (fun d => d._id))
    (hf : findOneByEmail L l email = none) (hem : new.email = emailSetter L email) :
    UniqueAccounts (l ++ [new]) := by
  unfold findOneByEmail at hf
  rw [List.find?_eq_none] at hf
  constructor
  · rw [List.map_append, List.nodup_append]
    refine ⟨hU.1, by simp, ?_⟩
    intro a ha hb
    simp only [List.map_cons, List.map_nil, List.mem_singleton] at hb
    exact hfresh (hb ▸ ha)
  · rw [List.map_append, List.nodup_append]
    refine ⟨hU.2, by simp, ?_⟩
    intro a ha hb
    simp only [List.map_cons, List.map_nil, List.mem_singleton] at hb
    obtain ⟨d, hd, hde⟩ := List.mem_map.1 ha
    have := hf d hd
    simp only [beq_iff_eq] at this
    exact this (by rw [hde, hb, hem])

theorem unique_user_save (L : Lib) (l : List Account) (email : String)
    (u doc saved : Account) (hs : userSave L (some u) doc = some saved)
    (hU : UniqueAccounts l) (hf : findOneByEmail L l email = some u)
    (hid : doc._id = u._id) (hem : doc.email = u.email) :
    UniqueAccounts (replaceById l saved) :=
  unique_replaceById l u _ hU (findOneByEmail_mem L l email u hf)
    ((userSave_keeps L _ doc saved hs).1.trans hid)
    ((userSave_keeps L _ doc saved hs).2.2.trans hem)

theorem unique_vendor_save (L : Lib) (l : List Account) (email : String)
    (u doc saved : Account) (hs : vendorSave L (some u) doc = some saved)
    (hU : UniqueAccounts l) (hf : findOneByEmail L l email = some u)
    (hid : doc._id = u._id) (hem : doc.email = u.email) :
    UniqueAccounts (replaceById l saved) :=
  unique_replaceById l u _ hU (findOneByEmail_mem L l email u hf)
    ((vendorSave_keeps L _ doc saved hs).1.trans hid)
    ((vendorSave_keeps L _ doc saved hs).2.2.trans hem)

theorem unique_user_register (L : Lib) (l : List Account) (email : String)
    (doc saved : Account) (hs : userSave L none doc = some saved)
    (hU : UniqueAccounts l) (hfresh : doc._id ∉ l.map (fun d => d._id))
    (hf : findOneByEmail L l email = none) (hem : doc.email = emailSetter L email) :
    UniqueAccounts (l ++ [saved]) :=
  unique_append L l email _ hU
    (by rw [(userSave_keeps L _ doc saved hs).1]; exact hfresh) hf
    ((userSave_keeps L _ doc saved hs).2.2.trans hem)

theorem unique_vendor_register (L : Lib) (l : List Account) (email : String)
    (doc saved : Account) (hs : vendorSave L none doc = some saved)
    (hU : UniqueAccounts l) (hfresh : doc._id ∉ l.map (fun d => d._id))
    (hf : findOneByEmail L l email = none) (hem : doc.email = emailSetter L email) :
    UniqueAccounts (l ++ [saved]) :=
  unique_append L l email _ hU
    (by rw [(vendorSave_keeps L _ doc saved hs).1]; exact hfresh) hf
    ((vendorSave_keeps L _ doc saved hs).2.2.trans hem)

theorem unique_user_handle (L : Lib) (env : Env) (st : Store) (hdr : Option String)
    (r : AuthRequest) (hU : UniqueAccounts st.users)
    (hfresh : env.newId ∉ st.users.map (fun d => d._id)) :
    UniqueAccounts (AuthRoutes.handle L env st hdr r).1.users := by
  cases r <;> simp only [AuthRoutes.handle, AuthRoutes.withUser]
  all_goals
    simp only [AuthController.register, AuthController.verifyOTP, AuthController.resendOTP,
      AuthController.login, AuthController.logout, AuthController.updateUser,
      AuthController.updateOne, AuthController.updatePassword,
      AuthController.deleteAccount, deleteOneByEmail, AuthController.dashboard,
      AuthController.adminStats]
    repeat' split
    all_goals first
      | exact hU
      | exact unique_updateFirst _ _ _ hU (fun y => ⟨rfl, rfl⟩)
      | exact unique_eraseP _ _ hU
      | (apply unique_user_register
         · assumption
         · exact hU
         · exact hfresh
         · assumption
         · rfl)
      | (apply unique_user_save
         · assumption
         · exact hU
         · assumption
         · rfl
         · rfl)

theorem unique_vendor_handle (L : Lib) (env : Env) (st : Store) (hdr : Option String)
    (r : VendorRequest) (hU : UniqueAccounts st.vendors)
    (hfresh : env.newId ∉ st.vendors.map (fun d => d._id)) :
    UniqueAccounts (VendorRoutes.handle L env st hdr r).1.vendors := by
  cases r <;> simp only [VendorRoutes.handle, VendorRoutes.withVendor, VendorRoutes.validate]
  all_goals
    simp only [VendorController.register, VendorController.verifyOTP,
      VendorController.resendOTP, VendorController.updateVendor,
      VendorController.updateOne, VendorController.updatePassword,
      VendorController.deleteAccount, deleteOneByEmail,
      VendorController.login, VendorController.logout, VendorController.dashboard,
      VendorController.addRestaurant, VendorController.getRestaurant,
      VendorController.updateRestaurant, VendorController.deleteRestaurant,
      VendorController.addItem, VendorController.getItems, VendorController.updateItem,
      VendorController.deleteItem, VendorController.searchItems,
      VendorController.addBreakfastPackage, VendorController.getBreakfastPackages,
      VendorController.updateBreakfastPackage, VendorController.writePackageUpdate,
      VendorController.deleteBreakfastPackage]
    repeat' split
    all_goals first
      | exact hU
      | exact unique_updateFirst _ _ _ hU (fun y => ⟨rfl, rfl⟩)
      | exact unique_eraseP _ _ hU
      | (apply unique_vendor_register
         · assumption
         · exact hU
         · exact hfresh
         · assumption
         · rfl)
      | (apply unique_vendor_save
         · assumption
         · exact hU
         · assumption
         · rfl
         · rfl)

theorem auth_handle_frame (L : Lib) (env : Env) (st : Store) (hdr : Option String)
    (r : AuthRequest) :
    (AuthRoutes.handle L env st hdr r).1.vendors = st.vendors ∧
    (AuthRoutes.handle L env st hdr r).1.restaurants = st.restaurants ∧
    (AuthRoutes.handle L env st hdr r).1.items = st.items ∧
    (AuthRoutes.handle L env st hdr r).1.packages = st.packages := by
  cases r <;> simp only [AuthRoutes.handle, AuthRoutes.withUser]
  all_goals
    simp only [AuthController.register, AuthController.verifyOTP, AuthController.resendOTP,
      AuthController.login, AuthController.logout, AuthController.updateUser,
      AuthController.updatePassword, AuthController.deleteAccount,
      AuthController.dashboard, AuthController.adminStats]
    repeat' split
    all_goals exact ⟨rfl, rfl, rfl, rfl⟩

theorem vendor_handle_users (L : Lib) (env : Env) (st : Store) (hdr : Option String)
    (r : VendorRequest) : (VendorRoutes.handle L env st hdr r).1.users = st.users := by
  cases r <;> simp only [VendorRoutes.handle, VendorRoutes.withVendor, VendorRoutes.validate]
  all_goals
    simp only [VendorController.register, VendorController.verifyOTP,
      VendorController.resendOTP, VendorController.updateVendor,
      VendorController.updatePassword, VendorController.deleteAccount,
      VendorController.login, VendorController.logout, VendorController.dashboard,
      VendorController.addRestaurant, VendorController.getRestaurant,
      VendorController.updateRestaurant, VendorController.deleteRestaurant,
      VendorController.addItem, VendorController.getItems, VendorController.updateItem,
      VendorController.deleteItem, VendorController.searchItems,
      VendorController.addBreakfastPackage, VendorController.getBreakfastPackages,
      VendorController.updateBreakfastPackage, VendorController.writePackageUpdate,
      VendorController.deleteBreakfastPackage]
    repeat' split
    all_goals rfl

theorem unique_server_step (L : Lib) (env : Env) (st : Store) (hdr : Option String)
    (r : Request) (hU : UniqueAccounts st.users ∧ UniqueAccounts st.vendors)
    (hfresh : st.fresh env.newId) :
    UniqueAccounts (Server.handle L env st hdr r).1.users ∧
    UniqueAccounts (Server.handle L env st hdr r).1.vendors := by
  cases r with
  | auth r =>
    simp only [Server.handle]
    rw [(auth_handle_frame L env st hdr r).1]
    exact ⟨unique_user_handle L env st hdr r hU.1 hfresh.1, hU.2⟩
  | vendor r =>
    simp only [Server.handle]
    rw [vendor_handle_users L env st hdr r]
    exact ⟨hU.1, unique_vendor_handle L env st hdr r hU.2 hfresh.2.1⟩

theorem unique_server_run (L : Lib) (steps : List Step) :
    ∀ st : Store, UniqueAccounts st.users ∧ UniqueAccounts st.vendors →
      Server.FreshRun L st steps →
      UniqueAccounts (Server.run L st steps).users ∧
      UniqueAccounts (Server.run L st steps).vendors := by
  induction steps with
  | nil => intro st hU _; exact hU
  | cons s rest ih =>
    intro st hU hfresh
    simp only [Server.run]
    exact ih _ (unique_server_step L s.env st s.authHeader s.request hU hfresh.1) hfresh.2

theorem register_user_existing (L : Lib) (env env2 : Env) (st : Store) (b : AuthBody)
    (email : String) (u : Account) (hbe : b.email = some email)
    (hf : findOneByEmail L st.users email = some u) :
    (AuthController.register L env st b).1 = st ∧
    (AuthController.register L env st b).2.status = 400 ∧
    AuthController.register L env st b = AuthController.register L env2 st b ∧
    (AuthController.registerInputOk b = true →
      AuthController.register L env st b = (st, Response.msg 400 "User already exists")) := by
  unfold AuthController.register AuthController.registerInputOk
  simp only [hbe, Option.getD_some, hf]
  refine ⟨?_, ?_, ?_, ?_⟩
  · repeat' split
    all_goals rfl
  · repeat' split
    all_goals rfl
  · trivial
  · intro h
    simp only [Bool.and_eq_true, Bool.not_eq_true'] at h
    obtain ⟨⟨h1, h2⟩, h3⟩ := h
    have h2' : '@' ∈ email.data := by simpa using h2
    have h3' : falsy b.role = false → b.role.getD "" ∈ userRoles := by simpa using h3
    rw [if_neg (by simp [h1]), if_neg (by simp [h2']), if_neg (by simpa using h3')]

theorem register_vendor_existing (L : Lib) (env env2 : Env) (st : Store)
    (hdr : Option String) (b : AuthBody) (email : String) (v : Account)
    (hbe : b.email = some email) (hf : findOneByEmail L st.vendors email = some v) :
    (VendorRoutes.handle L env st hdr (VendorRequest.register b)).1 = st ∧
    (VendorRoutes.handle L env st hdr (VendorRequest.register b)).2.status = 400 ∧
    VendorRoutes.handle L env st hdr (VendorRequest.register b)
      = VendorRoutes.handle L env2 st hdr (VendorRequest.register b) ∧
    (VendorRoutes.registerErrors L b = [] →
      VendorRoutes.handle L env st hdr (VendorRequest.register b)
        = (st, Response.msg 400 "Vendor already exists")) := by
  simp only [VendorRoutes.handle, VendorRoutes.validate, VendorController.register, hbe,
    Option.getD_some, hf]
  refine ⟨?_, ?_, ?_, ?_⟩
  · repeat' split
    all_goals rfl
  · repeat' split
    all_goals rfl
  · trivial
  · intro h
    simp [h]

/-- C20: `register` with an email for which the lookup finds a record leaves the store
as it is, answers 400 (`User already exists` / `Vendor already exists` when the request
passes the input checks) and does not depend on the clock, the random draw or the mail
outcome, so no code is drawn or sent; every request keeps the `_id`s and the emails of
both principal collections pairwise different when the new ObjectId is fresh, so they
are in every state a sequence of requests reaches from the empty store. -/
theorem register_keeps_emails_unique (L : Lib) (env env2 : Env) (st : Store)
    (hdr : Option String) :
    (∀ (b : AuthBody) (email : String) (u : Account), b.email = some email →
      findOneByEmail L st.users email = some u →
      (AuthController.register L env st b).1 = st ∧
      (AuthController.register L env st b).2.status = 400 ∧
      AuthController.register L env st b = AuthController.register L env2 st b ∧
      (AuthController.registerInputOk b = true →
        AuthController.register L env st b
          = (st, Response.msg 400 "User already exists"))) ∧
    (∀ (b : AuthBody) (email : String) (v : Account), b.email = some email →
      findOneByEmail L st.vendors email = some v →
      (VendorRoutes.handle L env st hdr (VendorRequest.register b)).1 = st ∧
      (VendorRoutes.handle L env st hdr (VendorRequest.register b)).2.status = 400 ∧
      VendorRoutes.handle L env st hdr (VendorRequest.register b)
        = VendorRoutes.handle L env2 st hdr (VendorRequest.register b) ∧
      (VendorRoutes.registerErrors L b = [] →
        VendorRoutes.handle L env st hdr (VendorRequest.register b)
          = (st, Response.msg 400 "Vendor already exists"))) ∧
    (∀ r : Request, UniqueAccounts st.users ∧ UniqueAccounts st.vendors →
      st.fresh env.newId →
      UniqueAccounts (Server.handle L env st hdr r).1.users ∧
      UniqueAccounts (Server.handle L env st hdr r).1.vendors) ∧
    (∀ steps : List Step, Server.FreshRun L emptyStore steps →
      UniqueAccounts (Server.run L emptyStore steps).users ∧
      UniqueAccounts (Server.run L emptyStore steps).vendors) :=
  ⟨fun b email u hbe hf => register_user_existing L env env2 st b email u hbe hf,
    fun b email v hbe hf => register_vendor_existing L env env2 st hdr b email v hbe hf,
    fun r hU hfresh => unique_server_step L env st hdr r hU hfresh,
    fun steps hfresh =>
      unique_server_run L steps emptyStore
        ⟨⟨List.nodup_nil, List.nodup_nil⟩, ⟨List.nodup_nil, List.nodup_nil⟩⟩ hfresh⟩

theorem register_keeps_emails_unique_witness :
    VendorRoutes.handle demoLib (envAt 5) demoStore none
        (VendorRequest.register { carolBody with email := some "a@b.com" })
      = (demoStore, Response.msg 400 "Vendor already exists") :=
  ((register_keeps_emails_unique demoLib (envAt 5) (envAt 9) demoStore none).2.1
    { carolBody with email := some "a@b.com" } "a@b.com" aliceVendor rfl
    (by decide)).2.2.2 (by decide)

/-! ## The package reference invariant -/

theorem mem_updateFirst_of_mem {α : Type} (p : α → Bool) (f : α → α) (l : List α) (x : α)
    (h : x ∈ l) : x ∈ updateFirst p f l ∨ f x ∈ updateFirst p f l := by
  induction l with
  | nil => simp at h
  | cons d ds ih =>
    by_cases hp : p d = true
    · rcases List.mem_cons.1 h with rfl | h1
      · exact Or.inr (by simp [updateFirst, hp])
      · exact Or.inl (by simp [updateFirst, hp, h1])
    · rcases List.mem_cons.1 h with rfl | h1
      · exact Or.inl (by simp [updateFirst, hp])
      · rcases ih h1 with h2 | h2
        · exact Or.inl (by simp [updateFirst, hp, h2])
        · exact Or.inr (by simp [updateFirst, hp, h2])

theorem inv_addItem (st : Store) (new : Item) (h : PackageInv st)
    (hfresh : new._id ∉ st.items.map (fun i => i._id)) :
    PackageInv { st with items := st.items ++ [new] } := by
  constructor
  · intro p hp id hid
    obtain ⟨i, hi, h1, h2⟩ := h.1 p hp id hid
    exact ⟨i, List.mem_append.2 (Or.inl hi), h1, h2⟩
  · show ((st.items ++ [new]).map (fun i => i._id)).Nodup
    rw [List.map_append, List.nodup_append]
    refine ⟨h.2, by simp, ?_⟩
    intro a ha hb
    simp only [List.map_cons, List.map_nil, List.mem_singleton] at hb
    exact hfresh (hb ▸ ha)

theorem inv_updateItem (st : Store) (q : Item → Bool) (f : Item → Item) (h : PackageInv st)
    (hf : ∀ y, (f y)._id = y._id ∧ (f y).vendorId = y.vendorId) :
    PackageInv { st with items := updateFirst q f st.items } := by
  constructor
  · intro p hp id hid
    obtain ⟨i, hi, h1, h2⟩ := h.1 p hp id hid
    rcases mem_updateFirst_of_mem q f st.items i hi with h3 | h3
    · exact ⟨i, h3, h1, h2⟩
    · exact ⟨f i, h3, (hf i).1.trans h1, (hf i).2.trans h2⟩
  · show ((updateFirst q f st.items).map (fun i => i._id)).Nodup
    rw [map_updateFirst (fun i => i._id) q f st.items (fun y _ _ => (hf y).1)]
    exact h.2

theorem inv_deleteItem (st : Store) (id a : ObjectId) (h : PackageInv st)
    (hno : ∀ p ∈ st.packages, id ∉ p.items) :
    PackageInv
      { st with items := st.items.eraseP (fun i => i._id == id && i.vendorId == a) } := by
  constructor
  · intro p hp n hn
    obtain ⟨i, hi, h1, h2⟩ := h.1 p hp n hn
    refine ⟨i, ?_, h1, h2⟩
    have hne : ¬ (fun i : Item => i._id == id && i.vendorId == a) i = true := by
      intro hq
      simp only [Bool.and_eq_true, beq_iff_eq] at hq
      exact hno p hp (by rw [← hq.1, h1]; exact hn)
    exact (@List.mem_eraseP_of_neg Item (fun i => i._id == id && i.vendorId == a) i
      st.items hne).2 hi
  · exact List.Nodup.sublist (List.Sublist.map _ (List.eraseP_sublist _)) h.2

theorem inv_addPackage (st : Store) (new : Package) (h : PackageInv st)
    (hres : ∀ n ∈ new.items, ∃ i ∈ st.items, i._id = n ∧ i.vendorId = new.vendorId) :
    PackageInv { st with packages := st.packages ++ [new] } := by
  refine ⟨?_, h.2⟩
  intro p hp n hn
  rcases List.mem_append.1 hp with h1 | h1
  · exact h.1 p h1 n hn
  · simp only [List.mem_singleton] at h1
    subst h1
    exact hres n hn

theorem inv_updatePackage (st : Store) (q : Package → Bool) (f : Package → Package)
    (h : PackageInv st)
    (hf : ∀ y ∈ st.packages, q y = true →
      ∀ n ∈ (f y).items, ∃ i ∈ st.items, i._id = n ∧ i.vendorId = (f y).vendorId) :
    PackageInv { st with packages := updateFirst q f st.packages } := by
  refine ⟨?_, h.2⟩
  intro p hp n hn
  rcases mem_updateFirst q f st.packages p hp with h1 | ⟨y, hy, hqy, rfl⟩
  · exact h.1 p h1 n hn
  · exact hf y hy hqy n hn

theorem inv_deletePackage (st : Store) (q : Package → Bool) (h : PackageInv st) :
    PackageInv { st with packages := st.packages.eraseP q } :=
  ⟨fun p hp n hn => h.1 p (List.mem_of_mem_eraseP hp) n hn, h.2⟩

theorem inv_deleteVendor (st : Store) (d : ObjectId) (rs : List Restaurant)
    (vs : List Account) (h : PackageInv st) :
    PackageInv { st with restaurants := rs,
                         items := st.items.filter (fun i => i.vendorId != d),
                         packages := st.packages.filter (fun p => p.vendorId != d),
                         vendors := vs } := by
  constructor
  · intro p hp n hn
    have hp2 : p ∈ st.packages.filter (fun p => p.vendorId != d) := hp
    simp only [List.mem_filter, bne_iff_ne, ne_eq] at hp2
    obtain ⟨i, hi, h1, h2⟩ := h.1 p hp2.1 n hn
    refine ⟨i, ?_, h1, h2⟩
    show i ∈ st.items.filter (fun i => i.vendorId != d)
    simp only [List.mem_filter, bne_iff_ne, ne_eq]
    exact ⟨hi, by rw [h2]; exact hp2.2⟩
  · exact List.Nodup.sublist (List.Sublist.map _ (List.filter_sublist _)) h.2

theorem owned_all_resolve (st : Store) (ids : List ObjectId) (a : ObjectId)
    (hnd : (st.items.map (fun i => i._id)).Nodup)
    (hlen : (VendorController.ownedItemsIn st ids a).length = ids.length) :
    ∀ n ∈ ids, ∃ i ∈ st.items, i._id = n ∧ i.vendorId = a := by
  intro n hn
  by_contra hcon
  have hbad : ∃ n ∈ ids, st.items.any (fun i => i._id == n && i.vendorId == a) = false := by
    refine ⟨n, hn, ?_⟩
    rw [Bool.eq_false_iff]
    intro hany
    simp only [List.any_eq_true, Bool.and_eq_true, beq_iff_eq] at hany
    exact hcon hany
  have := owned_length_lt st ids a hnd hbad
  omega


theorem inv_congr (st st2 : Store) (hi : st2.items = st.items)
    (hp : st2.packages = st.packages) (h : PackageInv st) : PackageInv st2 := by
  unfold PackageInv PackageRefsOk at *
  rw [hi, hp]
  exact h

theorem owned_resolve_of_cast (st : Store) (items : List IdArg) (ids : List ObjectId)
    (a : ObjectId) (hnd : (st.items.map (fun i => i._id)).Nodup)
    (hc : castIds items = some ids)
    (hlen : ¬ ((VendorController.ownedItemsIn st ids a).length != items.length) = true) :
    ∀ n ∈ ids, ∃ i ∈ st.items, i._id = n ∧ i.vendorId = a := by
  have hl : items.length = ids.length := by
    rw [castIds_eq_some items ids hc, List.length_map]
  apply owned_all_resolve st ids a hnd
  simpa [hl] using hlen

theorem inv_handler_addPackage (L : Lib) (env : Env) (st : Store) (e : List String)
    (v : ReqVendor) (b : PackageBody) (h : PackageInv st) :
    PackageInv (VendorController.addBreakfastPackage L env st e (some v) b).1 := by
  simp only [VendorController.addBreakfastPackage]
  repeat' split
  all_goals first
    | exact h
    | exact inv_addPackage st _ h
        (owned_resolve_of_cast st _ _ v.id h.2 (by assumption) (by assumption))

theorem inv_handler_updatePackage (L : Lib) (st : Store) (e : List String)
    (v : ReqVendor) (id : IdArg) (b : PackageBody) (h : PackageInv st) :
    PackageInv (VendorController.updateBreakfastPackage L st e (some v) id b).1 := by
  simp only [VendorController.updateBreakfastPackage, VendorController.writePackageUpdate]
  repeat' split
  all_goals first
    | exact h
    | (apply inv_updatePackage st _ _ h
       intro y hy _ n hn
       exact h.1 y hy n hn)
    | (apply inv_updatePackage st _ _ h
       intro y _ hq n hn
       have hv : y.vendorId = v.id := by
         simp only [Bool.and_eq_true, beq_iff_eq] at hq
         exact hq.2
       have hres := owned_resolve_of_cast st _ _ v.id h.2 (by assumption) (by assumption)
       obtain ⟨i, hi, h1, h2⟩ := hres n hn
       exact ⟨i, hi, h1, h2.trans hv.symm⟩)


theorem inv_vendor_handle (L : Lib) (env : Env) (st : Store) (hdr : Option String)
    (r : VendorRequest) (h : PackageInv st) (hfresh : st.fresh env.newId)
    (hk : KeepsReferencedItems st (Request.vendor r)) :
    PackageInv (VendorRoutes.handle L env st hdr r).1 := by
  cases r <;> simp only [VendorRoutes.handle, VendorRoutes.withVendor, VendorRoutes.validate]
  case addBreakfastPackage b =>
    repeat' split
    all_goals first
      | exact h
      | exact inv_handler_addPackage L env st _ _ b h
  case updateBreakfastPackage id b =>
    repeat' split
    all_goals first
      | exact h
      | exact inv_handler_updatePackage L st _ _ id b h
  case deleteItem id =>
    cases id with
    | malformed raw =>
      simp only [VendorController.deleteItem]
      repeat' split
      all_goals exact h
    | oid n =>
      simp only [VendorController.deleteItem]
      repeat' split
      all_goals first
        | exact h
        | exact inv_deleteItem st n _ h (hk n rfl)
  all_goals
    simp only [VendorController.register, VendorController.verifyOTP,
      VendorController.resendOTP, VendorController.updateVendor,
      VendorController.updatePassword, VendorController.deleteAccount,
      VendorController.login, VendorController.logout, VendorController.dashboard,
      VendorController.addRestaurant, VendorController.getRestaurant,
      VendorController.updateRestaurant, VendorController.deleteRestaurant,
      VendorController.addItem, VendorController.getItems, VendorController.updateItem,
      VendorController.searchItems, VendorController.getBreakfastPackages,
      VendorController.deleteBreakfastPackage]
    repeat' split
    all_goals first
      | exact h
      | exact inv_congr st _ rfl rfl h
      | exact inv_addItem st _ h hfresh.2.2.2.1
      | exact inv_updateItem st _ _ h (fun _ => ⟨rfl, rfl⟩)
      | exact inv_deletePackage st _ h
      | exact inv_deleteVendor st _ _ _ h

theorem inv_server_step (L : Lib) (env : Env) (st : Store) (hdr : Option String)
    (r : Request) (h : PackageInv st) (hfresh : st.fresh env.newId)
    (hk : KeepsReferencedItems st r) :
    PackageInv (Server.handle L env st hdr r).1 := by
  cases r with
  | auth r =>
    simp only [Server.handle]
    have hf := auth_handle_frame L env st hdr r
    exact inv_congr st _ hf.2.2.1 hf.2.2.2 h
  | vendor r =>
    simp only [Server.handle]
    exact inv_vendor_handle L env st hdr r h hfresh hk

theorem inv_server_run (L : Lib) (steps : List Step) :
    ∀ st : Store, PackageInv st → Server.FreshRun L st steps →
      Server.NoReferencedDelete L st steps → PackageInv (Server.run L st steps) := by
  induction steps with
  | nil => intro st h _ _; exact h
  | cons s rest ih =>
    intro st h hfresh hk
    simp only [Server.run]
    exact ih _ (inv_server_step L s.env st s.authHeader s.request h hfresh.1 hk.1)
      hfresh.2 hk.2

theorem inv_emptyStore : PackageInv emptyStore :=
  ⟨fun _ hp => absurd hp (List.not_mem_nil _), List.nodup_nil⟩


/-- C14, as amended: the package reference invariant holds in every state that a
sequence of requests reaches from the empty store, when every request is served with a
fresh ObjectId and none of them is a `deleteItem` on an item that a package stored at
that moment lists: every item id a stored package lists names a stored item that the
vendor of the package owns. -/
theorem package_references_resolve (L : Lib) (steps : List Step)
    (hfresh : Server.FreshRun L emptyStore steps)
    (hk : Server.NoReferencedDelete L emptyStore steps) :
    PackageRefsOk (Server.run L emptyStore steps) :=
  (inv_server_run L steps emptyStore inv_emptyStore hfresh hk).1

theorem package_references_resolve_witness :
    Server.FreshRun demoLib emptyStore (marketRun ++ [deleteItemStep 11]) ∧
    Server.NoReferencedDelete demoLib emptyStore (marketRun ++ [deleteItemStep 11]) ∧
    (Server.run demoLib emptyStore (marketRun ++ [deleteItemStep 11])).items.map
        (fun i => i._id) = [10] ∧
    PackageRefsOk (Server.run demoLib emptyStore (marketRun ++ [deleteItemStep 11])) := by
  have hf : Server.FreshRun demoLib emptyStore (marketRun ++ [deleteItemStep 11]) := by
    simp only [marketRun, deleteItemStep, List.cons_append, List.nil_append,
      Server.FreshRun, Store.fresh]
    and_intros <;> decide
  have hk : Server.NoReferencedDelete demoLib emptyStore
      (marketRun ++ [deleteItemStep 11]) := by
    simp only [marketRun, deleteItemStep, List.cons_append, List.nil_append,
      Server.NoReferencedDelete, KeepsReferencedItems, Request.vendor.injEq,
      VendorRequest.deleteItem.injEq, IdArg.oid.injEq, reduceCtorEq, false_implies,
      implies_true, true_and, and_true, forall_eq']
    decide
  exact ⟨hf, hk, by decide, package_references_resolve demoLib _ hf hk⟩

/-- C14: a state reached from the empty store in which a package lists an item that
does not exist. After `marketRun` the vendor 1 has the items 10 and 11 and the package
30 with the item list `[10]`; its `deleteItem` on item 10 is answered 200, removes the
item and leaves the package as it was. -/
theorem deleted_item_stays_referenced :
    Server.FreshRun demoLib emptyStore (marketRun ++ [deleteItemStep 10]) ∧
    (Server.run demoLib emptyStore marketRun).items.map (fun i => (i._id, i.vendorId))
      = [(10, 1), (11, 1)] ∧
    (Server.handle demoLib (deleteItemStep 10).env (Server.run demoLib emptyStore marketRun)
        (deleteItemStep 10).authHeader (deleteItemStep 10).request).2
      = Response.msg 200 "Item deleted successfully" ∧
    (Server.run demoLib emptyStore (marketRun ++ [deleteItemStep 10])).items.map
        (fun i => (i._id, i.vendorId)) = [(11, 1)] ∧
    (Server.run demoLib emptyStore (marketRun ++ [deleteItemStep 10])).packages.map
        (fun p => (p._id, p.vendorId, p.items)) = [(30, 1, [10])] ∧
    ¬ PackageRefsOk (Server.run demoLib emptyStore (marketRun ++ [deleteItemStep 10])) := by
  refine ⟨?_, by decide, by decide, by decide, by decide, ?_⟩
  · simp only [marketRun, deleteItemStep, List.cons_append, List.nil_append,
      Server.FreshRun, Store.fresh]
    and_intros <;> decide
  · unfold PackageRefsOk
    decide


/-! ## Email identity -/

/-- C21: the code at the failing input. The vendor `alice` of `demoMarket` is stored
with the email `a@b.com` and is the vendor of the token `vx`. A body email `A@B.com`
is that email after trimming and lower-casing, and `login` finds the account with it;
`updateVendor`, `updatePassword` and `deleteAccount` compare the body email with
`req.vendor.email` as it was sent and answer 401. -/
theorem body_email_is_compared_as_sent :
    emailSetter caseLib "A@B.com" = alice.email ∧
    VendorAuth.authenticateToken caseLib demoMarket (some "Bearer vx")
      = Except.ok { id := 1, email := "a@b.com", name := "Alice" } ∧
    (VendorRoutes.handle caseLib (envAt 5) demoMarket none
      (VendorRequest.login
        { emptyBody with email := some "A@B.com", password := some "secret1" })).2.status
      = 200 ∧
    VendorRoutes.handle caseLib (envAt 5) demoMarket (some "Bearer vx")
        (VendorRequest.updateVendor
          { emptyBody with email := some "A@B.com", password := some "secret1",
                           name := some "Alicia" })
      = (demoMarket, Response.msg 401 "Unauthorized: Invalid token or email") ∧
    VendorRoutes.handle caseLib (envAt 5) demoMarket (some "Bearer vx")
        (VendorRequest.updatePassword
          { emptyBody with email := some "A@B.com", currentPassword := some "secret1",
                           newPassword := some "secret9" })
      = (demoMarket, Response.msg 401 "Unauthorized: Invalid token or email") ∧
    VendorRoutes.handle caseLib (envAt 5) demoMarket (some "Bearer vx")
        (VendorRequest.deleteAccount
          { emptyBody with email := some "A@B.com", password := some "secret1" })
      = (demoMarket, Response.msg 401 "Unauthorized: Invalid token or email") :=
  ⟨by decide, rfl, by decide, by decide, by decide, by decide⟩


/-! ## One restaurant per vendor -/

theorem oneRestaurant_iff_nodup (st : Store) :
    OneRestaurantPerVendor st ↔ (st.restaurants.map (fun r => r.vendorId)).Nodup := by
  unfold OneRestaurantPerVendor
  rw [List.nodup_iff_count_le_one]
  constructor
  · intro h a
    have := h a
    rw [List.count_eq_countP, List.countP_map, List.countP_eq_length_filter]
    exact this
  · intro h a
    have := h a
    rw [List.count_eq_countP, List.countP_map, List.countP_eq_length_filter] at this
    exact this

theorem nodup_restaurant_append (l : List Restaurant) (new : Restaurant)
    (h : (l.map (fun r => r.vendorId)).Nodup)
    (hnone : l.find? (fun r => r.vendorId == new.vendorId) = none) :
    ((l ++ [new]).map (fun r => r.vendorId)).Nodup := by
  rw [List.map_append, List.nodup_append]
  refine ⟨h, by simp, ?_⟩
  intro a ha hb
  simp only [List.map_cons, List.map_nil, List.mem_singleton] at hb
  obtain ⟨r, hr, hra⟩ := List.mem_map.1 ha
  rw [List.find?_eq_none] at hnone
  exact hnone r hr (by simp [hra, hb])

theorem nodup_restaurant_update (L : Lib) (b : RestaurantBody) (q : Restaurant → Bool)
    (l : List Restaurant) (h : (l.map (fun r => r.vendorId)).Nodup) :
    ((updateFirst q (VendorController.applyRestaurantUpdate L b) l).map
      (fun r => r.vendorId)).Nodup := by
  rw [map_updateFirst (fun r : Restaurant => r.vendorId) q
    (VendorController.applyRestaurantUpdate L b) l (fun _ _ _ => rfl)]
  exact h

theorem nodup_restaurant_vendor_handle (L : Lib) (env : Env) (st : Store)
    (hdr : Option String) (r : VendorRequest)
    (h : (st.restaurants.map (fun r => r.vendorId)).Nodup) :
    ((VendorRoutes.handle L env st hdr r).1.restaurants.map (fun r => r.vendorId)).Nodup := by
  cases r <;> simp only [VendorRoutes.handle, VendorRoutes.withVendor, VendorRoutes.validate]
  all_goals
    simp only [VendorController.register, VendorController.verifyOTP,
      VendorController.resendOTP, VendorController.updateVendor,
      VendorController.updatePassword, VendorController.deleteAccount,
      VendorController.login, VendorController.logout, VendorController.dashboard,
      VendorController.addRestaurant, VendorController.getRestaurant,
      VendorController.updateRestaurant, VendorController.deleteRestaurant,
      VendorController.addItem, VendorController.getItems, VendorController.updateItem,
      VendorController.deleteItem, VendorController.searchItems,
      VendorController.addBreakfastPackage, VendorController.getBreakfastPackages,
      VendorController.updateBreakfastPackage, VendorController.writePackageUpdate,
      VendorController.deleteBreakfastPackage]
    repeat' split
    all_goals first
      | exact h
      | exact nodup_restaurant_append st.restaurants _ h (by assumption)
      | exact List.Nodup.sublist (List.Sublist.map _ (List.eraseP_sublist _)) h
      | exact nodup_restaurant_update L _ _ st.restaurants h

theorem oneRestaurant_server_step (L : Lib) (env : Env) (st : Store) (hdr : Option String)
    (r : Request) (h : OneRestaurantPerVendor st) :
    OneRestaurantPerVendor (Server.handle L env st hdr r).1 := by
  rw [oneRestaurant_iff_nodup] at h ⊢
  cases r with
  | auth r =>
    simp only [Server.handle]
    rw [(auth_handle_frame L env st hdr r).2.1]
    exact h
  | vendor r =>
    simp only [Server.handle]
    exact nodup_restaurant_vendor_handle L env st hdr r h

theorem oneRestaurant_server_run (L : Lib) (steps : List Step) :
    ∀ st : Store, OneRestaurantPerVendor st →
      OneRestaurantPerVendor (Server.run L st steps) := by
  induction steps with
  | nil => intro st h; exact h
  | cons s rest ih =>
    intro st h
    simp only [Server.run]
    exact ih _ (oneRestaurant_server_step L s.env st s.authHeader s.request h)


theorem addRestaurant_existing (L : Lib) (env : Env) (st : Store) (hdr : Option String)
    (b : RestaurantBody) (rv : ReqVendor) (r : Restaurant)
    (hauth : VendorAuth.authenticateToken L st hdr = Except.ok rv)
    (hr : r ∈ st.restaurants) (hown : r.vendorId = rv.id) :
    (VendorRoutes.handle L env st hdr (VendorRequest.addRestaurant b)).1 = st ∧
    (VendorRoutes.handle L env st hdr (VendorRequest.addRestaurant b)).2.status = 400 ∧
    (VendorRoutes.addRestaurantErrors b = [] →
      VendorRoutes.handle L env st hdr (VendorRequest.addRestaurant b)
        = (st, Response.msg 400 "Restaurant already exists for this vendor")) := by
  simp only [VendorRoutes.handle, VendorRoutes.withVendor, hauth, VendorRoutes.validate,
    VendorController.addRestaurant]
  rcases hf : st.restaurants.find? (fun r => r.vendorId == rv.id) with _ | old
  · rw [List.find?_eq_none] at hf
    exact absurd (by simp [hown]) (hf r hr)
  · by_cases he : VendorRoutes.addRestaurantErrors b = []
    · simp [he, hf, Response.msg]
    · simp [he, Response.invalid]

theorem addRestaurant_owner (L : Lib) (env : Env) (st : Store) (hdr : Option String)
    (b : RestaurantBody) (rv : ReqVendor)
    (hauth : VendorAuth.authenticateToken L st hdr = Except.ok rv) :
    ∀ r ∈ (VendorRoutes.handle L env st hdr (VendorRequest.addRestaurant b)).1.restaurants,
      r ∈ st.restaurants ∨ (r._id = env.newId ∧ r.vendorId = rv.id) := by
  simp only [VendorRoutes.handle, VendorRoutes.withVendor, hauth, VendorRoutes.validate,
    VendorController.addRestaurant]
  repeat' split
  all_goals first
    | exact fun r hr => Or.inl hr
    | (intro r hr
       rcases List.mem_append.1 hr with h1 | h1
       · exact Or.inl h1
       · simp only [List.mem_singleton] at h1
         subst h1
         exact Or.inr ⟨rfl, rfl⟩)

theorem oneRestaurant_emptyStore : OneRestaurantPerVendor emptyStore :=
  fun _ => Nat.zero_le 1

/-- C22: `addRestaurant` by a vendor that has a restaurant answers 400 (`Restaurant
already exists for this vendor` once the validators pass) and returns the store as it
was; a restaurant that `addRestaurant` adds to the store carries the new ObjectId and
the id of the acting vendor as its `vendorId`; every request keeps "at most one
restaurant per vendor", so it holds in every state a sequence of requests reaches from
the empty store. -/
theorem vendor_has_at_most_one_restaurant (L : Lib) (env : Env) (st : Store)
    (hdr : Option String) (b : RestaurantBody) :
    (∀ (rv : ReqVendor) (r : Restaurant),
      VendorAuth.authenticateToken L st hdr = Except.ok rv → r ∈ st.restaurants →
      r.vendorId = rv.id →
      (VendorRoutes.handle L env st hdr (VendorRequest.addRestaurant b)).1 = st ∧
      (VendorRoutes.handle L env st hdr (VendorRequest.addRestaurant b)).2.status = 400 ∧
      (VendorRoutes.addRestaurantErrors b = [] →
        VendorRoutes.handle L env st hdr (VendorRequest.addRestaurant b)
          = (st, Response.msg 400 "Restaurant already exists for this vendor"))) ∧
    (∀ rv : ReqVendor, VendorAuth.authenticateToken L st hdr = Except.ok rv →
      ∀ r ∈ (VendorRoutes.handle L env st hdr (VendorRequest.addRestaurant b)).1.restaurants,
        r ∈ st.restaurants ∨ (r._id = env.newId ∧ r.vendorId = rv.id)) ∧
    (∀ r : Request, OneRestaurantPerVendor st →
      OneRestaurantPerVendor (Server.handle L env st hdr r).1) ∧
    (∀ steps : List Step, OneRestaurantPerVendor (Server.run L emptyStore steps)) :=
  ⟨fun rv r hauth hr hown => addRestaurant_existing L env st hdr b rv r hauth hr hown,
    fun rv hauth => addRestaurant_owner L env st hdr b rv hauth,
    fun r h => oneRestaurant_server_step L env st hdr r h,
    fun steps => oneRestaurant_server_run L steps emptyStore oneRestaurant_emptyStore⟩

theorem vendor_has_at_most_one_restaurant_witness :
    VendorRoutes.handle demoLib (envAt 5) demoMarket (some "Bearer vx")
        (VendorRequest.addRestaurant
          { name := some "Second Cafe", address := some "5 Main St",
            phone := some "9876543214", operatingHours := some "7-19" })
      = (demoMarket, Response.msg 400 "Restaurant already exists for this vendor") :=
  ((vendor_has_at_most_one_restaurant demoLib (envAt 5) demoMarket (some "Bearer vx")
      { name := some "Second Cafe", address := some "5 Main St",
        phone := some "9876543214", operatingHours := some "7-19" }).1
    { id := 1, email := "a@b.com", name := "Alice" }
    { _id := 20, vendorId := 1, name := "Alice Cafe", address := "1 Main St",
      phone := "9876543210", operatingHours := "8-20" }
    rfl (by decide) rfl).2.2 (by decide)


/-! ## Mail delivery -/

theorem mail_outcome_vendor (L : Lib) (env : Env) (st : Store) (hdr : Option String)
    (r : VendorRequest) :
    (VendorRoutes.handle L { env with mailOk := false } st hdr r).1
      = (VendorRoutes.handle L { env with mailOk := true } st hdr r).1 ∧
    (r.sendsMail = true →
      (VendorRoutes.handle L { env with mailOk := true } st hdr r).2.status < 400 →
      (VendorRoutes.handle L { env with mailOk := false } st hdr r).2.status = 500 ∧
      (VendorRoutes.handle L { env with mailOk := false } st hdr r).2.error = true) ∧
    (r.sendsMail = false ∨
        400 ≤ (VendorRoutes.handle L { env with mailOk := true } st hdr r).2.status →
      (VendorRoutes.handle L { env with mailOk := false } st hdr r).2
        = (VendorRoutes.handle L { env with mailOk := true } st hdr r).2) := by
  cases r <;> simp only [VendorRoutes.handle, VendorRoutes.withVendor, VendorRoutes.validate]
  all_goals
    simp only [VendorController.register, VendorController.verifyOTP,
      VendorController.resendOTP, VendorController.updateVendor,
      VendorController.updatePassword, VendorController.deleteAccount,
      VendorController.login, VendorController.logout, VendorController.dashboard,
      VendorController.addRestaurant, VendorController.getRestaurant,
      VendorController.updateRestaurant, VendorController.deleteRestaurant,
      VendorController.addItem, VendorController.getItems, VendorController.updateItem,
      VendorController.deleteItem, VendorController.searchItems,
      VendorController.addBreakfastPackage, VendorController.getBreakfastPackages,
      VendorController.updateBreakfastPackage, VendorController.writePackageUpdate,
      VendorController.deleteBreakfastPackage]
    repeat' split
    all_goals first
      | (simp [VendorRequest.sendsMail, afterMail, Response.msg, Response.invalid,
          Response.caught, Response.withPayload]
         done)
      | (simp [VendorRequest.sendsMail, afterMail, Response.msg, Response.invalid,
          Response.caught, Response.withPayload]
         intro hlt
         have h4 := vendorAuth_error_status L st hdr _ (by assumption)
         omega)

theorem userAuth_error_status (L : Lib) (st : Store) (hdr : Option String)
    (resp : Response) (h : AuthMiddleware.authenticateToken L st hdr = Except.error resp) :
    resp.status = 401 ∨ resp.status = 403 := by
  unfold AuthMiddleware.authenticateToken at h
  repeat' split at h
  all_goals first
    | (injection h with h; subst h; simp [Response.msg, Response.caught])
    | simp at h

theorem mail_outcome_auth (L : Lib) (env : Env) (st : Store) (hdr : Option String)
    (r : AuthRequest) :
    (AuthRoutes.handle L { env with mailOk := false } st hdr r).1
      = (AuthRoutes.handle L { env with mailOk := true } st hdr r).1 ∧
    (r.sendsMail = true →
      (AuthRoutes.handle L { env with mailOk := true } st hdr r).2.status < 400 →
      (AuthRoutes.handle L { env with mailOk := false } st hdr r).2.status = 500 ∧
      (AuthRoutes.handle L { env with mailOk := false } st hdr r).2.error = true) ∧
    (r.sendsMail = false ∨
        400 ≤ (AuthRoutes.handle L { env with mailOk := true } st hdr r).2.status →
      (AuthRoutes.handle L { env with mailOk := false } st hdr r).2
        = (AuthRoutes.handle L { env with mailOk := true } st hdr r).2) := by
  cases r <;> simp only [AuthRoutes.handle, AuthRoutes.withUser]
  all_goals
    simp only [AuthController.register, AuthController.verifyOTP, AuthController.resendOTP,
      AuthController.login, AuthController.logout, AuthController.updateUser,
      AuthController.updatePassword, AuthController.deleteAccount,
      AuthController.dashboard, AuthController.adminStats]
    repeat' split
    all_goals first
      | (simp [AuthRequest.sendsMail, afterMail, Response.msg, Response.invalid,
          Response.caught, Response.withPayload]
         done)
      | (simp [AuthRequest.sendsMail, afterMail, Response.msg, Response.invalid,
          Response.caught, Response.withPayload]
         intro hlt
         have h4 := userAuth_error_status L st hdr _ (by assumption)
         omega)


/-- C23, as amended: for every request, the store after it is the same whether the
mail is delivered or the dispatcher fails, so a write made before the mail is kept;
when the handler sends a mail after its write (`register`, `resendOTP`, the profile
update, `updatePassword`, `deleteAccount`, in both flows) and delivery would give a
success response, the failure is answered 500 with the `error` field of the handler's
`catch` block; in every other case the response is the same. -/
theorem mail_failure_keeps_the_write (L : Lib) (env : Env) (st : Store)
    (hdr : Option String) (r : Request) :
    (Server.handle L { env with mailOk := false } st hdr r).1
      = (Server.handle L { env with mailOk := true } st hdr r).1 ∧
    (r.sendsMail = true →
      (Server.handle L { env with mailOk := true } st hdr r).2.status < 400 →
      (Server.handle L { env with mailOk := false } st hdr r).2.status = 500 ∧
      (Server.handle L { env with mailOk := false } st hdr r).2.error = true) ∧
    (r.sendsMail = false ∨
        400 ≤ (Server.handle L { env with mailOk := true } st hdr r).2.status →
      (Server.handle L { env with mailOk := false } st hdr r).2
        = (Server.handle L { env with mailOk := true } st hdr r).2) := by
  cases r with
  | auth r => exact mail_outcome_auth L env st hdr r
  | vendor r => exact mail_outcome_vendor L env st hdr r

theorem mail_failure_keeps_the_write_witness :
    (Server.handle demoLib { envAt 5 with mailOk := false } demoStore none
        (Request.auth (AuthRequest.register carolBody))).2.status = 500 ∧
    (Server.handle demoLib { envAt 5 with mailOk := false } demoStore none
        (Request.auth (AuthRequest.register carolBody))).2.error = true :=
  (mail_failure_keeps_the_write demoLib (envAt 5) demoStore none
    (Request.auth (AuthRequest.register carolBody))).2.1 rfl (by decide)

/-- C23: a registration whose mail fails. With delivery the vendor `register` of
`carolBody` is answered 201; when `sendMail` rejects, the same request is answered 500
`Error registering vendor`, and in both cases the new vendor is stored. -/
theorem failed_mail_is_answered_500 :
    (Server.handle demoLib { envAt 5 with mailOk := true } demoStore none
        (Request.vendor (VendorRequest.register carolBody))).2
      = Response.msg 201 "Vendor registered. Please verify OTP sent to your email." ∧
    (Server.handle demoLib { envAt 5 with mailOk := false } demoStore none
        (Request.vendor (VendorRequest.register carolBody))).2
      = Response.caught 500 "Error registering vendor" ∧
    (Server.handle demoLib { envAt 5 with mailOk := false } demoStore none
        (Request.vendor (VendorRequest.register carolBody))).1
      = (Server.handle demoLib { envAt 5 with mailOk := true } demoStore none
        (Request.vendor (VendorRequest.register carolBody))).1 ∧
    (Server.handle demoLib { envAt 5 with mailOk := false } demoStore none
        (Request.vendor (VendorRequest.register carolBody))).1.vendors.map
        (fun v => v.email) = ["a@b.com", "b@b.com", "c@b.com"] ∧
    (Server.handle demoLib { envAt 5 with mailOk := false } demoStore none
        (Request.auth (AuthRequest.register carolBody))).2
      = Response.caught 500 "Error registering user" :=
  ⟨by decide, by decide, by decide, by decide, by decide⟩


/-! ## Client errors write nothing -/

theorem client_error_vendor (L : Lib) (env : Env) (st : Store) (hdr : Option String)
    (r : VendorRequest)
    (h1 : 400 ≤ (VendorRoutes.handle L env st hdr r).2.status)
    (h2 : (VendorRoutes.handle L env st hdr r).2.status < 500) :
    (VendorRoutes.handle L env st hdr r).1 = st := by
  revert h1 h2
  cases r <;> simp only [VendorRoutes.handle, VendorRoutes.withVendor, VendorRoutes.validate]
  all_goals
    simp only [VendorController.register, VendorController.verifyOTP,
      VendorController.resendOTP, VendorController.updateVendor,
      VendorController.updatePassword, VendorController.deleteAccount,
      VendorController.login, VendorController.logout, VendorController.dashboard,
      VendorController.addRestaurant, VendorController.getRestaurant,
      VendorController.updateRestaurant, VendorController.deleteRestaurant,
      VendorController.addItem, VendorController.getItems, VendorController.updateItem,
      VendorController.deleteItem, VendorController.searchItems,
      VendorController.addBreakfastPackage, VendorController.getBreakfastPackages,
      VendorController.updateBreakfastPackage, VendorController.writePackageUpdate,
      VendorController.deleteBreakfastPackage]
    repeat' split
    all_goals first
      | exact fun _ _ => rfl
      | (intro h1 h2
         exfalso
         rcases hm : env.mailOk <;>
           simp [hm, afterMail, Response.msg, Response.caught, Response.withPayload]
             at h1 h2)

theorem client_error_auth (L : Lib) (env : Env) (st : Store) (hdr : Option String)
    (r : AuthRequest)
    (h1 : 400 ≤ (AuthRoutes.handle L env st hdr r).2.status)
    (h2 : (AuthRoutes.handle L env st hdr r).2.status < 500) :
    (AuthRoutes.handle L env st hdr r).1 = st := by
  revert h1 h2
  cases r <;> simp only [AuthRoutes.handle, AuthRoutes.withUser]
  all_goals
    simp only [AuthController.register, AuthController.verifyOTP, AuthController.resendOTP,
      AuthController.login, AuthController.logout, AuthController.updateUser,
      AuthController.updatePassword, AuthController.deleteAccount,
      AuthController.dashboard, AuthController.adminStats]
    repeat' split
    all_goals first
      | exact fun _ _ => rfl
      | (intro h1 h2
         exfalso
         rcases hm : env.mailOk <;>
           simp [hm, afterMail, Response.msg, Response.caught, Response.withPayload]
             at h1 h2)


/-- C24: a request that is answered with a 4xx status, by a middleware, a validator or
a handler of either router, leaves the store as it was. -/
theorem client_error_writes_nothing (L : Lib) (env : Env) (st : Store)
    (hdr : Option String) (r : Request)
    (h1 : 400 ≤ (Server.handle L env st hdr r).2.status)
    (h2 : (Server.handle L env st hdr r).2.status < 500) :
    (Server.handle L env st hdr r).1 = st := by
  cases r with
  | auth r => exact client_error_auth L env st hdr r h1 h2
  | vendor r => exact client_error_vendor L env st hdr r h1 h2

theorem client_error_writes_nothing_witness :
    (Server.handle demoLib (envAt 700000) demoStore none
        (Request.auth (AuthRequest.verifyOTP
          { emptyBody with email := some "b@b.com", otp := some "$2b$123456" }))).2
      = Response.msg 400 "Invalid or expired OTP" ∧
    (Server.handle demoLib (envAt 700000) demoStore none
        (Request.auth (AuthRequest.verifyOTP
          { emptyBody with email := some "b@b.com", otp := some "$2b$123456" }))).1
      = demoStore :=
  ⟨by decide,
    client_error_writes_nothing demoLib (envAt 700000) demoStore none
      (Request.auth (AuthRequest.verifyOTP
        { emptyBody with email := some "b@b.com", otp := some "$2b$123456" }))
      (by decide) (by decide)⟩


/-! ## Roles at registration -/

theorem register_user_created (L : Lib) (env : Env) (st : Store) (b : AuthBody)
    (h : (AuthController.register L env st b).2.status = 201) :
    ∃ email password u, b.email = some email ∧ b.password = some password ∧
      email ≠ "" ∧ password ≠ "" ∧
      (AuthController.register L env st b).1 = { st with users := st.users ++ [u] } ∧
      findOneByEmail L st.users email = none ∧
      u._id = env.newId ∧ u.email = emailSetter L email ∧ u.password = L.hash password ∧
      u.isVerified = false ∧
      u.role = (if falsy b.role then "user" else b.role.getD "") ∧
      u.role ∈ userRoles := by
  unfold AuthController.register at h ⊢
  split at h
  · simp [Response.msg] at h
  rename_i hg
  rw [if_neg hg]
  rcases he : b.email with _ | email
  · simp [he, falsy] at hg
  rcases hp : b.password with _ | password
  · simp [hp, falsy] at hg
  have hne : email ≠ "" := by
    intro h0
    simp [he, falsy, h0] at hg
  have hpne : password ≠ "" := by
    intro h0
    simp [hp, falsy, h0] at hg
  simp only [he, hp, Option.getD_some] at h ⊢
  split at h
  · simp [Response.msg] at h
  rename_i hat
  rw [if_neg hat]
  split at h
  · simp [Response.msg] at h
  rename_i hrole
  rw [if_neg hrole]
  rcases hf : findOneByEmail L st.users email with _ | old
  · simp only [hf] at h ⊢
    rcases hs : userSave L none
        { _id := env.newId, name := b.name.getD "", email := emailSetter L email,
          password := password, phoneNumber := b.phoneNumber.getD "",
          address := b.address.getD "", otp := some (generateOTP env.rand),
          otpExpiry := some (env.now + otpWindow), isVerified := false,
          role := if falsy b.role then "user" else b.role.getD "" }
      with _ | saved
    · simp [hs, Response.caught] at h
    · simp only [hs]
      have hk := userSave_keeps L _ _ _ hs
      have hrl : saved.role = (if falsy b.role then "user" else b.role.getD "") := by
        rw [(userSave_eq L _ _ _ hs).2]
        exact (preSave_keeps L _ _ _).2.2.2.2.1
      refine ⟨email, password, saved, rfl, rfl, hne, hpne, rfl, hf,
        hk.1, hk.2.2, ?_, hk.2.1, hrl, ?_⟩
      · rw [(userSave_eq L _ _ _ hs).2]
        exact (vendorPreSave_password L _ _).2
      · rw [hrl]
        by_cases hfr : falsy b.role = true
        · simp [hfr, userRoles]
        · simp only [Bool.not_eq_true] at hfr
          simp only [hfr, Bool.not_false, Bool.true_and, Bool.not_eq_true',
            Bool.not_eq_false] at hrole
          simp only [hfr, Bool.false_eq_true, if_false]
          simpa using hrole
  · simp [hf, Response.msg] at h

theorem verifyOTP_user_ok (L : Lib) (env : Env) (st : Store) (b : AuthBody)
    (h : (AuthController.verifyOTP L env st b).2.status = 200) :
    ∃ email u saved, b.email = some email ∧ findOneByEmail L st.users email = some u ∧
      userSave L (some u) (verifiedAccount u) = some saved ∧
      (AuthController.verifyOTP L env st b).1
        = { st with users := replaceById st.users saved } := by
  unfold AuthController.verifyOTP at h ⊢
  split at h
  · simp [Response.msg] at h
  rename_i hg
  rw [if_neg hg]
  rcases he : b.email with _ | email
  · simp [he, falsy] at hg
  simp only [he, Option.getD_some] at h ⊢
  rcases hf : findOneByEmail L st.users email with _ | u
  · simp [hf, Response.msg] at h
  simp only [hf] at h ⊢
  split at h
  · simp [Response.msg] at h
  rename_i hv
  rw [if_neg hv]
  split at h
  · simp [Response.msg] at h
  rename_i ho
  rw [if_neg ho]
  rcases hs : userSave L (some u) (verifiedAccount u) with _ | saved
  · have hs2 : userSave L (some u)
        { u with isVerified := true, otp := none, otpExpiry := none } = none := hs
    simp [hs2, Response.caught] at h
  · have hs2 : userSave L (some u)
        { u with isVerified := true, otp := none, otpExpiry := none } = some saved := hs
    simp only [hs2]
    exact ⟨email, u, saved, rfl, hf, hs, rfl⟩

theorem findById_replace_new (l : List Account) (u v : Account)
    (hfresh : u._id ∉ l.map (fun d => d._id)) (hv : v._id = u._id) :
    findById (replaceById (l ++ [u]) v) u._id = some v := by
  induction l with
  | nil => simp [findById, replaceById, updateFirst, hv]
  | cons d ds ih =>
    simp only [List.map_cons, List.mem_cons, not_or] at hfresh
    have hd : (d._id == u._id) = false := by
      simpa using fun h => hfresh.1 h.symm
    have ih2 := ih hfresh.2
    simp only [findById, replaceById, hv] at ih2 ⊢
    simp [updateFirst, hd, ih2]

theorem registered_admin_reaches_stats (L : Lib)
    (hb : ∀ p, L.compare p (L.hash p) = true)
    (hjwt : ∀ c k, c._id = some k → ∃ d, L.verify (L.sign c) = some d ∧ d._id = some k)
    (env env2 : Env) (st : Store) (b vb : AuthBody)
    (hfresh : env.newId ∉ st.users.map (fun d => d._id))
    (hrole : b.role = some "admin")
    (hreg : (AuthRoutes.handle L env st none (AuthRequest.register b)).2.status = 201)
    (hvb : vb.email = b.email)
    (hver : (AuthRoutes.handle L env2
        (AuthRoutes.handle L env st none (AuthRequest.register b)).1 none
        (AuthRequest.verifyOTP vb)).2.status = 200) :
    ∃ tok,
      (∀ (env3 : Env) (hdr3 : Option String),
        (AuthRoutes.handle L env3
          (AuthRoutes.handle L env2
            (AuthRoutes.handle L env st none (AuthRequest.register b)).1 none
            (AuthRequest.verifyOTP vb)).1 hdr3
          (AuthRequest.login { emptyBody with email := b.email, password := b.password })).1
          = (AuthRoutes.handle L env2
              (AuthRoutes.handle L env st none (AuthRequest.register b)).1 none
              (AuthRequest.verifyOTP vb)).1 ∧
        (AuthRoutes.handle L env3
          (AuthRoutes.handle L env2
            (AuthRoutes.handle L env st none (AuthRequest.register b)).1 none
            (AuthRequest.verifyOTP vb)).1 hdr3
          (AuthRequest.login { emptyBody with email := b.email, password := b.password })).2.token
          = some tok ∧
        (AuthRoutes.handle L env3
          (AuthRoutes.handle L env2
            (AuthRoutes.handle L env st none (AuthRequest.register b)).1 none
            (AuthRequest.verifyOTP vb)).1 hdr3
          (AuthRequest.login { emptyBody with email := b.email, password := b.password })).2.role
          = some "admin") ∧
      (∀ (env4 : Env) (hdr : Option String), bearerToken hdr = some tok →
        AuthMiddleware.restrictTo ["admin"]
            ((AuthMiddleware.authenticateToken L
              (AuthRoutes.handle L env2
                (AuthRoutes.handle L env st none (AuthRequest.register b)).1 none
                (AuthRequest.verifyOTP vb)).1 hdr).toOption) = Except.ok () ∧
        AuthRoutes.handle L env4
            (AuthRoutes.handle L env2
              (AuthRoutes.handle L env st none (AuthRequest.register b)).1 none
              (AuthRequest.verifyOTP vb)).1 hdr AuthRequest.adminStats
          = AuthController.adminStats
              (AuthRoutes.handle L env2
                (AuthRoutes.handle L env st none (AuthRequest.register b)).1 none
                (AuthRequest.verifyOTP vb)).1) := by
  simp only [AuthRoutes.handle] at hreg hver ⊢
  obtain ⟨email, password, u, he, hp, hne, hpne, hst1, hnone, hid, hem, hpw, _, hrl, _⟩ :=
    register_user_created L env st b hreg
  have hf1 : findOneByEmail L ({ st with users := st.users ++ [u] } : Store).users email
      = some u := findOneByEmail_append L st.users email u hnone hem
  rw [hst1] at hver ⊢
  obtain ⟨email2, u2, saved, he2, hf2, hs, hst2⟩ := verifyOTP_user_ok L env2 _ vb hver
  rw [hst2]
  have hee : email2 = email := by
    rw [hvb, he] at he2
    exact (Option.some.inj he2).symm
  subst hee
  have hu : u2 = u := by
    rw [hf1] at hf2
    exact (Option.some.inj hf2).symm
  subst hu
  have hk := userSave_keeps L _ _ _ hs
  have hsv := (userSave_eq L _ _ _ hs).2
  have hsrole : saved.role = "admin" := by
    rw [hsv, (preSave_keeps L _ _ _).2.2.2.2.1]
    show u2.role = "admin"
    rw [hrl, hrole]
    simp [falsy]
  have hspw : saved.password = L.hash password := by
    rw [hsv]
    have hm : passwordModified (some u2) (verifiedAccount u2) = false := by
      simp [passwordModified, verifiedAccount]
    rw [hm, (vendorPreSave_password L _ _).1]
    exact hpw
  have hsver : saved.isVerified = true := hk.2.1
  have hf3 : findOneByEmail L (replaceById (st.users ++ [u2]) saved) email2 = some saved :=
    findOneByEmail_replaceById L _ email2 u2 saved hf1 hk.1 hk.2.2
  have hlogin : AuthController.login L
      { st with users := replaceById (st.users ++ [u2]) saved }
      { emptyBody with email := b.email, password := b.password }
      = ({ st with users := replaceById (st.users ++ [u2]) saved },
          { Response.msg 200 "Login successful" with
            token := some (L.sign
              { _id := some saved._id, vendorId := none, email := saved.email,
                name := saved.name, role := some "admin" }),
            role := some "admin" }) := by
    unfold AuthController.login
    simp only [he, hp, Option.getD_some]
    rw [if_neg (by simp [falsy, hne, hpne])]
    simp only [hf3]
    simp [hspw, hb, hsver, hsrole]
  refine ⟨L.sign
    { _id := some saved._id, vendorId := none, email := saved.email, name := saved.name,
      role := some "admin" }, ?_, ?_⟩
  · intro env3 hdr3
    rw [hlogin]
    exact ⟨rfl, rfl, rfl⟩
  · intro env4 hdr hh
    obtain ⟨d, hd, hdid⟩ := hjwt
      { _id := some saved._id, vendorId := none, email := saved.email, name := saved.name,
        role := some "admin" } saved._id rfl
    have hfb : findById (replaceById (st.users ++ [u2]) saved) u2._id = some saved :=
      findById_replace_new st.users u2 saved (by rw [hid]; exact hfresh) hk.1
    have hauth : AuthMiddleware.authenticateToken L
        { st with users := replaceById (st.users ++ [u2]) saved } hdr
        = Except.ok { _id := saved._id, email := saved.email, name := saved.name,
                      role := "admin" } := by
      rw [userAuth_of_claims L _ hdr _ d hh hd, hdid]
      simp only [Option.some_bind]
      have hfb2 : findById (replaceById (st.users ++ [u2]) saved) saved._id = some saved := by
        rw [hk.1]
        exact hfb
      rw [hfb2]
      simp [hsrole]
    constructor
    · rw [hauth]
      simp [Except.toOption, AuthMiddleware.restrictTo]
    · exact (adminStats_route L env4 _ hdr _ hauth).1 rfl

theorem demoLib_jwt (c : Claims) (k : ObjectId) (h : c._id = some k) :
    ∃ d, demoLib.verify (demoLib.sign c) = some d ∧ d._id = some k := by
  simp [demoLib, h]

theorem register_user_role (L : Lib) (env : Env) (st : Store) (hdr : Option String)
    (b : AuthBody)
    (h : (AuthRoutes.handle L env st hdr (AuthRequest.register b)).2.status = 201) :
    ∃ u, (AuthRoutes.handle L env st hdr (AuthRequest.register b)).1
        = { st with users := st.users ++ [u] } ∧
      u.role ∈ userRoles ∧
      (∀ r, b.role = some r → r ≠ "" → u.role = r) ∧
      (falsy b.role = true → u.role = "user") := by
  simp only [AuthRoutes.handle] at h ⊢
  obtain ⟨email, password, u, _, _, _, _, hst1, _, _, _, _, _, hrl, hmem⟩ :=
    register_user_created L env st b h
  refine ⟨u, hst1, hmem, ?_, ?_⟩
  · intro r hr hne
    rw [hrl, hr]
    simp [falsy, hne]
  · intro hf
    rw [hrl]
    simp [hf]

/-- C25: the user `register` route runs without a middleware, whatever the
`authorization` header; a user created by a `register` answered 201 has a role among
`user`, `vendor`, `deliverypartner` and `admin`, the role of the body when one is
supplied and `user` otherwise; and after a registration with role `admin` answered 201
under a fresh ObjectId, once a `verifyOTP` for that email has been answered 200, a
`login` with the registered email and password is given a token and the role `admin`,
and with that token `restrictTo('admin')` calls `next` and the admin-stats route runs
`adminStats`. `compare p (hash p)` holds and a signed token verifies with its `_id`
claim. -/
theorem register_takes_role_from_body (L : Lib)
    (hb : ∀ p, L.compare p (L.hash p) = true)
    (hjwt : ∀ c k, c._id = some k → ∃ d, L.verify (L.sign c) = some d ∧ d._id = some k)
    (env env2 : Env) (st : Store) (b vb : AuthBody) :
    (∀ hdr : Option String,
      AuthRoutes.handle L env st hdr (AuthRequest.register b)
        = AuthController.register L env st b) ∧
    ((AuthRoutes.handle L env st none (AuthRequest.register b)).2.status = 201 →
      ∃ u, (AuthRoutes.handle L env st none (AuthRequest.register b)).1
          = { st with users := st.users ++ [u] } ∧
        u.role ∈ userRoles ∧
        (∀ r, b.role = some r → r ≠ "" → u.role = r) ∧
        (falsy b.role = true → u.role = "user")) ∧
    (env.newId ∉ st.users.map (fun d => d._id) → b.role = some "admin" →
      (AuthRoutes.handle L env st none (AuthRequest.register b)).2.status = 201 →
      vb.email = b.email →
      (AuthRoutes.handle L env2
        (AuthRoutes.handle L env st none (AuthRequest.register b)).1 none
        (AuthRequest.verifyOTP vb)).2.status = 200 →
      ∃ tok,
        (∀ (env3 : Env) (hdr3 : Option String),
          (AuthRoutes.handle L env3
            (AuthRoutes.handle L env2
              (AuthRoutes.handle L env st none (AuthRequest.register b)).1 none
              (AuthRequest.verifyOTP vb)).1 hdr3
            (AuthRequest.login
              { emptyBody with email := b.email, password := b.password })).1
            = (AuthRoutes.handle L env2
                (AuthRoutes.handle L env st none (AuthRequest.register b)).1 none
                (AuthRequest.verifyOTP vb)).1 ∧
          (AuthRoutes.handle L env3
            (AuthRoutes.handle L env2
              (AuthRoutes.handle L env st none (AuthRequest.register b)).1 none
              (AuthRequest.verifyOTP vb)).1 hdr3
            (AuthRequest.login
              { emptyBody with email := b.email, password := b.password })).2.token
            = some tok ∧
          (AuthRoutes.handle L env3
            (AuthRoutes.handle L env2
              (AuthRoutes.handle L env st none (AuthRequest.register b)).1 none
              (AuthRequest.verifyOTP vb)).1 hdr3
            (AuthRequest.login
              { emptyBody with email := b.email, password := b.password })).2.role
            = some "admin") ∧
        (∀ (env4 : Env) (hdr : Option String), bearerToken hdr = some tok →
          AuthMiddleware.restrictTo ["admin"]
              ((AuthMiddleware.authenticateToken L
                (AuthRoutes.handle L env2
                  (AuthRoutes.handle L env st none (AuthRequest.register b)).1 none
                  (AuthRequest.verifyOTP vb)).1 hdr).toOption) = Except.ok () ∧
          AuthRoutes.handle L env4
              (AuthRoutes.handle L env2
                (AuthRoutes.handle L env st none (AuthRequest.register b)).1 none
                (AuthRequest.verifyOTP vb)).1 hdr AuthRequest.adminStats
            = AuthController.adminStats
                (AuthRoutes.handle L env2
                  (AuthRoutes.handle L env st none (AuthRequest.register b)).1 none
                  (AuthRequest.verifyOTP vb)).1)) :=
  ⟨fun _ => rfl, fun h => register_user_role L env st none b h,
    fun hfresh hrole hreg hvb hver =>
      registered_admin_reaches_stats L hb hjwt env env2 st b vb hfresh hrole hreg hvb hver⟩

theorem register_takes_role_from_body_witness :
    ∃ tok,
      (AuthRoutes.handle demoLib (envAt 6)
        (AuthRoutes.handle demoLib (envAt 5)
          (AuthRoutes.handle demoLib (envAt 0) demoStore none
            (AuthRequest.register { carolBody with role := some "admin" })).1 none
          (AuthRequest.verifyOTP
            { emptyBody with email := some "c@b.com", otp := some "$2b$123456" })).1 none
        (AuthRequest.login
          { emptyBody with email := some "c@b.com", password := some "secret3" })).2.token
        = some tok ∧
      ∀ (env4 : Env) (hdr : Option String), bearerToken hdr = some tok →
        AuthRoutes.handle demoLib env4
            (AuthRoutes.handle demoLib (envAt 5)
              (AuthRoutes.handle demoLib (envAt 0) demoStore none
                (AuthRequest.register { carolBody with role := some "admin" })).1 none
              (AuthRequest.verifyOTP
                { emptyBody with email := some "c@b.com", otp := some "$2b$123456" })).1
            hdr AuthRequest.adminStats
          = AuthController.adminStats
              (AuthRoutes.handle demoLib (envAt 5)
                (AuthRoutes.handle demoLib (envAt 0) demoStore none
                  (AuthRequest.register { carolBody with role := some "admin" })).1 none
                (AuthRequest.verifyOTP
                  { emptyBody with email := some "c@b.com",
                                   otp := some "$2b$123456" })).1 :=
  match (register_takes_role_from_body demoLib (fun p => (demoLib_compare p p).2 rfl)
      demoLib_jwt (envAt 0) (envAt 5) demoStore
      { carolBody with role := some "admin" }
      { emptyBody with email := some "c@b.com", otp := some "$2b$123456" }).2.2
      (by decide) rfl (by decide) rfl (by decide) with
  | ⟨tok, h2, h3⟩ => ⟨tok, (h2 (envAt 6) none).2.1, fun env4 hdr hh => (h3 env4 hdr hh).2⟩


/-! ## The active flag of a new package -/

theorem addPackage_ignores_isActive (L : Lib) (env : Env) (st : Store)
    (hdr : Option String) (b : PackageBody) (x : Option Bool) :
    VendorRoutes.handle L env st hdr
        (VendorRequest.addBreakfastPackage { b with isActive := x })
      = VendorRoutes.handle L env st hdr (VendorRequest.addBreakfastPackage b) := by
  simp only [VendorRoutes.handle, VendorRoutes.addPackageErrors,
    VendorController.addBreakfastPackage]

theorem addPackage_created (L : Lib) (env : Env) (st : Store) (hdr : Option String)
    (b : PackageBody)
    (h : (VendorRoutes.handle L env st hdr (VendorRequest.addBreakfastPackage b)).2.status
      = 201) :
    ∃ p, VendorRoutes.handle L env st hdr (VendorRequest.addBreakfastPackage b)
        = ({ st with packages := st.packages ++ [p] },
            Response.withPayload 201 "Breakfast package added successfully"
              (Payload.package p)) ∧
      p._id = env.newId ∧ p.isActive = true := by
  revert h
  simp only [VendorRoutes.handle, VendorRoutes.withVendor, VendorRoutes.validate,
    VendorController.addBreakfastPackage]
  repeat' split
  all_goals first
    | exact fun _ => ⟨_, rfl, rfl, rfl⟩
    | (intro h
       exfalso
       revert h
       simp [Response.msg, Response.invalid, Response.caught]
       done)
    | (intro h
       exfalso
       have h4 := vendorAuth_error_status L st hdr _ (by assumption)
       rcases h4 with h4 | h4 <;> simp [h4] at h)

theorem addPackage_new_is_active (L : Lib) (env : Env) (st : Store) (hdr : Option String)
    (b : PackageBody) :
    ∀ p ∈ (VendorRoutes.handle L env st hdr (VendorRequest.addBreakfastPackage b)).1.packages,
      p ∈ st.packages ∨ (p._id = env.newId ∧ p.isActive = true) := by
  simp only [VendorRoutes.handle, VendorRoutes.withVendor, VendorRoutes.validate,
    VendorController.addBreakfastPackage]
  repeat' split
  all_goals first
    | exact fun p hp => Or.inl hp
    | (intro p hp
       rcases List.mem_append.1 hp with h1 | h1
       · exact Or.inl h1
       · simp only [List.mem_singleton] at h1
         subst h1
         exact Or.inr ⟨rfl, rfl⟩)

/-- C26: `addBreakfastPackage` does not read the `isActive` field of the body: the
request with any value of the field, or none, has the result of the request without
it; a request answered 201 stores one new package, which has `isActive = true`; and
whatever the answer, a package of the store after the request is a package of the store
before it or the new one with `isActive = true`. -/
theorem new_package_is_active (L : Lib) (env : Env) (st : Store) (hdr : Option String)
    (b : PackageBody) :
    (∀ x : Option Bool,
      VendorRoutes.handle L env st hdr
          (VendorRequest.addBreakfastPackage { b with isActive := x })
        = VendorRoutes.handle L env st hdr (VendorRequest.addBreakfastPackage b)) ∧
    ((VendorRoutes.handle L env st hdr (VendorRequest.addBreakfastPackage b)).2.status = 201 →
      ∃ p, VendorRoutes.handle L env st hdr (VendorRequest.addBreakfastPackage b)
          = ({ st with packages := st.packages ++ [p] },
              Response.withPayload 201 "Breakfast package added successfully"
                (Payload.package p)) ∧
        p._id = env.newId ∧ p.isActive = true) ∧
    (∀ p ∈ (VendorRoutes.handle L env st hdr
        (VendorRequest.addBreakfastPackage b)).1.packages,
      p ∈ st.packages ∨ (p._id = env.newId ∧ p.isActive = true)) :=
  ⟨fun x => addPackage_ignores_isActive L env st hdr b x,
    fun h => addPackage_created L env st hdr b h,
    addPackage_new_is_active L env st hdr b⟩

theorem new_package_is_active_witness :
    (VendorRoutes.handle demoLib (envAt 5) demoMarket (some "Bearer vx")
        (VendorRequest.addBreakfastPackage
          { emptyPackageBody with packageName := some "Evening", price := some 70,
                                  items := some [IdArg.oid 10],
                                  isActive := some false })).1.packages.map
        (fun p => (p._id, p.isActive))
      = [(30, true), (31, true), (100, true)] ∧
    ∃ p, VendorRoutes.handle demoLib (envAt 5) demoMarket (some "Bearer vx")
        (VendorRequest.addBreakfastPackage
          { emptyPackageBody with packageName := some "Evening", price := some 70,
                                  items := some [IdArg.oid 10], isActive := some false })
        = ({ demoMarket with packages := demoMarket.packages ++ [p] },
            Response.withPayload 201 "Breakfast package added successfully"
              (Payload.package p)) ∧
      p._id = (envAt 5).newId ∧ p.isActive = true :=
  ⟨by decide,
    (new_package_is_active demoLib (envAt 5) demoMarket (some "Bearer vx")
      { emptyPackageBody with packageName := some "Evening", price := some 70,
                              items := some [IdArg.oid 10], isActive := some false }).2.1
      (by decide)⟩

end Breadbox
